import Mathlib

/-!
# Reconciliation engine of the Shopify payments app (f4b-shopify)

A shallow embedding of `server/utils.js`, `server/handlers.js` and
`server/jobs.js`.

Conventions of the embedding.

* A handler is one atomic step `Db → request → environment → Outcome`.  The
  environment record lists what the outside world answers during the step
  (gateway replies, remote-session replies, the clock).
* `Outcome.effects` is the ordered trace of the database statements and the
  outbound calls the handler issues; `Outcome.threw` says that the handler's
  promise rejected.
* Stored ciphertexts are represented by their plaintext: `utils.encrypt` and
  `utils.decrypt` are inverse on every value the application stores, and
  `utils.decrypt(null, _)` rejects.
* A JavaScript number that holds an amount is `JsNumber`: `nan` or a finite
  value counted in the smallest unit of the currency, so that `>=` on the
  doubles returned by `parseFloat` is `≥` on the integers.
-/

namespace F4bShopify

/-! ## JavaScript values -/

/-- A JavaScript number as far as the handlers look at it: `NaN` or finite. -/
inductive JsNumber where
  | nan
  | fin (n : Int)
  deriving DecidableEq, Repr

/-- A property slot of an in-memory object: the key is missing (`absent`),
present with value `undefined` (`undef`), `null`, or a proper value. -/
inductive JsField (α : Type) where
  | absent
  | undef
  | null
  | val (a : α)
  deriving DecidableEq, Repr

/-- A value `v` of a JSON request body that is interpolated into a template
string and passed to `Number(..)`: the key is missing (`undefined`), the
value is `null`, or it is any other value, given by what the two built-in
conversions make of it: `template` is the string `${v}` and `number` is
`Number(v)` (a result that is not an integer equals no row id and is given
as `nan`). -/
inductive JsVal where
  | undefined
  | null
  | value (template : String) (number : JsNumber)
  deriving DecidableEq, Repr

/-- Template-literal conversion `${v}`. -/
def JsVal.toTemplate : JsVal → String
  | .undefined => "undefined"
  | .null => "null"
  | .value template _ => template

/-- The call `Number(v)`. -/
def JsVal.toNumber : JsVal → JsNumber
  | .undefined => .nan
  | .null => .fin 0
  | .value _ number => number

/-- A value that reaches `utils.isValidCurrency` as a currency: the property
is missing (`undefined`), it is a string, given by its text `raw` and by the
string `normal` that `raw.trim().toUpperCase()` returns, or it is any other
value (`null`, a number, an object), on which `trim` is not a function. -/
inductive Currency where
  | undefined
  | text (raw : String) (normal : String)
  | other
  deriving DecidableEq, Repr

/-- The string `c.trim().toUpperCase()` that isValidCurrency computes for an
argument, after the default parameter has replaced `undefined` by `''`;
`none` when the call throws a TypeError. -/
def Currency.normalized : Currency → Option String
  | .undefined => some ""
  | .text _ normal => some normal
  | .other => none

/-- The upper-case form of a text of ASCII characters, which is what
`toUpperCase` returns for such a text. -/
def asciiUpperCase (s : String) : String := String.mk (s.data.map Char.toUpper)

/-- The ASCII white space: tab, line feed, vertical tab, form feed, carriage
return and space. -/
def isAsciiSpace (c : Char) : Bool :=
  c = ' ' || c = '\t' || c = '\n' || c = '\r' || c = Char.ofNat 11 || c = Char.ofNat 12

/-- A text of ASCII characters without its leading and trailing white space,
which is what `trim` returns for such a text. -/
def asciiTrim (s : String) : String :=
  String.mk (((s.data.dropWhile isAsciiSpace).reverse.dropWhile isAsciiSpace).reverse)

/-- The currency value that is the ASCII text `s`. -/
def Currency.ascii (s : String) : Currency := .text s (asciiUpperCase (asciiTrim s))

/-- Keys that every object literal inherits from `Object.prototype`: a lookup
`obj[k]` with one of them yields a truthy function or object even though the
literal does not list `k`. -/
def objectPrototypeKeys : List String :=
  ["constructor", "__proto__", "hasOwnProperty", "isPrototypeOf",
   "propertyIsEnumerable", "toLocaleString", "toString", "valueOf",
   "__defineGetter__", "__defineSetter__", "__lookupGetter__", "__lookupSetter__"]

/-- Truthiness of `lit[key]` for an object literal whose own keys are `own`
(all mapped to `1`) and a key that may be `undefined`. -/
def truthyLookup (own : List String) (key : Option String) : Bool :=
  match key with
  | none => decide ("undefined" ∈ own)
  | some k => decide (k ∈ own) || decide (k ∈ objectPrototypeKeys)

/-- `x || null` for a numeric id: 0 is falsy. -/
def orNullNat (x : Option Nat) : Option Nat :=
  match x with
  | some 0 => none
  | other => other

/-- `s || dflt` for a string that may be `undefined`: the empty string is falsy. -/
def orDefaultStr (s : Option String) (dflt : String) : String :=
  match s with
  | none => dflt
  | some t => if t = "" then dflt else t

/-! ## utils.js -/

/-- `exports.isValidCurrency = (c1 = '', c2 = '') =>
c1.trim().toUpperCase() === c2.trim().toUpperCase()`; the result is `none`
when the call throws, which it does when an argument is neither a string nor
`undefined`. -/
def isValidCurrency (c1 c2 : Currency) : Option Bool :=
  match c1.normalized, c2.normalized with
  | some a, some b => some (decide (a = b))
  | _, _ => none

/-- The comparison `a >= b` of two JavaScript numbers. -/
def JsNumber.ge (a b : JsNumber) : Bool :=
  match a, b with
  | .fin x, .fin y => decide (y ≤ x)
  | _, _ => false

/-- The comparison `a > b` of two JavaScript numbers. -/
def JsNumber.gt (a b : JsNumber) : Bool :=
  match a, b with
  | .fin x, .fin y => decide (y < x)
  | _, _ => false

/-- `exports.isValidAmount = (gptxA, shpA) => parseFloat(gptxA) >= parseFloat(shpA)`;
the arguments are the values `parseFloat` returns. -/
def isValidAmount (gptxA shpA : JsNumber) : Bool := gptxA.ge shpA

/-- Body of a gateway reply to the refund POST (`axiosRes.data`). -/
structure ApiBody where
  status : Option String
  extra : List (String × String)
  deriving DecidableEq, Repr

/-- The retry metadata object of a refund (`defaultMeta` lists its keys). -/
structure MetaObj where
  refundApiReqSuccessful : JsField Bool
  retryCount : JsField JsNumber
  maxRetries : JsField JsNumber
  lastApiResponseStatus : JsField Nat
  lastApiResponseObj : JsField ApiBody
  deriving DecidableEq, Repr

/-- The text of the `meta` column, by what `JSON.parse` makes of it: it
throws (`malformed`), returns a falsy value such as `null` (`falsy`), or
returns a metadata object. -/
inductive MetaText where
  | malformed
  | falsy
  | object (m : MetaObj)
  deriving DecidableEq, Repr

/-- The constant `defaultMeta` of utils.js and of handleRefundInit. -/
def defaultMeta : MetaObj :=
  { refundApiReqSuccessful := .null
    retryCount := .val (.fin 0)
    maxRetries := .val (.fin 7)
    lastApiResponseStatus := .null
    lastApiResponseObj := .null }

/-- The object literal `{}` read as a metadata object. -/
def emptyMeta : MetaObj :=
  { refundApiReqSuccessful := .absent
    retryCount := .absent
    maxRetries := .absent
    lastApiResponseStatus := .absent
    lastApiResponseObj := .absent }

/-- One key of `{ ...a, ...b }`: the slot of `b` when `b` has the key. -/
def JsField.spread {α : Type} (a b : JsField α) : JsField α :=
  match b with
  | .absent => a
  | other => other

/-- The spread `{ ...a, ...b }` of two metadata objects (one level deep). -/
def MetaObj.spread (a b : MetaObj) : MetaObj :=
  { refundApiReqSuccessful := a.refundApiReqSuccessful.spread b.refundApiReqSuccessful
    retryCount := a.retryCount.spread b.retryCount
    maxRetries := a.maxRetries.spread b.maxRetries
    lastApiResponseStatus := a.lastApiResponseStatus.spread b.lastApiResponseStatus
    lastApiResponseObj := a.lastApiResponseObj.spread b.lastApiResponseObj }

/-- What `JSON.parse(JSON.stringify(..))` keeps of a slot: `undefined` drops
the key. -/
def JsField.stringify {α : Type} : JsField α → JsField α
  | .undef => .absent
  | other => other

/-- What `JSON.stringify` keeps of a numeric slot: `NaN` is written `null`. -/
def stringifyNumber : JsField JsNumber → JsField JsNumber
  | .undef => .absent
  | .val .nan => .null
  | other => other

/-- `JSON.stringify(m)`, as the text that parses to the returned object. -/
def MetaObj.stringify (m : MetaObj) : MetaText :=
  .object
    { refundApiReqSuccessful := m.refundApiReqSuccessful.stringify
      retryCount := stringifyNumber m.retryCount
      maxRetries := stringifyNumber m.maxRetries
      lastApiResponseStatus := m.lastApiResponseStatus.stringify
      lastApiResponseObj := m.lastApiResponseObj.stringify }

/-- `exports.generateRefundMeta(shopifyRefund = {}, meta = defaultMeta)`:
`savedText` is `shopifyRefund.meta` (`none` when the argument has no `meta`
property, in which case `JSON.parse(undefined)` throws and `{}` is kept). -/
def generateRefundMeta (savedText : Option MetaText) (meta : MetaObj) : MetaText :=
  let savedMeta : MetaObj :=
    match savedText with
    | some (.object m) => m
    | some .falsy => defaultMeta
    | some .malformed => emptyMeta
    | none => emptyMeta
  (savedMeta.spread meta).stringify

/-! ## Persisted tables (db/index.js) -/

/-- The decrypted JSON of `shopify_config.keys`. -/
structure Keys where
  sk : Option String
  pk : Option String
  test_sk : Option String
  test_pk : Option String
  deriving DecidableEq, Repr

/-- A row of `shopify_config`. -/
structure ShopifyConfig where
  id : Nat
  shop : String
  access_token : Option String
  keys : Option Keys
  is_installed : Bool
  deriving DecidableEq, Repr

/-- The fields the handlers read from `JSON.parse(order.raw)`; `amount` is
what `parseFloat` returns on the stored amount. -/
structure OrderRaw where
  currency : Currency
  amount : JsNumber
  cancel_url : Option String
  deriving DecidableEq, Repr

/-- What the column `gptxid` holds: the transaction id that the gateway
reported (`id`, handlers.js line 256), or the `tx_id` of a callback body
(`body`, line 1341), given as in `JsVal.value`. -/
inductive TxRef where
  | id (n : Nat)
  | body (template : String) (number : JsNumber)
  deriving DecidableEq, Repr

/-- A row of `shopify_order`. -/
structure ShopifyOrder where
  id : Nat
  shop : String
  order_id : String
  gid : String
  raw : OrderRaw
  is_test : Bool
  hosted_link : Option String
  status : Option String
  gptxid : Option TxRef
  account_id : Option Nat
  deriving DecidableEq, Repr

/-- A row of `shopify_refund`; `amount` is what `parseFloat` returns on it. -/
structure ShopifyRefund where
  id : Nat
  refund_id : String
  gid : String
  payment_id : String
  currency : Option String
  amount : JsNumber
  is_test : Bool
  shop : String
  account_id : Option Nat
  gptxid : Option TxRef
  status : Option String
  meta : MetaText
  retry_ts : Option Nat
  deriving DecidableEq, Repr

/-- A row of the legacy table `getpaid_order` (a pre-checkout order stub). -/
structure GetpaidOrder where
  id : Nat
  txRef : String
  deriving DecidableEq, Repr

/-- A transaction as the gateway reports it (`verifyTrx.data.data`) or as
the table `getpaid_transaction` stores it (where the columns are `AccountId`
and `flwRef`); a field that is `none` is missing, `amount` is what
`parseFloat` returns on it, and `{}` is `GpTx.empty`. -/
structure GpTx where
  id : Option Nat
  status : Option String
  currency : Currency
  amount : JsNumber
  account_id : Option Nat
  chargeResponseMessage : Option String
  flw_ref : Option String
  deriving DecidableEq, Repr

/-- The object literal `{}` read as a transaction. -/
def GpTx.empty : GpTx :=
  { id := none, status := none, currency := .undefined, amount := .nan,
    account_id := none, chargeResponseMessage := none, flw_ref := none }

/-- A row of `progress_guard`. -/
structure ProgressGuard where
  entity : String
  entity_type : String
  deriving DecidableEq, Repr

/-- The relational store. -/
structure Db where
  shopifyConfig : List ShopifyConfig
  shopifyOrder : List ShopifyOrder
  shopifyRefund : List ShopifyRefund
  getpaidOrder : List GetpaidOrder
  getpaidTransaction : List GpTx
  progressGuard : List ProgressGuard
  deriving DecidableEq, Repr

/-- The first row of `select .. from shopify_order where { shop, order_id }`. -/
def findOrder (db : Db) (shop order_id : String) : Option ShopifyOrder :=
  (db.shopifyOrder.filter fun o => o.shop = shop ∧ o.order_id = order_id).head?

/-- The first row of `select .. from shopify_config where { shop }`. -/
def findConfig (db : Db) (shop : String) : Option ShopifyConfig :=
  (db.shopifyConfig.filter fun c => c.shop = shop).head?

/-- The row of `select id from getpaid_order where { txRef } order by id desc
limit 1` (rows are kept in ascending `id`). -/
def findStub (db : Db) (txRef : String) : Option GetpaidOrder :=
  (db.getpaidOrder.filter fun g => g.txRef = txRef).getLast?

/-- The first row of `select .. from shopify_order where { order_id: payment_id }`. -/
def findPaymentOrder (db : Db) (payment_id : String) : Option ShopifyOrder :=
  (db.shopifyOrder.filter fun o => o.order_id = payment_id).head?

/-! ## Effects and outcomes -/

/-- A database statement or an outbound call issued by a handler. -/
inductive Effect where
  | dbSelect (table : String)
  | dbInsert (table : String)
  | dbUpdate (table : String)
  | gatewayVerify
  | gatewayRefundPost
  | gatewayPaymentPost
  | paymentSessionResolve (gid : String)
  | paymentSessionPending (gid : String)
  | paymentSessionReject (gid : String) (merchantMessage : String)
  | refundSessionResolve (gid : String)
  | refundSessionReject (gid : String) (merchantMessage : String)
  | setTimeout (ms : Nat) (task : Effect)
  deriving DecidableEq, Repr

/-- The HTTP response a handler sends. -/
inductive Response where
  | json (status : Nat) (message : String)
  | jsonRedirectUrl (redirect_url : String)
  | redirect (url : Option String)
  | ended
  deriving DecidableEq, Repr

/-- Result of running a handler: the store afterwards, the first response
sent (`none` when there is none), the trace, and whether the handler threw. -/
structure Outcome where
  db : Db
  response : Option Response
  effects : List Effect
  threw : Bool
  deriving DecidableEq, Repr

/-- The response of the top-level error middleware of server/index.js. -/
def internalError : Response :=
  .json 500 "An internal error occurred processing your request"

/-- A handler that throws before it has sent a response. -/
def throwUnanswered (db : Db) (effects : List Effect) : Outcome :=
  { db := db, response := some internalError, effects := effects, threw := true }

/-- What the gateway verification request `axios.get(.../verify)` does:
it rejects, resolves to a falsy value, or resolves to a response whose
`data.data` is a transaction or is missing. -/
inductive VerifyOutcome where
  | threw
  | falsy
  | resp (data : Option GpTx)
  deriving DecidableEq, Repr

/-- What `client.request(mutation, variables)` does for a payment session:
it rejects, or replies with `paymentSession` null (`reply none`) or with a
session whose `nextAction.context.redirectUrl` is given. -/
inductive RemoteOutcome where
  | threw
  | reply (paymentSession : Option (Option String))
  deriving DecidableEq, Repr

/-! ## handlers.js: handlePaymentInit -/

/-- The checkout-init request: the header `shopify-shop-domain` and the JSON
body `order`.  `raw` holds the fields of the body that the other handlers
read back from the stored payload, `test` is `Boolean(order.test)` and
`customer` says whether `order.customer` is an object (reading
`order.customer.email` throws otherwise). -/
structure InitReq where
  shop : String
  id : String
  gid : String
  raw : OrderRaw
  test : Bool
  customer : Bool
  deriving DecidableEq, Repr

/-- What the payment-link request `axios.post(paymentUrl, ..)` does: it
rejects, or resolves to a response whose `data.data.link` may be missing. -/
inductive LinkOutcome where
  | threw
  | resp (link : Option String)
  deriving DecidableEq, Repr

/-- An auto-increment key that no stored order row uses. -/
def nextOrderId (rows : List ShopifyOrder) : Nat :=
  (rows.map fun o => o.id).foldr max 0 + 1

/-- Modelled from the spec: the migration that creates `shopify_order` is not
among the sources.  There is exactly one row per (merchant, order
identifier), so that an insert which repeats a stored pair fails (`none`);
any other insert appends the row of lines 137-146, whose status is the
column default `defaultStatus`. -/
def insertOrder (rows : List ShopifyOrder) (defaultStatus : Option String) (req : InitReq)
    (checkoutLink : String) : Option (List ShopifyOrder) :=
  if rows.any fun o => o.shop = req.shop ∧ o.order_id = req.id then none
  else some (rows ++ [{ id := nextOrderId rows, shop := req.shop, order_id := req.id,
                        gid := req.gid, raw := req.raw, is_test := req.test,
                        hosted_link := some checkoutLink, status := defaultStatus,
                        gptxid := none, account_id := none }])

/-- The test of line 79: the stored link of an order row that is `pending`
and whose `hosted_link` is truthy. -/
def reusableLink (existingOrder : Option ShopifyOrder) : Option String :=
  match existingOrder with
  | none => none
  | some o =>
    if o.status = some "pending" then
      match o.hosted_link with
      | none => none
      | some link => if link = "" then none else some link
    else none

/-- `axiosRes?.data?.data?.link || null` of line 128. -/
def checkoutLinkOf (post : LinkOutcome) : Option String :=
  match post with
  | .threw => none
  | .resp none => none
  | .resp (some link) => if link = "" then none else some link

/-- The handler `exports.handlePaymentInit`; `defaultStatus` is the column
default of `shopify_order.status`. -/
def handlePaymentInit (defaultStatus : Option String) (db : Db) (req : InitReq)
    (post : LinkOutcome) : Outcome :=
  let existingOrder := findOrder db req.shop req.id
  let e0 : List Effect := [.dbSelect "shopify_config", .dbSelect "shopify_order"]
  match reusableLink existingOrder with
  | some link =>
    { db := db, response := some (.jsonRedirectUrl link), effects := e0, threw := false }
  | none =>
    if (existingOrder.bind fun o => o.status) = some "completed" then
      { db := db, response := some (.json 400 "order already completed"), effects := e0,
        threw := false }
    else if req.customer = false then throwUnanswered db e0
    else
      let e1 := e0 ++ [.gatewayPaymentPost]
      match checkoutLinkOf post with
      | none =>
        { db := db
          response := some (.json 503 "An error occured initiating the payment session.")
          effects := e1, threw := false }
      | some checkoutLink =>
        let e2 := e1 ++ [.dbInsert "shopify_order"]
        match insertOrder db.shopifyOrder defaultStatus req checkoutLink with
        | none => throwUnanswered db e2
        | some rows =>
          { db := { db with shopifyOrder := rows }
            response := some (.jsonRedirectUrl checkoutLink), effects := e2, threw := false }

/-! ## handlers.js: handlePaymentRedirect -/

/-- The object `statusMap`; a key inherited from `Object.prototype` yields a
function, which is none of the status strings and is returned as `none`. -/
def statusMap : String → Option String
  | "completed" => some "completed"
  | "successful" => some "completed"
  | "canceled" => some "cancelled"
  | "cancelled" => some "cancelled"
  | "invalid" => some "cancelled"
  | "failed" => some "failed"
  | "pending" => some "pending"
  | "success" => some "completed"
  | "success-pending-validation" => some "pending"
  | _ => none

/-- `gptxPendStatuses[s]` is truthy. -/
def gptxPendStatuses (s : Option String) : Bool :=
  truthyLookup ["pending", "success-pending-validation"] s

/-- `gptxSucessStatuses[s]` is truthy. -/
def gptxSucessStatuses (s : Option String) : Bool :=
  truthyLookup ["successful", "completed"] s

/-- `gptxFailedStatuses[s]` is truthy. -/
def gptxFailedStatuses (s : Option String) : Bool :=
  truthyLookup ["failed"] s

/-- The redirect-return request: `req.params.shop` and the query string. -/
structure RedirectReq where
  shop : String
  tx_ref : String
  status : Option String
  transaction_id : Option String
  deriving DecidableEq, Repr

/-- What the outside world answers during one redirect-return. -/
structure RedirectEnv where
  verify : VerifyOutcome
  remote : RemoteOutcome
  deriving DecidableEq, Repr

/-- The transaction `gptx` after lines 195-215: verification is only
requested when the channel status is not a cancellation. -/
def redirectGptx (paymentStatus : Option String) (verify : VerifyOutcome) : Option GpTx :=
  if paymentStatus ≠ some "cancelled" then
    match verify with
    | .threw => some GpTx.empty
    | .falsy => none
    | .resp data => some (data.getD GpTx.empty)
  else
    some { GpTx.empty with status := some "cancelled" }

/-- The if-chain of lines 231-239. -/
def resolveChain (gptx : Option GpTx) (gpOrder : Option GetpaidOrder) : String :=
  match gptx with
  | none => if gpOrder.isSome then "pending" else "cancelled"
  | some tx =>
    if gptxPendStatuses tx.status then "pending"
    else if gptxSucessStatuses tx.status then "completed"
    else if gptxFailedStatuses tx.status then "failed"
    else "cancelled"

/-- The cross-check of lines 241-251; `none` when isValidCurrency throws. -/
def crossCheck (paymentStatus : String) (gptx : Option GpTx) (orderResponse : OrderRaw) :
    Option String :=
  if paymentStatus ≠ "cancelled" then
    match gptx with
    | none => some paymentStatus
    | some tx =>
      match isValidCurrency tx.currency orderResponse.currency with
      | none => none
      | some validCurrency =>
        if validCurrency && isValidAmount tx.amount orderResponse.amount
        then some paymentStatus else some "failed"
  else some paymentStatus

/-- The status that handlePaymentRedirect passes to `db.update` (lines
156-251), for a stored order with payload `orderResponse`; `none` when the
cross-check throws. -/
def redirectPaymentStatus (queryStatus : Option String) (verify : VerifyOutcome)
    (gpOrder : Option GetpaidOrder) (orderResponse : OrderRaw) : Option String :=
  let gptx := redirectGptx (queryStatus.bind statusMap) verify
  crossCheck (resolveChain gptx (if gptx.isNone then gpOrder else none)) gptx orderResponse

/-- The statement `db.update({status, gptxid, account_id}).table(shopify_order)
.where({shop, order_id})`. -/
def updateOrder (orders : List ShopifyOrder) (shop order_id : String)
    (status : String) (gptxid : Option TxRef) (account_id : Option Nat) : List ShopifyOrder :=
  orders.map fun o =>
    if o.shop = shop ∧ o.order_id = order_id then
      { o with status := some status, gptxid := gptxid, account_id := account_id }
    else o

/-- The remote operation chosen by lines 273-386 and what `nextAction` it
leaves: `none` stands for a thrown TypeError or a rejected request. -/
def redirectRemote (paymentStatus gid : String) (gptx : Option GpTx) (remote : RemoteOutcome) :
    List Effect × Option (Option String) :=
  if paymentStatus = "completed" then
    ([.paymentSessionResolve gid],
      match remote with
      | .threw => none
      | .reply none => none
      | .reply (some url) => some url)
  else if paymentStatus = "pending" then
    ([.paymentSessionPending gid],
      match remote with
      | .threw => none
      | .reply none => some none
      | .reply (some url) => some url)
  else if paymentStatus = "failed" then
    ([.paymentSessionReject gid
        (orDefaultStr (gptx.bind fun tx => tx.chargeResponseMessage) "Payment failed")],
      match remote with
      | .threw => none
      | .reply none => none
      | .reply (some url) => some url)
  else ([], some none)

/-- The handler `exports.handlePaymentRedirect`. -/
def handlePaymentRedirect (db : Db) (req : RedirectReq) (env : RedirectEnv) : Outcome :=
  let paymentStatus0 := req.status.bind statusMap
  let existingOrder := findOrder db req.shop req.tx_ref
  let savedShop := findConfig db req.shop
  let e0 : List Effect := [.dbSelect "shopify_order", .dbSelect "shopify_config"]
  match existingOrder with
  | none => throwUnanswered db e0
  | some order =>
    let orderResponse := order.raw
    let gptx := redirectGptx paymentStatus0 env.verify
    let e1 := if paymentStatus0 ≠ some "cancelled" then e0 ++ [.gatewayVerify] else e0
    let gpOrder : Option GetpaidOrder :=
      if gptx.isNone then findStub db req.tx_ref else none
    let e2 := if gptx.isNone then e1 ++ [.dbSelect "getpaid_order"] else e1
    match crossCheck (resolveChain gptx gpOrder) gptx orderResponse with
    | none => throwUnanswered db e2
    | some paymentStatus =>
      let orders1 := updateOrder db.shopifyOrder req.shop req.tx_ref paymentStatus
        ((orNullNat (gptx.bind fun tx => tx.id)).map TxRef.id)
        (orNullNat (gptx.bind fun tx => tx.account_id))
      let db1 : Db := { db with shopifyOrder := orders1 }
      let e3 := e2 ++ [.dbUpdate "shopify_order"]
      if paymentStatus = "cancelled" then
        { db := db1, response := some (.redirect orderResponse.cancel_url), effects := e3,
          threw := false }
      else
        match savedShop.bind fun c => c.access_token with
        | none => throwUnanswered db1 e3
        | some _ =>
          match redirectRemote paymentStatus order.gid gptx env.remote with
          | (ops, none) => throwUnanswered db1 (e3 ++ ops)
          | (ops, some nextUrl) =>
            let answer : Response :=
              match nextUrl with
              | some url => if url = "" then .ended else .redirect (some url)
              | none => .ended
            { db := db1, response := some answer, effects := e3 ++ ops, threw := false }

/-! ## handlers.js: handlePaymentCallback -/

/-- The callback request: the header `x-f4b-hmac` and the JSON body.  The
fields `shop` and `tx_ref` key the `where` clause and are strings. -/
structure CallbackReq where
  hmac : Option String
  tx_id : JsVal
  tx_ref : String
  account_id : JsVal
  shop : String
  status : Option String
  deriving DecidableEq, Repr

/-- The template string of line 1276. -/
def hmacData (req : CallbackReq) : String :=
  req.shop ++ "|" ++ req.tx_id.toTemplate ++ "|" ++ req.tx_ref ++ "|" ++ req.account_id.toTemplate

/-- `finalStatuses[s]` is truthy (`finalStatuses = { completed: 1, failed: 1 }`). -/
def finalStatuses (s : Option String) : Bool :=
  truthyLookup ["completed", "failed"] s

/-- The rows of `getpaid_transaction` selected by `where({ id: Number(gpTxId) })`. -/
def findTransaction (rows : List GpTx) (tx_id : JsVal) : Option GpTx :=
  match tx_id.toNumber with
  | .nan => none
  | .fin n => (rows.filter fun t => t.id.map Int.ofNat = some n).head?

/-- The status computed by lines 1329-1338 for a stored transaction; `none`
when isValidCurrency throws. -/
def callbackPaymentStatus (gptx : GpTx) (orderResponse : OrderRaw) : Option String :=
  let paymentStatus := if gptx.status = some "successful" then "completed" else "failed"
  match isValidCurrency gptx.currency orderResponse.currency with
  | none => none
  | some validCurrency =>
    if validCurrency && isValidAmount gptx.amount orderResponse.amount
    then some paymentStatus else some "failed"

/-- The handler `exports.handlePaymentCallback`; `hmacSha256Hex secret data` is
`crypto.createHmac('sha256', secret).update(data).digest('hex')` and `secret`
is `config.f4b.secret`. -/
def handlePaymentCallback (hmacSha256Hex : String → String → String) (secret : String)
    (db : Db) (req : CallbackReq) : Outcome :=
  match req.hmac with
  | none => { db := db, response := some (.json 401 "missing hmac"), effects := [], threw := false }
  | some hmac =>
    if hmac = "" then
      { db := db, response := some (.json 401 "missing hmac"), effects := [], threw := false }
    else if hmac ≠ hmacSha256Hex secret (hmacData req) then
      { db := db, response := some (.json 401 "hmac missmatch!"), effects := [], threw := false }
    else if req.status = some "failed" then
      { db := db, response := some .ended, effects := [], threw := false }
    else
      let existingOrder := findOrder db req.shop req.tx_ref
      let savedShop := findConfig db req.shop
      let gptx := findTransaction db.getpaidTransaction req.tx_id
      let e0 : List Effect := [.dbSelect "shopify_order", .dbSelect "shopify_config",
        .dbSelect "getpaid_transaction"]
      match existingOrder with
      | none =>
        { db := db, response := some (.json 400 "shopify order not found"), effects := e0,
          threw := false }
      | some order =>
        if finalStatuses order.status then
          { db := db, response := some .ended, effects := e0, threw := false }
        else
          match gptx with
          | none => throwUnanswered db e0
          | some tx =>
            match callbackPaymentStatus tx order.raw with
            | none => throwUnanswered db e0
            | some paymentStatus =>
              let gptxid : Option TxRef :=
                match req.tx_id with
                | .undefined => order.gptxid
                | .null => none
                | .value template number => some (.body template number)
              let orders1 := updateOrder db.shopifyOrder req.shop req.tx_ref paymentStatus
                gptxid (orNullNat tx.account_id)
              let db1 : Db := { db with shopifyOrder := orders1 }
              let e1 := e0 ++ [.dbUpdate "shopify_order"]
              match savedShop.bind fun c => c.access_token with
              | none => throwUnanswered db1 e1
              | some _ =>
                let task : Effect :=
                  if paymentStatus = "completed" then .paymentSessionResolve order.gid
                  else .paymentSessionReject order.gid
                    (orDefaultStr tx.chargeResponseMessage "Payment failed")
                { db := db1, response := some (.json 200 "Callback received!"),
                  effects := e1 ++ [.setTimeout 5000 task], threw := false }

/-! ## handlers.js: handleRefundInit -/

/-- The constant `FIVE_MINUTES_MS`. -/
def FIVE_MINUTES_MS : Nat := 300000

/-- The refund-init request body; `amount` is what `parseFloat` returns on
it and `test` is `Boolean(is_test)`. -/
structure RefundReq where
  id : String
  gid : String
  payment_id : String
  amount : JsNumber
  currency : Option String
  test : Bool
  deriving DecidableEq, Repr

/-- What the refund POST `axios.post(refundApi, ..)` does: it resolves with
a status code and a body, or rejects with an error whose `response` may be
missing (a network error). -/
inductive PostOutcome where
  | ok (status : Nat) (data : Option ApiBody)
  | failed (response : Option (Nat × Option ApiBody))
  deriving DecidableEq, Repr

/-- What the outside world answers during one refund-init request. -/
structure RefundEnv where
  now : Nat
  verify : VerifyOutcome
  post : PostOutcome
  deriving DecidableEq, Repr

/-- An auto-increment key that no stored refund row uses. -/
def nextRefundId (rows : List ShopifyRefund) : Nat :=
  (rows.map fun r => r.id).foldr max 0 + 1

/-- Modelled from the spec: the migration that creates `shopify_refund` is
not among the sources.  The row that the insert of lines 644-658 creates: a
fresh key, `RefundStatus` pending and no retry timestamp. -/
def newRefund (rows : List ShopifyRefund) (order : ShopifyOrder) (req : RefundReq) :
    ShopifyRefund :=
  { id := nextRefundId rows
    refund_id := req.id
    gid := req.gid
    payment_id := req.payment_id
    currency := req.currency
    amount := req.amount
    is_test := req.test
    shop := order.shop
    account_id := order.account_id
    gptxid := order.gptxid
    status := some "pending"
    meta := defaultMeta.stringify
    retry_ts := none }

/-- Modelled from the spec: the refund identifier is unique, so that an
insert which repeats a stored identifier fails with `ER_DUP_ENTRY` (returned
as `none`); any other insert appends the new row. -/
def insertRefund (rows : List ShopifyRefund) (order : ShopifyOrder) (req : RefundReq) :
    Option (List ShopifyRefund) :=
  if rows.any fun r => r.refund_id = req.id then none
  else some (rows ++ [newRefund rows order req])

/-- The statement `db.update(..).table(shopify_refund).where({ id })`. -/
def updateRefund (rows : List ShopifyRefund) (id : Nat) (f : ShopifyRefund → ShopifyRefund) :
    List ShopifyRefund :=
  rows.map fun r => if r.id = id then f r else r

/-- The closure `rejectRefund(id, message, opts)`: the remote call is wrapped
in try/catch and its result is not looked at; then the row is updated. -/
def rejectRefund (db : Db) (rowId : Nat) (gid message : String) (meta : Option MetaText) :
    Db × List Effect :=
  ({ db with shopifyRefund := updateRefund db.shopifyRefund rowId fun r =>
      { r with status := some "rejected", meta := meta.getD r.meta } },
   [.refundSessionReject gid message, .dbUpdate "shopify_refund"])

/-- The closure `resolveRefund(id, opts)`. -/
def resolveRefund (db : Db) (rowId : Nat) (gid : String) (meta : Option MetaText) :
    Db × List Effect :=
  ({ db with shopifyRefund := updateRefund db.shopifyRefund rowId fun r =>
      { r with status := some "resolved", meta := meta.getD r.meta } },
   [.refundSessionResolve gid, .dbUpdate "shopify_refund"])

/-- The transaction `gpTx` of handleRefundInit and clearshopifyRefunds:
`verifyTrx.data.data || {}`, and `{}` when anything in the try block throws. -/
def refundGpTx (verify : VerifyOutcome) : GpTx :=
  match verify with
  | .threw => GpTx.empty
  | .falsy => GpTx.empty
  | .resp data => data.getD GpTx.empty

/-- `!s` for a string that may be `undefined`. -/
def falsyStr (s : Option String) : Bool :=
  match s with
  | none => true
  | some t => decide (t = "")

/-- The metadata literal `{ refundApiReqSuccessful, lastApiResponseStatus,
lastApiResponseObj }` layered over `base` (`{ ...base, .. }`); a missing
response body is the value `undefined`. -/
def attemptMeta (base : MetaObj) (successful : Bool) (status : Nat) (data : Option ApiBody) :
    MetaObj :=
  { base with
    refundApiReqSuccessful := .val successful
    lastApiResponseStatus := .val status
    lastApiResponseObj := match data with
      | some body => .val body
      | none => .undef }

/-- The object `parsedKeys`: the decrypted key bundle of a configuration
row, `{}` when the row or its `keys` are missing. -/
def parsedKeysOf (config : Option ShopifyConfig) : Keys :=
  (config.bind fun c => c.keys).getD { sk := none, pk := none, test_sk := none, test_pk := none }

/-- The key `secKey` of line 697 (and of jobs.js line 242) that goes into the
refund request: the test secret key for a test refund, the live one
otherwise. -/
def refundSecKey (test : Bool) (parsedKeys : Keys) : Option String :=
  if test then parsedKeys.test_sk else parsedKeys.sk

/-- The tail of handleRefundInit (lines 816-855): the refund POST and what
follows it, for the freshly inserted row `refund`. -/
def refundInitSettle (db : Db) (refund : ShopifyRefund) (gid : String) (env : RefundEnv)
    (answer : Response) (effects : List Effect) : Outcome :=
  let e := effects ++ [.gatewayRefundPost]
  match env.post with
  | .failed none => { db := db, response := some answer, effects := e, threw := true }
  | .failed (some (status, data)) =>
    let meta := generateRefundMeta (some refund.meta) (attemptMeta emptyMeta false status data)
    { db := { db with shopifyRefund := updateRefund db.shopifyRefund refund.id fun r =>
        { r with meta := meta, retry_ts := some (env.now + FIVE_MINUTES_MS) } }
      response := some answer, effects := e ++ [.dbUpdate "shopify_refund"], threw := false }
  | .ok status data =>
    if (data.bind fun body => body.status) = some "success" then
      let meta := generateRefundMeta (some refund.meta) (attemptMeta emptyMeta true status data)
      let (db1, ops) := resolveRefund db refund.id gid (some meta)
      { db := db1, response := some answer, effects := e ++ ops, threw := false }
    else { db := db, response := some answer, effects := e, threw := false }

/-- Lines 688-855 of handleRefundInit: the work that follows the 201
acknowledgement of a freshly created refund `shopifyRefund`; `db1` is the
store after the insert and `effects` the trace so far. -/
def refundInitFollowUp (db1 : Db) (shopifyOrder : ShopifyOrder) (shopifyRefund : ShopifyRefund)
    (req : RefundReq) (env : RefundEnv) (effects : List Effect) : Outcome :=
  let answer : Response := .json 201 "New refund request logged sucessfully"
  let shopConfig := findConfig db1 shopifyOrder.shop
  let parsedKeys := parsedKeysOf shopConfig
  let gpTx := refundGpTx env.verify
  let e1 := effects ++ [.dbSelect "shopify_config", .gatewayVerify]
  match shopConfig.bind fun c => c.access_token with
  | none => { db := db1, response := some answer, effects := e1, threw := true }
  | some _ =>
    if shopifyOrder.status ≠ some "completed" then
      let (db2, ops) := rejectRefund db1 shopifyRefund.id req.gid "Payment not completed" none
      { db := db2, response := some answer, effects := e1 ++ ops, threw := false }
    else if req.test ≠ shopifyOrder.is_test then
      let (db2, ops) := rejectRefund db1 shopifyRefund.id req.gid
        "Can't refund orders made in different environments" none
      { db := db2, response := some answer, effects := e1 ++ ops, threw := false }
    else if req.amount.gt gpTx.amount then
      let (db2, ops) := rejectRefund db1 shopifyRefund.id req.gid
        "Refund amount greater than amount paid" none
      { db := db2, response := some answer, effects := e1 ++ ops, threw := false }
    else if falsyStr parsedKeys.sk then
      let (db2, ops) := rejectRefund db1 shopifyRefund.id req.gid
        "Unable to process refund" none
      { db := db2, response := some answer, effects := e1 ++ ops, threw := false }
    else refundInitSettle db1 shopifyRefund req.gid env answer e1

/-- The handler `exports.handleRefundInit`. -/
def handleRefundInit (db : Db) (req : RefundReq) (env : RefundEnv) : Outcome :=
  let e0 : List Effect := [.dbSelect "shopify_order"]
  match findPaymentOrder db req.payment_id with
  | none =>
    { db := db
      response := some (.json 400 "No corresponding shopify order found for refund request")
      effects := e0, threw := false }
  | some shopifyOrder =>
    match insertRefund db.shopifyRefund shopifyOrder req with
    | none =>
      { db := db, response := some (.json 201 "Refund request already logged!")
        effects := e0 ++ [.dbInsert "shopify_refund"], threw := false }
    | some rows =>
      let db1 : Db := { db with shopifyRefund := rows }
      let e1 := e0 ++ [.dbInsert "shopify_refund", .dbSelect "shopify_refund"]
      match (rows.filter fun r => r.refund_id = req.id).head? with
      | none =>
        { db := db1, response := some (.json 201 "Refund request already logged!")
          effects := e1, threw := false }
      | some shopifyRefund => refundInitFollowUp db1 shopifyOrder shopifyRefund req env e1

/-! ## jobs.js: clearshopifyRefunds -/

/-- What the outside world answers during one scheduler tick. -/
structure TickEnv where
  now : Nat
  verify : VerifyOutcome
  post : PostOutcome
  deriving DecidableEq, Repr

/-- The row predicate `status = "pending" AND retry_ts IS NOT NULL AND
retry_ts <= now`. -/
def overdue (now : Nat) (r : ShopifyRefund) : Bool :=
  decide (r.status = some "pending") &&
    match r.retry_ts with
    | none => false
    | some t => decide (t ≤ now)

/-- The first row of `ORDER BY retry_ts ASC`: among equal timestamps the
earlier row of the table is kept. -/
def oldestFirst : List ShopifyRefund → Option ShopifyRefund
  | [] => none
  | r :: rest =>
    match oldestFirst rest with
    | none => some r
    | some best => if best.retry_ts.getD 0 < r.retry_ts.getD 0 then some best else some r

/-- The query of lines 204-209: the single oldest overdue pending refund. -/
def selectOverdue (rows : List ShopifyRefund) (now : Nat) : Option ShopifyRefund :=
  oldestFirst (rows.filter (overdue now))

/-- The claim token of lines 218 and 25: refund identifier, a dash, and the
retry timestamp in decimal. -/
def claimToken (refund_id : String) (retry_ts : Nat) : String :=
  refund_id ++ "-" ++ toString retry_ts

/-- Modelled from the spec: the migration that creates `progress_guard` is
not among the sources.  The claim token column is unique: an insert whose
token is already stored fails (`none`), any other insert appends the row. -/
def insertGuard (rows : List ProgressGuard) (entity entity_type : String) :
    Option (List ProgressGuard) :=
  if rows.any fun g => g.entity = entity then none
  else some (rows ++ [{ entity := entity, entity_type := entity_type }])

/-- The strict equality `a === b` of two numeric property reads. -/
def strictEqNumber (a b : JsField JsNumber) : Bool :=
  match a, b with
  | .absent, .absent => true
  | .absent, .undef => true
  | .undef, .absent => true
  | .undef, .undef => true
  | .null, .null => true
  | .val (.fin x), .val (.fin y) => decide (x = y)
  | _, _ => false

/-- The update `x++` of a numeric property: the old value goes through
`ToNumber` (`undefined` is `NaN`, `null` is 0) and 1 is added. -/
def increment : JsField JsNumber → JsField JsNumber
  | .absent => .val .nan
  | .undef => .val .nan
  | .null => .val (.fin 1)
  | .val .nan => .val .nan
  | .val (.fin n) => .val (.fin (n + 1))

/-- Truthiness of the property `refundApiReqSuccessful`. -/
def truthyFlag : JsField Bool → Bool
  | .val true => true
  | _ => false

/-- Lines 366-410 of clearshopifyRefunds: the refund POST of a retry and
what follows it; `meta` is the parsed metadata after the counter update. -/
def tickSettle (db : Db) (refund : ShopifyRefund) (meta : MetaObj) (env : TickEnv)
    (effects : List Effect) : Outcome :=
  let e := effects ++ [.gatewayRefundPost]
  match env.post with
  | .failed none => { db := db, response := none, effects := e, threw := true }
  | .failed (some (status, data)) =>
    let text := generateRefundMeta (some refund.meta) (attemptMeta meta false status data)
    let retry_ts : Nat :=
      match refund.retry_ts with
      | none => env.now + FIVE_MINUTES_MS
      | some t => if t = 0 then env.now + FIVE_MINUTES_MS else t + FIVE_MINUTES_MS
    { db := { db with shopifyRefund := updateRefund db.shopifyRefund refund.id fun r =>
        { r with meta := text, retry_ts := some retry_ts } }
      response := none, effects := e ++ [.dbUpdate "shopify_refund"], threw := false }
  | .ok status data =>
    if (data.bind fun body => body.status) = some "success" then
      let text := generateRefundMeta (some refund.meta) (attemptMeta meta true status data)
      let (db1, ops) := resolveRefund db refund.id refund.gid (some text)
      { db := db1, response := none, effects := e ++ ops, threw := false }
    else { db := db, response := none, effects := e, threw := false }

/-- Lines 343-410 of clearshopifyRefunds: everything after the remote client
has been built, for the claimed row `refund`. -/
def tickProcess (db : Db) (refund : ShopifyRefund) (env : TickEnv) (effects : List Effect) :
    Outcome :=
  match refund.meta with
  | .malformed => { db := db, response := none, effects := effects, threw := true }
  | .falsy =>
    { db := { db with shopifyRefund := updateRefund db.shopifyRefund refund.id fun r =>
        { r with status := none } }
      response := none, effects := effects ++ [.dbUpdate "shopify_refund"], threw := false }
  | .object meta0 =>
    let capped := strictEqNumber meta0.retryCount meta0.maxRetries
    let (db1, e1) :=
      if capped then
        let (d, ops) := rejectRefund db refund.id refund.gid "Unable to process refund"
          (some meta0.stringify)
        (d, effects ++ ops)
      else (db, effects)
    let meta : MetaObj :=
      if capped then meta0 else { meta0 with retryCount := increment meta0.retryCount }
    if truthyFlag meta.refundApiReqSuccessful then
      let (db2, ops) := resolveRefund db1 refund.id refund.gid
        (some (generateRefundMeta none defaultMeta))
      { db := db2, response := none, effects := e1 ++ ops, threw := false }
    else tickSettle db1 refund meta env e1

/-- The job `exports.clearshopifyRefunds`, with the value that the free
identifier `shopifyOrder` of line 234 resolves to as a parameter: `none`
when no binding exists, in which case reading it throws a ReferenceError. -/
def clearshopifyRefundsWith (shopifyOrder : Option ShopifyOrder) (db : Db) (env : TickEnv) :
    Outcome :=
  let e0 : List Effect := [.dbSelect "shopify_refund"]
  match selectOverdue db.shopifyRefund env.now with
  | none => { db := db, response := none, effects := e0, threw := false }
  | some shopifyRefund =>
    let e1 := e0 ++ [.dbInsert "progress_guard"]
    match insertGuard db.progressGuard
        (claimToken shopifyRefund.refund_id (shopifyRefund.retry_ts.getD 0)) "SHRFD" with
    | none => { db := db, response := none, effects := e1, threw := false }
    | some guards =>
      let db1 : Db := { db with progressGuard := guards }
      match shopifyOrder with
      | none => { db := db1, response := none, effects := e1, threw := true }
      | some bound =>
        let shopConfig := findConfig db bound.shop
        let e2 := e1 ++ [.dbSelect "shopify_config", .gatewayVerify]
        match shopConfig.bind fun c => c.access_token with
        | none => { db := db1, response := none, effects := e2, threw := true }
        | some _ => tickProcess db1 shopifyRefund env e2

/-- The job `exports.clearshopifyRefunds` as server/index.js schedules it:
jobs.js declares no `shopifyOrder` and nothing defines a global of that name. -/
def clearshopifyRefunds (db : Db) (env : TickEnv) : Outcome :=
  clearshopifyRefundsWith none db env

/-! ## Observations on the store and sample data -/

/-- The statuses stored in the rows of `shopify_order` for `(shop, order_id)`. -/
def storedStatuses (db : Db) (shop order_id : String) : List (Option String) :=
  (db.shopifyOrder.filter fun o => o.shop = shop ∧ o.order_id = order_id).map fun o => o.status

/-- A captured checkout payload: 100 units of NGN. -/
def sampleRaw : OrderRaw :=
  { currency := .ascii "NGN", amount := .fin 100,
    cancel_url := some "https://shop.example/cancel" }

/-- An order row of the sample merchant with the given stored status. -/
def sampleOrder (status : Option String) : ShopifyOrder :=
  { id := 1, shop := "demo.myshopify.com", order_id := "ORD-1", gid := "gid://pay/1",
    raw := sampleRaw, is_test := false, hosted_link := some "https://pay.example/l/1",
    status := status, gptxid := none, account_id := none }

/-- The configuration row of the sample merchant. -/
def sampleConfig : ShopifyConfig :=
  { id := 1, shop := "demo.myshopify.com", access_token := some "shpat_token",
    keys := some { sk := some "SK_LIVE", pk := some "PK_LIVE", test_sk := some "SK_TEST",
                   test_pk := some "PK_TEST" },
    is_installed := true }

/-- A store holding the sample merchant and one order with the given status. -/
def sampleDb (status : Option String) : Db :=
  { shopifyConfig := [sampleConfig], shopifyOrder := [sampleOrder status], shopifyRefund := [],
    getpaidOrder := [], getpaidTransaction := [], progressGuard := [] }

/-- A gateway transaction with the given status, currency and amount. -/
def sampleTx (status : String) (currency : String) (amount : Int) : GpTx :=
  { id := some 77, status := some status, currency := .ascii currency, amount := .fin amount,
    account_id := some 5, chargeResponseMessage := none, flw_ref := some "FLW-77" }

/-- A redirect-return for the sample order with the given `status` query value. -/
def sampleRedirect (status : Option String) : RedirectReq :=
  { shop := "demo.myshopify.com", tx_ref := "ORD-1", status := status,
    transaction_id := some "77" }

/-- The store of `sampleDb` together with a legacy pre-checkout stub for the
sample order reference. -/
def sampleDbWithStub (status : Option String) : Db :=
  { sampleDb status with getpaidOrder := [{ id := 9, txRef := "ORD-1" }] }

/-- The transaction's amount is smaller than the captured amount. -/
def AmountSmaller (tx : GpTx) (raw : OrderRaw) : Prop :=
  ∃ a b, tx.amount = .fin a ∧ raw.amount = .fin b ∧ a < b

/-- The transaction's amount is at least the captured amount. -/
def AmountCovers (tx : GpTx) (raw : OrderRaw) : Prop :=
  ∃ a b, tx.amount = .fin a ∧ raw.amount = .fin b ∧ b ≤ a

/-- Both currencies are strings or missing, and they are equal once
surrounding white space is trimmed and case is ignored (the two strings
`c.trim().toUpperCase()` are equal); a missing currency counts as the empty
string. -/
def CurrencyMatches (tx : GpTx) (raw : OrderRaw) : Prop :=
  ∃ normal, tx.currency.normalized = some normal ∧ raw.currency.normalized = some normal

/-- Both currencies are strings or missing, so that isValidCurrency returns. -/
def CurrenciesComparable (tx : GpTx) (raw : OrderRaw) : Prop :=
  tx.currency ≠ .other ∧ raw.currency ≠ .other

/-- The channel signals cancellation or invalidity: the `status` query value
is `canceled`, `cancelled` or `invalid`. -/
def IsCancellation (status : Option String) : Prop :=
  status = some "canceled" ∨ status = some "cancelled" ∨ status = some "invalid"

/-- The status computed by `exports.handlePaymentRedirectOriginal` (lines
438-468): there `gptx` is the row of `getpaid_transaction`, `none` when no
row is found, and the cross-check is not skipped for a cancellation. -/
def redirectOriginalPaymentStatus (gptx : Option GpTx) (gpOrder : Option GetpaidOrder)
    (orderResponse : OrderRaw) : Option String :=
  let paymentStatus := resolveChain gptx (if gptx.isNone then gpOrder else none)
  match gptx with
  | none => some paymentStatus
  | some tx =>
    match isValidCurrency tx.currency orderResponse.currency with
    | none => none
    | some validCurrency =>
      if validCurrency && isValidAmount tx.amount orderResponse.amount
      then some paymentStatus else some "failed"

/-- A stand-in for the keyed digest, used to run the callback handler on
sample requests: 64 hexadecimal characters that depend on the key length and
the data length. -/
def sampleDigest (secret data : String) : String :=
  String.mk (List.replicate 60 'a') ++ toString (1000 + (secret.length + 7 * data.length) % 9000)

/-- A callback for the sample order that carries the digest `sampleDigest`
computes for it. -/
def sampleCallback (status : Option String) : CallbackReq :=
  let req : CallbackReq :=
    { hmac := none, tx_id := .value "77" (.fin 77), tx_ref := "ORD-1",
      account_id := .value "5" (.fin 5),
      shop := "demo.myshopify.com", status := status }
  { req with hmac := some (sampleDigest "f4b-secret" (hmacData req)) }

/-- The store of `sampleDb` together with one stored gateway transaction. -/
def sampleDbWithTx (status : Option String) (tx : GpTx) : Db :=
  { sampleDb status with getpaidTransaction := [tx] }

/-- One claim attempt, lines 213-228 of clearshopifyRefunds: the guard
insert with the given token; the flag is `!guarded`. -/
def claimAttempt (guards : List ProgressGuard) (token : String) : Bool × List ProgressGuard :=
  match insertGuard guards token "SHRFD" with
  | none => (false, guards)
  | some stored => (true, stored)

/-- Claim attempts executed one after the other against the same table, in
the order of the list; the result says which of them succeeded. -/
def runClaims : List ProgressGuard → List String → List Bool
  | _, [] => []
  | guards, token :: rest =>
    (claimAttempt guards token).1 :: runClaims (claimAttempt guards token).2 rest

/-- How many of the attempts that use `token` had the given result. -/
def claimsWith (guards : List ProgressGuard) (tokens : List String) (token : String)
    (result : Bool) : Nat :=
  ((tokens.zip (runClaims guards tokens)).filter fun p => p.1 = token ∧ p.2 = result).length

/-! ## Refund lifecycle: observations, specification-side definitions, sample data -/

/-- The number of rows of `shopify_refund` that carry the refund identifier. -/
def refundCount (db : Db) (refund_id : String) : Nat :=
  (db.shopifyRefund.map fun r => r.refund_id).count refund_id

/-- The refund preconditions in the words of the specification, in their
order: the message of the first one that fails, `none` when all pass.
`verified` is the transaction the gateway verification returned and `keys`
the merchant's key bundle; the secret key is the one for the refund's
environment. -/
def refundPreconditionFailure (order : ShopifyOrder) (req : RefundReq) (verified : GpTx)
    (keys : Keys) : Option String :=
  if order.status ≠ some "completed" then some "Payment not completed"
  else if req.test ≠ order.is_test then
    some "Can't refund orders made in different environments"
  else if req.amount.gt verified.amount then some "Refund amount greater than amount paid"
  else if falsyStr (refundSecKey req.test keys) then some "Unable to process refund"
  else none

/-- The key bundle of a configuration row is as the application stores it:
handleUpdateSettings (handlers.js lines 1114-1140) writes a bundle only after
the gateway has accepted both `sk` and `test_sk`, and the uninstall webhook
(shopify.js line 48) clears the column; so a stored bundle holds both secret
keys. -/
def StoredKeys (config : Option ShopifyConfig) : Prop :=
  ∀ c keys, config = some c → c.keys = some keys →
    falsyStr keys.sk = false ∧ falsyStr keys.test_sk = false

/-- The metadata text parses to an object whose `retryCount` and
`maxRetries` are numbers with `retryCount ≤ maxRetries`. -/
def MetaWithinCap (text : MetaText) : Prop :=
  ∃ m c k, text = .object m ∧ m.retryCount = .val (.fin c) ∧ m.maxRetries = .val (.fin k)
    ∧ c ≤ k

/-- The retry counter stored in the refund's metadata does not exceed the
stored cap. -/
def RetryWithinCap (r : ShopifyRefund) : Prop := MetaWithinCap r.meta

/-- One atomic step of the system: a request handled or a scheduler tick.
A tick carries the value that the free identifier `shopifyOrder` of jobs.js
resolves to (`none` in the program as shipped). -/
inductive Step where
  | checkoutInit (defaultStatus : Option String) (req : InitReq) (post : LinkOutcome)
  | refundInit (req : RefundReq) (env : RefundEnv)
  | tick (shopifyOrder : Option ShopifyOrder) (env : TickEnv)
  | redirect (req : RedirectReq) (env : RedirectEnv)
  | callback (req : CallbackReq)

/-- The store after one step. -/
def step (hmacSha256Hex : String → String → String) (secret : String) (db : Db) : Step → Db
  | .checkoutInit defaultStatus req post => (handlePaymentInit defaultStatus db req post).db
  | .refundInit req env => (handleRefundInit db req env).db
  | .tick shopifyOrder env => (clearshopifyRefundsWith shopifyOrder db env).db
  | .redirect req env => (handlePaymentRedirect db req env).db
  | .callback req => (handlePaymentCallback hmacSha256Hex secret db req).db

/-- The store after a sequence of steps. -/
def run (hmacSha256Hex : String → String → String) (secret : String) (db : Db)
    (steps : List Step) : Db :=
  steps.foldl (step hmacSha256Hex secret) db

/-- A refund-init request for the sample order: 40 units, live mode. -/
def sampleRefundReq : RefundReq :=
  { id := "RF-1", gid := "gid://refund/1", payment_id := "ORD-1", amount := .fin 40,
    currency := some "NGN", test := false }

/-- An environment in which the gateway verifies 100 NGN and the refund POST
fails with status 500 at time 1000. -/
def sampleRefundEnv : RefundEnv :=
  { now := 1000, verify := .resp (some (sampleTx "successful" "NGN" 100)),
    post := .failed (some (500, none)) }

/-- A pending refund of the sample order whose retry counter has reached the
cap and whose retry timestamp is 1000. -/
def cappedRefund : ShopifyRefund :=
  { id := 1, refund_id := "RF-1", gid := "gid://refund/1", payment_id := "ORD-1",
    currency := some "NGN", amount := .fin 40, is_test := false, shop := "demo.myshopify.com",
    account_id := some 5, gptxid := some (.id 77), status := some "pending",
    meta := .object { refundApiReqSuccessful := .val false, retryCount := .val (.fin 7),
                      maxRetries := .val (.fin 7), lastApiResponseStatus := .val 500,
                      lastApiResponseObj := .null },
    retry_ts := some 1000 }

/-- The sample store with the completed sample order and the capped refund. -/
def cappedDb : Db :=
  { sampleDb (some "completed") with shopifyRefund := [cappedRefund] }

/-- A tick at time 2000 during which the refund POST fails with status 500. -/
def sampleTickEnv : TickEnv :=
  { now := 2000, verify := .resp (some (sampleTx "successful" "NGN" 100)),
    post := .failed (some (500, none)) }

/-- An environment in which the gateway refuses the verification request
and the refund POST fails with status 500 at time 1000. -/
def unverifiedRefundEnv : RefundEnv :=
  { now := 1000, verify := .threw, post := .failed (some (500, none)) }

/-- The sample store after the merchant has uninstalled the app (the webhook
handler of shopify.js clears `access_token` and `keys`). -/
def uninstalledDb (status : Option String) : Db :=
  { sampleDb status with shopifyConfig :=
      [{ sampleConfig with access_token := none, keys := none, is_installed := false }] }

/-- A run of the refund lifecycle: the sample refund is created while the
refund POST fails, one tick retries it (with `shopifyOrder` bound) and the
POST fails again, and one tick runs as shipped. -/
def sampleRetrySteps : List Step :=
  [.refundInit sampleRefundReq sampleRefundEnv,
   .tick (some (sampleOrder (some "completed"))) { sampleTickEnv with now := 400000 },
   .tick none { sampleTickEnv with now := 700000 }]

/-- The refund row that `sampleRetrySteps` leaves in the sample store. -/
def retriedRefund : ShopifyRefund :=
  { id := 1, refund_id := "RF-1", gid := "gid://refund/1", payment_id := "ORD-1",
    currency := some "NGN", amount := .fin 40, is_test := false, shop := "demo.myshopify.com",
    account_id := none, gptxid := none, status := some "pending",
    meta := .object { refundApiReqSuccessful := .val false, retryCount := .val (.fin 1),
                      maxRetries := .val (.fin 7), lastApiResponseStatus := .val 500,
                      lastApiResponseObj := .absent },
    retry_ts := some 601000 }

/-! ## Further observations, specification-side definitions and sample data -/

/-- The trace schedules a deferred task (`setTimeout`). -/
def schedulesTask (effects : List Effect) : Bool :=
  effects.any fun e =>
    match e with
    | .setTimeout _ _ => true
    | _ => false

/-- The trace issues a remote payment-session or refund-session operation,
at once or deferred. -/
def issuesRemote (effects : List Effect) : Bool :=
  effects.any fun e =>
    match e with
    | .paymentSessionResolve _ => true
    | .paymentSessionPending _ => true
    | .paymentSessionReject _ _ => true
    | .refundSessionResolve _ => true
    | .refundSessionReject _ _ => true
    | .setTimeout _ _ => true
    | _ => false

/-- The refund rows other than those with key `id`. -/
def otherRefunds (rows : List ShopifyRefund) (id : Nat) : List ShopifyRefund :=
  rows.filter fun r => r.id ≠ id

/-- The object is what `JSON.parse` can return: no slot holds `undefined`
and no numeric slot holds `NaN`. -/
def MetaObj.IsJson (m : MetaObj) : Prop := m.stringify = .object m

/-- Deep merge of two response bodies in the words of the specification:
every field of `patch` is taken, every field `patch` does not specify keeps
its stored value. -/
def ApiBody.deepMerge (stored patch : ApiBody) : ApiBody :=
  { status := match patch.status with
      | some s => some s
      | none => stored.status
    extra := (stored.extra.filter fun kv => !(patch.extra.any fun pv => pv.1 = kv.1))
      ++ patch.extra }

/-- Deep merge of one object-valued slot: two objects are merged field by
field, otherwise the slot of `patch` wins when it has the key. -/
def deepMergeBody (stored patch : JsField ApiBody) : JsField ApiBody :=
  match stored, patch with
  | .val a, .val b => .val (a.deepMerge b)
  | a, b => a.spread b

/-- `MergeRefundMeta` in the words of the specification: the deep merge of
the stored metadata with the given metadata, written as JSON. -/
def deepMergeRefundMeta (stored patch : MetaObj) : MetaText :=
  ({ refundApiReqSuccessful := stored.refundApiReqSuccessful.spread patch.refundApiReqSuccessful
     retryCount := stored.retryCount.spread patch.retryCount
     maxRetries := stored.maxRetries.spread patch.maxRetries
     lastApiResponseStatus := stored.lastApiResponseStatus.spread patch.lastApiResponseStatus
     lastApiResponseObj := deepMergeBody stored.lastApiResponseObj patch.lastApiResponseObj }
    : MetaObj).stringify

/-- Stored metadata of a refund whose last attempt failed with a body that
carries an error code. -/
def failedAttemptMeta : MetaObj :=
  { refundApiReqSuccessful := .val false, retryCount := .val (.fin 1),
    maxRetries := .val (.fin 7), lastApiResponseStatus := .val 500,
    lastApiResponseObj := .val { status := some "error", extra := [("code", "E42")] } }

/-- Metadata of a later attempt that succeeded. -/
def successPatch : MetaObj :=
  attemptMeta emptyMeta true 200 (some { status := some "success", extra := [] })

/-- A pending refund of the sample order after one failed submission: the
counter is 0 and the retry timestamp is 301000. -/
def pendingRetryRefund : ShopifyRefund :=
  { id := 1, refund_id := "RF-1", gid := "gid://refund/1", payment_id := "ORD-1",
    currency := some "NGN", amount := .fin 40, is_test := false, shop := "demo.myshopify.com",
    account_id := none, gptxid := none, status := some "pending",
    meta := .object { refundApiReqSuccessful := .val false, retryCount := .val (.fin 0),
                      maxRetries := .val (.fin 7), lastApiResponseStatus := .val 500,
                      lastApiResponseObj := .absent },
    retry_ts := some 301000 }

/-- The sample store with the completed sample order and `pendingRetryRefund`. -/
def pendingRetryDb : Db :=
  { sampleDb (some "completed") with shopifyRefund := [pendingRetryRefund] }

/-- The store `pendingRetryDb` in which the claim for the refund's current
epoch has already been taken. -/
def contendedDb : Db :=
  { pendingRetryDb with progressGuard := [{ entity := "RF-1-301000", entity_type := "SHRFD" }] }

/-- A tick at time 400000 during which the refund POST is answered 200 with
a body whose status is not `success`. -/
def undecidedTickEnv : TickEnv :=
  { now := 400000, verify := .resp (some (sampleTx "successful" "NGN" 100)),
    post := .ok 200 (some { status := some "pending", extra := [] }) }

/-- A refund-init environment in which the refund POST fails without a
response (a network error). -/
def networkErrorEnv : RefundEnv :=
  { now := 1000, verify := .resp (some (sampleTx "successful" "NGN" 100)),
    post := .failed none }

/-- A store with three refunds of the sample merchant: one resolved, and two
pending with retry timestamps 900 and 500. -/
def queueDb : Db :=
  { sampleDb (some "completed") with shopifyRefund :=
      [{ pendingRetryRefund with id := 1, refund_id := "RF-1", status := some "resolved",
                                 retry_ts := some 100 },
       { pendingRetryRefund with id := 2, refund_id := "RF-2", retry_ts := some 900 },
       { pendingRetryRefund with id := 3, refund_id := "RF-3", retry_ts := some 500 }] }

/-- A callback of the sample merchant for the order reference `tx_ref`,
carrying the digest `sampleDigest` computes for it. -/
def sampleCallbackFor (tx_ref : String) (status : Option String) : CallbackReq :=
  let req : CallbackReq :=
    { hmac := none, tx_id := .value "77" (.fin 77), tx_ref := tx_ref,
      account_id := .value "5" (.fin 5),
      shop := "demo.myshopify.com", status := status }
  { req with hmac := some (sampleDigest "f4b-secret" (hmacData req)) }

/-! ## Checkout initiation, credentials and queue progress: sample data -/

/-- The claim tokens stored in `progress_guard`. -/
def storedTokens (db : Db) : List String := db.progressGuard.map fun g => g.entity

/-- A checkout-init request of the sample merchant for the sample order. -/
def sampleInitReq : InitReq :=
  { shop := "demo.myshopify.com", id := "ORD-1", gid := "gid://pay/1", raw := sampleRaw,
    test := false, customer := true }

/-- The refund `pendingRetryRefund` with a `meta` column that is not JSON. -/
def malformedRefund : ShopifyRefund := { pendingRetryRefund with meta := .malformed }

/-- The sample store with the completed sample order and `malformedRefund`. -/
def malformedDb : Db :=
  { sampleDb (some "completed") with shopifyRefund := [malformedRefund] }

/-- A redirect-return environment in which the gateway verifies a successful
payment of 100 NGN and the remote payment-session request rejects. -/
def failingRemoteEnv : RedirectEnv :=
  { verify := .resp (some (sampleTx "successful" "NGN" 100)), remote := .threw }

/-- The sample store of a merchant who has installed the app again after an
uninstall and has not saved settings since: the access token is stored
(handleAuthCallback, handlers.js line 52) and the key bundle is still
cleared. -/
def unconfiguredDb (status : Option String) : Db :=
  { sampleDb status with shopifyConfig := [{ sampleConfig with keys := none }] }

/-- The refund row that handleRefundInit leaves for `sampleRefundReq` when
the refund POST fails with status 500 at time 1000. -/
def rescheduledRefund : ShopifyRefund :=
  { newRefund [] (sampleOrder (some "completed")) sampleRefundReq with
    meta := .object { refundApiReqSuccessful := .val false, retryCount := .val (.fin 0),
                      maxRetries := .val (.fin 7), lastApiResponseStatus := .val 500,
                      lastApiResponseObj := .absent }
    retry_ts := some 301000 }

/-- The sample store after the refund-init `sampleRefundReq` whose refund
POST failed with status 500 at time 1000. -/
def rescheduledDb : Db :=
  (handleRefundInit (sampleDb (some "completed")) sampleRefundReq sampleRefundEnv).db

/-- The number that a run of decimal digit characters denotes. -/
def decimalValue (digits : List Char) : Nat :=
  digits.foldl (fun value c => 10 * value + (c.toNat - 48)) 0

end F4bShopify

/-! # Properties -/

namespace F4bShopify

/-! ## Redirect-return path -/

theorem storedStatuses_of_updateOrder (db db1 : Db) (shop order_id status : String)
    (gptxid : Option TxRef) (account_id : Option Nat)
    (h : db1.shopifyOrder = updateOrder db.shopifyOrder shop order_id status gptxid account_id) :
    storedStatuses db1 shop order_id
      = (storedStatuses db shop order_id).map fun _ => some status := by
  unfold storedStatuses
  rw [h]
  unfold updateOrder
  induction db.shopifyOrder with
  | nil => rfl
  | cons o rest ih =>
    simp only [List.map_cons, List.filter_cons]
    by_cases h : o.shop = shop ∧ o.order_id = order_id
    · have h2 : (o.shop = shop ∧ o.order_id = order_id) := h
      simp only [h2, if_true, and_self, decide_True, List.map_cons]
      rw [ih]
    · rw [if_neg h]
      simp only [h, decide_False, Bool.false_eq_true, if_false]
      exact ih

theorem handlePaymentRedirect_orders (db : Db) (req : RedirectReq) (env : RedirectEnv)
    (order : ShopifyOrder) (status : String)
    (h : findOrder db req.shop req.tx_ref = some order)
    (hst : redirectPaymentStatus req.status env.verify (findStub db req.tx_ref) order.raw
      = some status) :
    ∃ gptxid account_id, (handlePaymentRedirect db req env).db.shopifyOrder =
      updateOrder db.shopifyOrder req.shop req.tx_ref status gptxid account_id := by
  refine ⟨(orNullNat ((redirectGptx (req.status.bind statusMap) env.verify).bind
      fun tx => tx.id)).map TxRef.id,
    orNullNat ((redirectGptx (req.status.bind statusMap) env.verify).bind
      fun tx => tx.account_id), ?_⟩
  unfold redirectPaymentStatus at hst
  unfold handlePaymentRedirect
  simp only [h, hst]
  by_cases hc : status = "cancelled"
  · rw [if_pos hc]
  · rw [if_neg hc]
    cases hs : (findConfig db req.shop).bind fun c => c.access_token with
    | none => rfl
    | some tok =>
      simp only []
      split <;> rfl

theorem handlePaymentRedirect_throws (db : Db) (req : RedirectReq) (env : RedirectEnv)
    (order : ShopifyOrder)
    (h : findOrder db req.shop req.tx_ref = some order)
    (hst : redirectPaymentStatus req.status env.verify (findStub db req.tx_ref) order.raw
      = none) :
    (handlePaymentRedirect db req env).db = db ∧
    (handlePaymentRedirect db req env).threw = true ∧
    (handlePaymentRedirect db req env).response = some internalError := by
  unfold redirectPaymentStatus at hst
  unfold handlePaymentRedirect
  simp only [h, hst]
  exact ⟨rfl, rfl, rfl⟩

theorem storedStatuses_handlePaymentRedirect (db : Db) (req : RedirectReq) (env : RedirectEnv)
    (order : ShopifyOrder) (status : String)
    (h : findOrder db req.shop req.tx_ref = some order)
    (hst : redirectPaymentStatus req.status env.verify (findStub db req.tx_ref) order.raw
      = some status) :
    storedStatuses (handlePaymentRedirect db req env).db req.shop req.tx_ref =
      (storedStatuses db req.shop req.tx_ref).map fun _ => some status := by
  obtain ⟨g, a, hdb⟩ := handlePaymentRedirect_orders db req env order status h hst
  exact storedStatuses_of_updateOrder db _ req.shop req.tx_ref _ g a hdb

theorem storedStatuses_ne_nil (db : Db) (shop order_id : String) (order : ShopifyOrder)
    (h : findOrder db shop order_id = some order) :
    storedStatuses db shop order_id ≠ [] := by
  unfold findOrder at h
  unfold storedStatuses
  cases hf : db.shopifyOrder.filter fun o => o.shop = shop ∧ o.order_id = order_id with
  | nil => rw [hf] at h; simp at h
  | cons o rest => simp

theorem isValidAmount_eq_true_iff (tx : GpTx) (raw : OrderRaw) :
    isValidAmount tx.amount raw.amount = true ↔ AmountCovers tx raw := by
  unfold isValidAmount JsNumber.ge AmountCovers
  cases hx : tx.amount <;> cases hy : raw.amount <;> simp

theorem isValidAmount_of_smaller (tx : GpTx) (raw : OrderRaw) (h : AmountSmaller tx raw) :
    isValidAmount tx.amount raw.amount = false := by
  obtain ⟨a, b, ha, hb, hab⟩ := h
  unfold isValidAmount JsNumber.ge
  rw [ha, hb]
  simp only [decide_eq_false_iff_not, not_le]
  exact hab

theorem isValidCurrency_eq_true_iff (tx : GpTx) (raw : OrderRaw) :
    isValidCurrency tx.currency raw.currency = some true ↔ CurrencyMatches tx raw := by
  unfold isValidCurrency CurrencyMatches
  cases h1 : tx.currency.normalized <;> cases h2 : raw.currency.normalized <;> simp
  constructor
  · intro h; exact h.symm
  · intro h; exact h.symm

theorem isValidCurrency_eq_none_iff (tx : GpTx) (raw : OrderRaw) :
    isValidCurrency tx.currency raw.currency = none ↔ ¬ CurrenciesComparable tx raw := by
  unfold isValidCurrency CurrenciesComparable Currency.normalized
  cases tx.currency <;> cases raw.currency <;> simp

theorem isValidCurrency_of_comparable (tx : GpTx) (raw : OrderRaw)
    (h : CurrenciesComparable tx raw) :
    ∃ valid, isValidCurrency tx.currency raw.currency = some valid ∧
      (valid = true ↔ CurrencyMatches tx raw) := by
  cases hv : isValidCurrency tx.currency raw.currency with
  | none => exact absurd h ((isValidCurrency_eq_none_iff tx raw).1 hv)
  | some valid =>
    refine ⟨valid, rfl, ?_⟩
    rw [← isValidCurrency_eq_true_iff, hv]
    simp

/-- C1 (the claim fails on the code): the sample order is stored as
`completed`; a redirect-return with `status=cancelled` makes
handlePaymentRedirect overwrite the stored status with `cancelled`, and it
does so whatever the stored status was. -/
theorem handlePaymentRedirect_overwrites_terminal_status :
    storedStatuses (sampleDb (some "completed")) "demo.myshopify.com" "ORD-1"
        = [some "completed"] ∧
    storedStatuses
        (handlePaymentRedirect (sampleDb (some "completed")) (sampleRedirect (some "cancelled"))
          { verify := .threw, remote := .threw }).db
        "demo.myshopify.com" "ORD-1" = [some "cancelled"] ∧
    ∀ stored : Option String, ∀ env : RedirectEnv,
      storedStatuses
        (handlePaymentRedirect (sampleDb stored) (sampleRedirect (some "cancelled")) env).db
        "demo.myshopify.com" "ORD-1" = [some "cancelled"] := by
  refine ⟨by decide, by decide, ?_⟩
  intro stored env
  exact (storedStatuses_handlePaymentRedirect (sampleDb stored)
    (sampleRedirect (some "cancelled")) env (sampleOrder stored) "cancelled" rfl rfl).trans rfl

theorem redirectPaymentStatus_found (queryStatus : Option String) (tx : GpTx)
    (gpOrder : Option GetpaidOrder) (raw : OrderRaw)
    (hq : queryStatus.bind statusMap ≠ some "cancelled") :
    redirectPaymentStatus queryStatus (.resp (some tx)) gpOrder raw =
      crossCheck (resolveChain (some tx) none) (some tx) raw := by
  unfold redirectPaymentStatus redirectGptx
  simp [hq]

theorem crossCheck_invalid (st : String) (tx : GpTx) (raw : OrderRaw)
    (h : AmountSmaller tx raw ∨ ¬ CurrencyMatches tx raw) :
    crossCheck st (some tx) raw = none ∨ crossCheck st (some tx) raw = some "failed" ∨
      crossCheck st (some tx) raw = some "cancelled" := by
  unfold crossCheck
  by_cases hc : st = "cancelled"
  · right; right; simp [hc]
  · have hc2 : st ≠ "cancelled" := hc
    cases hv : isValidCurrency tx.currency raw.currency with
    | none => left; simp only [if_pos hc2, hv]
    | some valid =>
      right; left
      have hinv : (valid && isValidAmount tx.amount raw.amount) = false := by
        rcases h with h | h
        · rw [isValidAmount_of_smaller tx raw h]; simp
        · have : valid = false := by
            cases valid with
            | false => rfl
            | true => exact absurd ((isValidCurrency_eq_true_iff tx raw).1 hv) h
          rw [this]; rfl
      simp only [if_pos hc2, hv, hinv, Bool.false_eq_true, if_false]

/-! ## Callback path -/

theorem handlePaymentCallback_orders (hmacSha256Hex : String → String → String)
    (secret : String) (db : Db) (req : CallbackReq) :
    (handlePaymentCallback hmacSha256Hex secret db req).db = db ∨
    ∃ order tx status gptxid account_id,
      findOrder db req.shop req.tx_ref = some order ∧
      findTransaction db.getpaidTransaction req.tx_id = some tx ∧
      callbackPaymentStatus tx order.raw = some status ∧
      (handlePaymentCallback hmacSha256Hex secret db req).db.shopifyOrder =
        updateOrder db.shopifyOrder req.shop req.tx_ref status gptxid account_id := by
  unfold handlePaymentCallback
  cases hh : req.hmac with
  | none => left; rfl
  | some hmac =>
    simp only []
    by_cases h1 : hmac = ""
    · left; rw [if_pos h1]
    · rw [if_neg h1]
      by_cases h2 : hmac ≠ hmacSha256Hex secret (hmacData req)
      · left; rw [if_pos h2]
      · rw [if_neg h2]
        by_cases h3 : req.status = some "failed"
        · left; rw [if_pos h3]
        · rw [if_neg h3]
          cases ho : findOrder db req.shop req.tx_ref with
          | none => left; rfl
          | some order =>
            simp only []
            by_cases h4 : finalStatuses order.status = true
            · left; rw [if_pos h4]
            · rw [if_neg h4]
              cases ht : findTransaction db.getpaidTransaction req.tx_id with
              | none => left; rfl
              | some tx =>
                simp only []
                cases hst : callbackPaymentStatus tx order.raw with
                | none => left; simp only [hst]; rfl
                | some status =>
                  right
                  refine ⟨order, tx, status, (match req.tx_id with
                    | .undefined => order.gptxid
                    | .null => none
                    | .value template number => some (.body template number)),
                    orNullNat tx.account_id, rfl, rfl, hst, ?_⟩
                  simp only [hst]
                  cases hs : (findConfig db req.shop).bind fun c => c.access_token with
                  | none => rfl
                  | some tok => rfl

/-! ## Status resolution: claims -/

theorem statusMap_cancelled_iff (status : Option String) :
    status.bind statusMap = some "cancelled" ↔ IsCancellation status := by
  unfold IsCancellation
  cases status with
  | none => simp
  | some s =>
    show statusMap s = some "cancelled" ↔ _
    simp only [Option.some.injEq]
    unfold statusMap
    split <;> simp_all

theorem redirectPaymentStatus_of_invalid (queryStatus : Option String) (tx : GpTx)
    (gpOrder : Option GetpaidOrder) (raw : OrderRaw)
    (h : AmountSmaller tx raw ∨ ¬ CurrencyMatches tx raw) :
    redirectPaymentStatus queryStatus (.resp (some tx)) gpOrder raw = none ∨
    redirectPaymentStatus queryStatus (.resp (some tx)) gpOrder raw = some "failed" ∨
    redirectPaymentStatus queryStatus (.resp (some tx)) gpOrder raw = some "cancelled" := by
  by_cases hq : queryStatus.bind statusMap = some "cancelled"
  · right; right
    unfold redirectPaymentStatus redirectGptx
    simp only [hq, ne_eq, not_true_eq_false, if_false]
    rfl
  · rw [redirectPaymentStatus_found queryStatus tx gpOrder raw hq]
    exact crossCheck_invalid _ tx raw h

theorem callbackPaymentStatus_of_invalid (tx : GpTx) (raw : OrderRaw)
    (h : AmountSmaller tx raw ∨ ¬ CurrencyMatches tx raw) :
    callbackPaymentStatus tx raw = none ∨ callbackPaymentStatus tx raw = some "failed" := by
  unfold callbackPaymentStatus
  cases hv : isValidCurrency tx.currency raw.currency with
  | none => left; rfl
  | some valid =>
    right
    have hinv : (valid && isValidAmount tx.amount raw.amount) = false := by
      rcases h with h | h
      · rw [isValidAmount_of_smaller tx raw h]; simp
      · have : valid = false := by
          cases valid with
          | false => rfl
          | true => exact absurd ((isValidCurrency_eq_true_iff tx raw).1 hv) h
        rw [this]; rfl
    simp only [hinv, Bool.false_eq_true, if_false]

/-- C2 (the claim as stated fails): the gateway reports `NGN` followed by a
blank, the order was captured in `NGN`; the currencies differ even when case
is ignored, the amounts are equal, and handlePaymentRedirect stores
`completed`. -/
theorem currency_with_blank_is_completed :
    asciiUpperCase "NGN " ≠ asciiUpperCase "NGN" ∧
    storedStatuses
        (handlePaymentRedirect (sampleDb (some "pending")) (sampleRedirect (some "successful"))
          { verify := .resp (some (sampleTx "successful" "NGN " 100)),
            remote := .reply (some (some "https://shop.example/thanks")) }).db
        "demo.myshopify.com" "ORD-1" = [some "completed"] := by
  refine ⟨by decide, by decide⟩

/-- C2 (amended): on both paths, when the gateway transaction that is found
has an amount smaller than the order's captured amount, or a currency that
differs from the order's currency after surrounding white space is trimmed
and case is ignored (a currency that is present but not a string counts as
different), the status written to the order is never `completed`: the
redirect-return stores `failed` or `cancelled`, or throws and stores nothing;
the callback stores `failed` or leaves the store as it was. -/
theorem mismatched_transaction_never_completed
    (hmacSha256Hex : String → String → String) (secret : String) (db : Db) :
    (∀ (req : RedirectReq) (env : RedirectEnv) (order : ShopifyOrder) (tx : GpTx),
      findOrder db req.shop req.tx_ref = some order →
      env.verify = .resp (some tx) →
      (AmountSmaller tx order.raw ∨ ¬ CurrencyMatches tx order.raw) →
      (((handlePaymentRedirect db req env).db = db ∧
          (handlePaymentRedirect db req env).threw = true) ∨
        storedStatuses (handlePaymentRedirect db req env).db req.shop req.tx_ref
          = (storedStatuses db req.shop req.tx_ref).map (fun _ => some "failed") ∨
        storedStatuses (handlePaymentRedirect db req env).db req.shop req.tx_ref
          = (storedStatuses db req.shop req.tx_ref).map (fun _ => some "cancelled"))) ∧
    (∀ (req : CallbackReq) (order : ShopifyOrder) (tx : GpTx),
      findOrder db req.shop req.tx_ref = some order →
      findTransaction db.getpaidTransaction req.tx_id = some tx →
      (AmountSmaller tx order.raw ∨ ¬ CurrencyMatches tx order.raw) →
      ((handlePaymentCallback hmacSha256Hex secret db req).db = db ∨
        storedStatuses (handlePaymentCallback hmacSha256Hex secret db req).db
            req.shop req.tx_ref
          = (storedStatuses db req.shop req.tx_ref).map fun _ => some "failed")) := by
  constructor
  · intro req env order tx ho hv hm
    have hst := redirectPaymentStatus_of_invalid req.status tx (findStub db req.tx_ref)
      order.raw hm
    rw [← hv] at hst
    rcases hst with h | h | h
    · left
      have := handlePaymentRedirect_throws db req env order ho h
      exact ⟨this.1, this.2.1⟩
    · right; left
      exact storedStatuses_handlePaymentRedirect db req env order _ ho h
    · right; right
      exact storedStatuses_handlePaymentRedirect db req env order _ ho h
  · intro creq corder ctx hco hct hcm
    rcases handlePaymentCallback_orders hmacSha256Hex secret db creq with h | h
    · exact Or.inl h
    · right
      obtain ⟨o, t, st, g, a, ho2, ht2, hst2, hdb⟩ := h
      rw [hco] at ho2
      rw [hct] at ht2
      cases ho2
      cases ht2
      rcases callbackPaymentStatus_of_invalid ctx corder.raw hcm with hn | hf
      · rw [hn] at hst2
        exact absurd hst2 (by simp)
      · rw [hf] at hst2
        cases hst2
        exact storedStatuses_of_updateOrder db _ creq.shop creq.tx_ref _ g a hdb

/-- Witness for C2: a verified amount of 50 against a captured amount of 100
on the redirect-return, and a stored transaction of 50 on an authenticated
callback; both store `failed`. -/
theorem mismatched_transaction_never_completed_witness :
    AmountSmaller (sampleTx "successful" "NGN" 50) sampleRaw ∧
    storedStatuses
        (handlePaymentRedirect (sampleDbWithTx (some "pending") (sampleTx "successful" "NGN" 50))
          (sampleRedirect (some "successful"))
          { verify := .resp (some (sampleTx "successful" "NGN" 50)), remote := .threw }).db
        "demo.myshopify.com" "ORD-1" = [some "failed"] ∧
    storedStatuses
        (handlePaymentCallback sampleDigest "f4b-secret"
          (sampleDbWithTx (some "pending") (sampleTx "successful" "NGN" 50))
          (sampleCallback (some "successful"))).db
        "demo.myshopify.com" "ORD-1" = [some "failed"] := by
  have hs : AmountSmaller (sampleTx "successful" "NGN" 50) sampleRaw :=
    ⟨50, 100, rfl, rfl, by decide⟩
  have h := mismatched_transaction_never_completed sampleDigest "f4b-secret"
    (sampleDbWithTx (some "pending") (sampleTx "successful" "NGN" 50))
  refine ⟨hs, ?_, ?_⟩
  · rcases h.1 (sampleRedirect (some "successful"))
      { verify := .resp (some (sampleTx "successful" "NGN" 50)), remote := .threw }
      (sampleOrder (some "pending")) (sampleTx "successful" "NGN" 50) rfl rfl (Or.inl hs)
      with h1 | h1 | h1
    · exact absurd h1.1 (by decide)
    · exact h1
    · exact absurd h1 (by decide)
  · rcases h.2 (sampleCallback (some "successful")) (sampleOrder (some "pending"))
      (sampleTx "successful" "NGN" 50) rfl (by decide) (Or.inl hs) with h2 | h2
    · exact absurd h2 (by decide)
    · exact h2

/-- C3 (the claim as stated fails): the gateway reports a completed
transaction of 100 in ` ngn` (with a leading blank) for an order captured at
100 `NGN`; the currencies are not equal case-insensitively, yet the status
stored is `completed`, not `failed`.  And when the gateway reports a
completed transaction of 100 whose currency is `null`, isValidCurrency
throws: the handler stores neither `completed` nor `failed`, the order
stays `pending`. -/
theorem leading_blank_currency_is_completed :
    asciiUpperCase " ngn" ≠ asciiUpperCase "NGN" ∧
    ¬ IsCancellation (some "completed") ∧
    storedStatuses
        (handlePaymentRedirect (sampleDb (some "pending")) (sampleRedirect (some "completed"))
          { verify := .resp (some (sampleTx "completed" " ngn" 100)),
            remote := .reply (some none) }).db
        "demo.myshopify.com" "ORD-1" = [some "completed"] ∧
    handlePaymentRedirect (sampleDb (some "pending")) (sampleRedirect (some "completed"))
        { verify := .resp (some { sampleTx "completed" "NGN" 100 with currency := .other }),
          remote := .reply (some none) } =
      { db := sampleDb (some "pending"), response := some internalError,
        effects := [.dbSelect "shopify_order", .dbSelect "shopify_config", .gatewayVerify],
        threw := true } := by
  refine ⟨by decide, ?_, by decide, by decide⟩
  rw [← statusMap_cancelled_iff]
  decide

theorem crossCheck_comparable (st : String) (tx : GpTx) (raw : OrderRaw)
    (hst : st ≠ "cancelled") (hcmp : CurrenciesComparable tx raw) :
    (AmountCovers tx raw ∧ CurrencyMatches tx raw → crossCheck st (some tx) raw = some st) ∧
    (¬ (AmountCovers tx raw ∧ CurrencyMatches tx raw) →
      crossCheck st (some tx) raw = some "failed") := by
  obtain ⟨valid, hv, hiff⟩ := isValidCurrency_of_comparable tx raw hcmp
  unfold crossCheck
  simp only [if_pos hst, hv]
  constructor
  · intro h
    have h1 := (isValidAmount_eq_true_iff tx raw).2 h.1
    have h2 := hiff.2 h.2
    simp only [h1, h2, Bool.and_self, if_true]
  · intro h
    have h3 : (valid && isValidAmount tx.amount raw.amount) = false := by
      rw [Bool.and_eq_false_iff]
      by_cases hc : CurrencyMatches tx raw
      · right
        rw [← Bool.not_eq_true, isValidAmount_eq_true_iff]
        exact fun ha => h ⟨ha, hc⟩
      · left
        rw [← Bool.not_eq_true]
        exact fun hv2 => hc (hiff.1 hv2)
    simp only [h3, Bool.false_eq_true, if_false]

theorem crossCheck_throws (st : String) (tx : GpTx) (raw : OrderRaw)
    (hst : st ≠ "cancelled") (hcmp : ¬ CurrenciesComparable tx raw) :
    crossCheck st (some tx) raw = none := by
  unfold crossCheck
  simp only [if_pos hst, (isValidCurrency_eq_none_iff tx raw).2 hcmp]

/-- C3 (amended): for a redirect-return that is not a cancellation and whose
verified gateway transaction has status `successful` or `completed`, the
order has at least one row, and when both currencies are strings or absent
every row of the order is stored as `completed` if the verified amount is at
least the captured amount and the two currencies are equal after trimming
surrounding white space and ignoring case, and as `failed` otherwise; when a
currency is present but not a string the handler throws and stores nothing. -/
theorem redirect_success_status_follows_cross_check (db : Db) (req : RedirectReq)
    (env : RedirectEnv) (order : ShopifyOrder) (tx : GpTx)
    (ho : findOrder db req.shop req.tx_ref = some order)
    (hq : ¬ IsCancellation req.status)
    (hv : env.verify = .resp (some tx))
    (hs : tx.status = some "successful" ∨ tx.status = some "completed") :
    storedStatuses db req.shop req.tx_ref ≠ [] ∧
    (CurrenciesComparable tx order.raw →
      (AmountCovers tx order.raw ∧ CurrencyMatches tx order.raw →
        storedStatuses (handlePaymentRedirect db req env).db req.shop req.tx_ref
          = (storedStatuses db req.shop req.tx_ref).map fun _ => some "completed") ∧
      (¬ (AmountCovers tx order.raw ∧ CurrencyMatches tx order.raw) →
        storedStatuses (handlePaymentRedirect db req env).db req.shop req.tx_ref
          = (storedStatuses db req.shop req.tx_ref).map fun _ => some "failed")) ∧
    (¬ CurrenciesComparable tx order.raw →
      (handlePaymentRedirect db req env).db = db ∧
      (handlePaymentRedirect db req env).threw = true ∧
      (handlePaymentRedirect db req env).response = some internalError) := by
  have hq2 : req.status.bind statusMap ≠ some "cancelled" := by
    rw [Ne, statusMap_cancelled_iff]; exact hq
  have hchain : resolveChain (some tx) none = "completed" := by
    unfold resolveChain
    simp only []
    rcases hs with h | h <;> rw [h] <;> rfl
  have hfound := redirectPaymentStatus_found req.status tx (findStub db req.tx_ref) order.raw hq2
  rw [← hv, hchain] at hfound
  refine ⟨storedStatuses_ne_nil db req.shop req.tx_ref order ho, fun hcmp => ⟨?_, ?_⟩, ?_⟩
  · intro hvalid
    exact storedStatuses_handlePaymentRedirect db req env order _ ho
      (hfound.trans ((crossCheck_comparable _ tx order.raw (by decide) hcmp).1 hvalid))
  · intro hinvalid
    exact storedStatuses_handlePaymentRedirect db req env order _ ho
      (hfound.trans ((crossCheck_comparable _ tx order.raw (by decide) hcmp).2 hinvalid))
  · intro hcmp
    exact handlePaymentRedirect_throws db req env order ho
      (hfound.trans (crossCheck_throws _ tx order.raw (by decide) hcmp))

/-- Witness for C3: the two examples of the specification, a verified amount
of 100 and of 50 against a captured amount of 100 in the same currency. -/
theorem redirect_success_status_follows_cross_check_witness :
    storedStatuses
        (handlePaymentRedirect (sampleDb (some "pending")) (sampleRedirect (some "successful"))
          { verify := .resp (some (sampleTx "successful" "NGN" 100)), remote := .threw }).db
        "demo.myshopify.com" "ORD-1" = [some "completed"] ∧
    storedStatuses
        (handlePaymentRedirect (sampleDb (some "pending")) (sampleRedirect (some "successful"))
          { verify := .resp (some (sampleTx "successful" "NGN" 50)), remote := .threw }).db
        "demo.myshopify.com" "ORD-1" = [some "failed"] := by
  have hq : ¬ IsCancellation (sampleRedirect (some "successful")).status := by
    rw [← statusMap_cancelled_iff]; decide
  constructor
  · exact ((redirect_success_status_follows_cross_check (sampleDb (some "pending"))
      (sampleRedirect (some "successful"))
      { verify := .resp (some (sampleTx "successful" "NGN" 100)), remote := .threw }
      (sampleOrder (some "pending")) (sampleTx "successful" "NGN" 100) rfl hq rfl
      (Or.inl rfl)).2.1 ⟨by decide, by decide⟩).1
        ⟨⟨100, 100, rfl, rfl, le_refl _⟩, ⟨"NGN", rfl, rfl⟩⟩
  · exact ((redirect_success_status_follows_cross_check (sampleDb (some "pending"))
      (sampleRedirect (some "successful"))
      { verify := .resp (some (sampleTx "successful" "NGN" 50)), remote := .threw }
      (sampleOrder (some "pending")) (sampleTx "successful" "NGN" 50) rfl hq rfl
      (Or.inl rfl)).2.1 ⟨by decide, by decide⟩).2 (by
        rintro ⟨⟨a, b, ha, hb, hab⟩, _⟩
        cases ha
        cases hb
        exact absurd hab (by decide))

/-- C10 (the claim fails on the code): a legacy stub exists for the sample
order reference and the redirect-return is not a cancellation.  When the
verification request fails, and when it answers without transaction data,
handlePaymentRedirect stores `cancelled` and never queries `getpaid_order`;
`pending` is stored only if the request resolves to a falsy value.  The
resolution of handlePaymentRedirectOriginal gives `pending` for a missing
transaction with a stub. -/
theorem redirect_without_transaction_is_cancelled_despite_stub :
    findStub (sampleDbWithStub (some "pending")) "ORD-1" = some { id := 9, txRef := "ORD-1" } ∧
    storedStatuses
        (handlePaymentRedirect (sampleDbWithStub (some "pending"))
          (sampleRedirect (some "successful")) { verify := .threw, remote := .threw }).db
        "demo.myshopify.com" "ORD-1" = [some "cancelled"] ∧
    storedStatuses
        (handlePaymentRedirect (sampleDbWithStub (some "pending"))
          (sampleRedirect (some "successful")) { verify := .resp none, remote := .threw }).db
        "demo.myshopify.com" "ORD-1" = [some "cancelled"] ∧
    Effect.dbSelect "getpaid_order" ∉
      (handlePaymentRedirect (sampleDbWithStub (some "pending"))
        (sampleRedirect (some "successful")) { verify := .threw, remote := .threw }).effects ∧
    storedStatuses
        (handlePaymentRedirect (sampleDbWithStub (some "pending"))
          (sampleRedirect (some "successful")) { verify := .falsy, remote := .reply none }).db
        "demo.myshopify.com" "ORD-1" = [some "pending"] ∧
    redirectOriginalPaymentStatus none (findStub (sampleDbWithStub (some "pending")) "ORD-1")
      sampleRaw = some "pending" := by
  refine ⟨by decide, by decide, by decide, by decide, by decide, by decide⟩

/-! ## CallbackAuthenticator -/

theorem handlePaymentCallback_authentication (hmacSha256Hex : String → String → String)
    (secret : String) (db : Db) (req : CallbackReq) :
    (req.hmac ≠ some (hmacSha256Hex secret (hmacData req)) →
      (∃ message, (handlePaymentCallback hmacSha256Hex secret db req).response
        = some (.json 401 message)) ∧
      (handlePaymentCallback hmacSha256Hex secret db req).effects = [] ∧
      (handlePaymentCallback hmacSha256Hex secret db req).db = db ∧
      (handlePaymentCallback hmacSha256Hex secret db req).threw = false) ∧
    ((hmacSha256Hex secret (hmacData req)).length = 64 →
      req.hmac = some (hmacSha256Hex secret (hmacData req)) →
      ∀ message, (handlePaymentCallback hmacSha256Hex secret db req).response
        ≠ some (.json 401 message)) := by
  constructor
  · intro hne
    unfold handlePaymentCallback
    cases hh : req.hmac with
    | none => exact ⟨⟨_, rfl⟩, rfl, rfl, rfl⟩
    | some hmac =>
      simp only []
      by_cases h1 : hmac = ""
      · rw [if_pos h1]; exact ⟨⟨_, rfl⟩, rfl, rfl, rfl⟩
      · rw [if_neg h1]
        have h2 : hmac ≠ hmacSha256Hex secret (hmacData req) := by
          intro heq
          apply hne
          rw [hh, heq]
        rw [if_pos h2]; exact ⟨⟨_, rfl⟩, rfl, rfl, rfl⟩
  · intro hlen hh message
    have h1 : hmacSha256Hex secret (hmacData req) ≠ "" := by
      intro h0
      rw [h0] at hlen
      exact absurd hlen (by decide)
    unfold handlePaymentCallback
    rw [hh]
    simp only [h1, if_false, ne_eq, not_true_eq_false]
    by_cases h3 : req.status = some "failed"
    · rw [if_pos h3]; simp
    · rw [if_neg h3]
      cases ho : findOrder db req.shop req.tx_ref with
      | none => simp
      | some order =>
        simp only []
        by_cases h4 : finalStatuses order.status = true
        · rw [if_pos h4]; simp
        · rw [if_neg h4]
          cases ht : findTransaction db.getpaidTransaction req.tx_id with
          | none => simp [throwUnanswered, internalError]
          | some tx =>
            simp only []
            cases hst : callbackPaymentStatus tx order.raw with
            | none => simp [throwUnanswered, internalError]
            | some paymentStatus =>
              simp only []
              cases hs : (findConfig db req.shop).bind fun c => c.access_token with
              | none => simp [throwUnanswered, internalError]
              | some tok => simp

/-- C9: handlePaymentCallback answers 401, issues no database statement and
no outbound call, and leaves the store untouched whenever the header
`x-f4b-hmac` is absent or differs from the hex HMAC-SHA256, under the shared
secret, of the string `shop|tx_id|tx_ref|account_id` built from the body
(`tx_id` and `account_id` as the template literal prints them); and when the
header equals that digest (64 hexadecimal characters) the answer is not a
401. -/
theorem callback_rejects_unless_hmac_matches (hmacSha256Hex : String → String → String)
    (secret : String) (db : Db) (req : CallbackReq) :
    (req.hmac ≠ some (hmacSha256Hex secret
        (req.shop ++ "|" ++ req.tx_id.toTemplate ++ "|" ++ req.tx_ref ++ "|" ++
          req.account_id.toTemplate)) →
      (∃ message, (handlePaymentCallback hmacSha256Hex secret db req).response
        = some (.json 401 message)) ∧
      (handlePaymentCallback hmacSha256Hex secret db req).effects = [] ∧
      (handlePaymentCallback hmacSha256Hex secret db req).db = db ∧
      (handlePaymentCallback hmacSha256Hex secret db req).threw = false) ∧
    ((hmacSha256Hex secret
        (req.shop ++ "|" ++ req.tx_id.toTemplate ++ "|" ++ req.tx_ref ++ "|" ++
          req.account_id.toTemplate)).length = 64 →
      req.hmac = some (hmacSha256Hex secret
        (req.shop ++ "|" ++ req.tx_id.toTemplate ++ "|" ++ req.tx_ref ++ "|" ++
          req.account_id.toTemplate)) →
      ∀ message, (handlePaymentCallback hmacSha256Hex secret db req).response
        ≠ some (.json 401 message)) :=
  handlePaymentCallback_authentication hmacSha256Hex secret db req

/-- Witness for C9: the sample callback with a wrong header is answered 401
without any effect; with the digest of `demo.myshopify.com|77|ORD-1|5` it is
not answered 401. -/
theorem callback_rejects_unless_hmac_matches_witness :
    ((handlePaymentCallback sampleDigest "f4b-secret"
        (sampleDbWithTx (some "pending") (sampleTx "successful" "NGN" 100))
        { sampleCallback (some "successful") with hmac := some "00ff" }).effects = []) ∧
    (sampleCallback (some "successful")).hmac
      = some (sampleDigest "f4b-secret" "demo.myshopify.com|77|ORD-1|5") ∧
    (handlePaymentCallback sampleDigest "f4b-secret"
        (sampleDbWithTx (some "pending") (sampleTx "successful" "NGN" 100))
        (sampleCallback (some "successful"))).response
      ≠ some (.json 401 "hmac missmatch!") := by
  refine ⟨?_, by decide, ?_⟩
  · exact ((callback_rejects_unless_hmac_matches sampleDigest "f4b-secret"
      (sampleDbWithTx (some "pending") (sampleTx "successful" "NGN" 100))
      { sampleCallback (some "successful") with hmac := some "00ff" }).1 (by decide)).2.1
  · exact (callback_rejects_unless_hmac_matches sampleDigest "f4b-secret"
      (sampleDbWithTx (some "pending") (sampleTx "successful" "NGN" 100))
      (sampleCallback (some "successful"))).2 (by decide) (by decide) _

/-! ## ProgressGuard -/

theorem claimsWith_cons (guards : List ProgressGuard) (u : String) (rest : List String)
    (token : String) (result : Bool) :
    claimsWith guards (u :: rest) token result =
      (if u = token ∧ (claimAttempt guards u).1 = result then 1 else 0)
        + claimsWith (claimAttempt guards u).2 rest token result := by
  unfold claimsWith
  simp only [runClaims, List.zip_cons_cons, List.filter_cons]
  by_cases h : u = token ∧ (claimAttempt guards u).1 = result
  · rw [if_pos (by simpa using h), if_pos h, List.length_cons]
    omega
  · rw [if_neg (by simpa using h), if_neg h]
    omega

theorem claimAttempt_held (guards : List ProgressGuard) (token : String)
    (h : (guards.any fun g => g.entity = token) = true) :
    claimAttempt guards token = (false, guards) := by
  unfold claimAttempt insertGuard
  simp only [h, if_true]

theorem claimAttempt_free (guards : List ProgressGuard) (token : String)
    (h : (guards.any fun g => g.entity = token) = false) :
    claimAttempt guards token
      = (true, guards ++ [{ entity := token, entity_type := "SHRFD" }]) := by
  unfold claimAttempt insertGuard
  simp only [h, Bool.false_eq_true, if_false]

theorem held_after_claim (guards : List ProgressGuard) (u token : String) :
    ((claimAttempt guards u).2.any fun g => g.entity = token)
      = ((guards.any fun g => g.entity = token) || decide (u = token ∧
          (guards.any fun g => g.entity = u) = false)) := by
  cases hu : guards.any fun g => g.entity = u with
  | true => rw [claimAttempt_held guards u hu]; simp
  | false =>
    rw [claimAttempt_free guards u hu]
    simp only [List.any_append, List.any_cons, List.any_nil, Bool.or_false, and_true]

theorem claimsWith_held (tokens : List String) (token : String) :
    ∀ guards : List ProgressGuard, (guards.any fun g => g.entity = token) = true →
      claimsWith guards tokens token true = 0 := by
  induction tokens with
  | nil => intro guards _; rfl
  | cons u rest ih =>
    intro guards h
    rw [claimsWith_cons]
    have hrest : ((claimAttempt guards u).2.any fun g => g.entity = token) = true := by
      rw [held_after_claim, h]; rfl
    rw [ih _ hrest]
    by_cases hu : u = token
    · subst hu
      rw [claimAttempt_held guards u h]
      simp
    · simp [hu]

theorem claimsWith_free (tokens : List String) (token : String) :
    ∀ guards : List ProgressGuard, (guards.any fun g => g.entity = token) = false →
      token ∈ tokens → claimsWith guards tokens token true = 1 := by
  induction tokens with
  | nil => intro guards _ hmem; simp at hmem
  | cons u rest ih =>
    intro guards h hmem
    rw [claimsWith_cons]
    by_cases hu : u = token
    · subst hu
      rw [claimAttempt_free guards u h]
      have hrest : ((guards ++ [({ entity := u, entity_type := "SHRFD" } : ProgressGuard)]).any
          fun g => g.entity = u) = true := by simp
      rw [claimsWith_held rest u _ hrest]
      simp
    · have hmem2 : token ∈ rest := by
        rcases List.mem_cons.1 hmem with h1 | h1
        · exact absurd h1.symm hu
        · exact h1
      have hrest : ((claimAttempt guards u).2.any fun g => g.entity = token) = false := by
        rw [held_after_claim, h]; simp [hu]
      rw [ih _ hrest hmem2]
      simp [hu]

theorem claimsWith_total (tokens : List String) (token : String) :
    ∀ guards : List ProgressGuard,
      claimsWith guards tokens token true + claimsWith guards tokens token false
        = tokens.count token := by
  induction tokens with
  | nil => intro guards; rfl
  | cons u rest ih =>
    intro guards
    rw [claimsWith_cons, claimsWith_cons, List.count_cons]
    have := ih (claimAttempt guards u).2
    by_cases hu : u = token
    · subst hu
      cases hb : (claimAttempt guards u).1 <;> simp [hb] <;> omega
    · simp [hu]
      omega

/-- C8: claim attempts run one after the other, in any order, against a
`progress_guard` table that does not yet hold `token`: among the attempts
that use `token` exactly one succeeds and all the others fail. -/
theorem progress_guard_exactly_one_claim (guards : List ProgressGuard)
    (tokens : List String) (token : String)
    (hfree : (guards.any fun g => g.entity = token) = false)
    (hmem : token ∈ tokens) :
    ∀ order : List String, order.Perm tokens →
      claimsWith guards order token true = 1 ∧
      claimsWith guards order token false = tokens.count token - 1 := by
  intro order hperm
  have hmem2 : token ∈ order := (hperm.mem_iff).2 hmem
  have h1 := claimsWith_free order token guards hfree hmem2
  have h2 := claimsWith_total order token guards
  rw [hperm.count_eq] at h2
  exact ⟨h1, by omega⟩

/-- Witness for C8: three attempts with the token `RF-1-1000` and one with
another token, in two different orders, against an empty table. -/
theorem progress_guard_exactly_one_claim_witness :
    runClaims [] ["RF-1-1000", "RF-2-5", "RF-1-1000", "RF-1-1000"]
      = [true, true, false, false] ∧
    claimsWith [] ["RF-1-1000", "RF-1-1000", "RF-2-5", "RF-1-1000"] "RF-1-1000" true = 1 ∧
    claimsWith [] ["RF-1-1000", "RF-1-1000", "RF-2-5", "RF-1-1000"] "RF-1-1000" false
      = ["RF-1-1000", "RF-2-5", "RF-1-1000", "RF-1-1000"].count "RF-1-1000" - 1 := by
  refine ⟨by decide, ?_⟩
  exact progress_guard_exactly_one_claim [] ["RF-1-1000", "RF-2-5", "RF-1-1000", "RF-1-1000"]
    "RF-1-1000" rfl (by decide) ["RF-1-1000", "RF-1-1000", "RF-2-5", "RF-1-1000"]
    (by decide)

/-! ## Refund creation -/

theorem map_refund_id_updateRefund (rows : List ShopifyRefund) (id : Nat)
    (f : ShopifyRefund → ShopifyRefund) (hf : ∀ r, (f r).refund_id = r.refund_id) :
    (updateRefund rows id f).map (fun r => r.refund_id) = rows.map fun r => r.refund_id := by
  unfold updateRefund
  rw [List.map_map]
  apply List.map_congr_left
  intro r _
  simp only [Function.comp]
  split
  · exact hf r
  · rfl

theorem rejectRefund_ids (db : Db) (rowId : Nat) (gid message : String)
    (meta : Option MetaText) :
    (rejectRefund db rowId gid message meta).1.shopifyRefund.map (fun r => r.refund_id)
      = db.shopifyRefund.map fun r => r.refund_id :=
  map_refund_id_updateRefund _ _ _ (fun _ => rfl)

theorem resolveRefund_ids (db : Db) (rowId : Nat) (gid : String) (meta : Option MetaText) :
    (resolveRefund db rowId gid meta).1.shopifyRefund.map (fun r => r.refund_id)
      = db.shopifyRefund.map fun r => r.refund_id :=
  map_refund_id_updateRefund _ _ _ (fun _ => rfl)

theorem refundInitSettle_ids (db : Db) (refund : ShopifyRefund) (gid : String)
    (env : RefundEnv) (answer : Response) (effects : List Effect) :
    (refundInitSettle db refund gid env answer effects).db.shopifyRefund.map
        (fun r => r.refund_id)
      = db.shopifyRefund.map fun r => r.refund_id := by
  unfold refundInitSettle
  split
  · rfl
  · exact map_refund_id_updateRefund _ _ _ (fun _ => rfl)
  · split
    · exact map_refund_id_updateRefund _ _ _ (fun _ => rfl)
    · rfl

theorem refundInitFollowUp_ids (db1 : Db) (order : ShopifyOrder) (refund : ShopifyRefund)
    (req : RefundReq) (env : RefundEnv) (effects : List Effect) :
    (refundInitFollowUp db1 order refund req env effects).db.shopifyRefund.map
        (fun r => r.refund_id)
      = db1.shopifyRefund.map fun r => r.refund_id := by
  unfold refundInitFollowUp
  simp only []
  split
  · rfl
  · split
    · exact map_refund_id_updateRefund _ _ _ (fun _ => rfl)
    · split
      · exact map_refund_id_updateRefund _ _ _ (fun _ => rfl)
      · split
        · exact map_refund_id_updateRefund _ _ _ (fun _ => rfl)
        · split
          · exact map_refund_id_updateRefund _ _ _ (fun _ => rfl)
          · exact refundInitSettle_ids db1 refund req.gid env _ _

theorem refundInitFollowUp_orders (db1 : Db) (order : ShopifyOrder) (refund : ShopifyRefund)
    (req : RefundReq) (env : RefundEnv) (effects : List Effect) :
    (refundInitFollowUp db1 order refund req env effects).db.shopifyOrder = db1.shopifyOrder := by
  unfold refundInitFollowUp refundInitSettle
  simp only []
  repeat' split
  all_goals rfl

theorem handleRefundInit_orders (db : Db) (req : RefundReq) (env : RefundEnv) :
    (handleRefundInit db req env).db.shopifyOrder = db.shopifyOrder := by
  unfold handleRefundInit
  simp only []
  split
  · rfl
  · split
    · rfl
    · split
      · rfl
      · exact refundInitFollowUp_orders _ _ _ _ _ _

theorem count_post_refundInitFollowUp (db1 : Db) (order : ShopifyOrder)
    (refund : ShopifyRefund) (req : RefundReq) (env : RefundEnv) (effects : List Effect) :
    (refundInitFollowUp db1 order refund req env effects).effects.count .gatewayRefundPost
      ≤ effects.count .gatewayRefundPost + 1 := by
  unfold refundInitFollowUp refundInitSettle rejectRefund resolveRefund
  simp only []
  repeat' split
  all_goals simp [List.count_append, List.count_cons]

theorem any_refund_id_iff (rows : List ShopifyRefund) (refund_id : String) :
    (rows.any fun r => r.refund_id = refund_id) = true
      ↔ 0 < (rows.map fun r => r.refund_id).count refund_id := by
  rw [List.count_pos_iff]
  simp [List.any_eq_true]

theorem handleRefundInit_duplicate (db : Db) (req : RefundReq) (env : RefundEnv)
    (order : ShopifyOrder) (ho : findPaymentOrder db req.payment_id = some order)
    (hdup : 0 < refundCount db req.id) :
    handleRefundInit db req env =
      { db := db, response := some (.json 201 "Refund request already logged!"),
        effects := [.dbSelect "shopify_order", .dbInsert "shopify_refund"], threw := false } := by
  have hany : (db.shopifyRefund.any fun r => r.refund_id = req.id) = true :=
    (any_refund_id_iff _ _).2 hdup
  unfold handleRefundInit insertRefund
  simp only [ho, hany, if_true]
  rfl

theorem handleRefundInit_fresh (db : Db) (req : RefundReq) (env : RefundEnv)
    (order : ShopifyOrder) (ho : findPaymentOrder db req.payment_id = some order)
    (hfresh : refundCount db req.id = 0) :
    handleRefundInit db req env =
      refundInitFollowUp
        { db with shopifyRefund := db.shopifyRefund ++ [newRefund db.shopifyRefund order req] }
        order (newRefund db.shopifyRefund order req) req env
        [.dbSelect "shopify_order", .dbInsert "shopify_refund", .dbSelect "shopify_refund"] := by
  have hany : (db.shopifyRefund.any fun r => r.refund_id = req.id) = false := by
    rw [← Bool.not_eq_true, any_refund_id_iff]
    unfold refundCount at hfresh
    omega
  have hnone : db.shopifyRefund.filter (fun r => decide (r.refund_id = req.id)) = [] := by
    rw [List.filter_eq_nil_iff]
    intro r hr hdec
    have : (db.shopifyRefund.any fun r => r.refund_id = req.id) = true :=
      List.any_eq_true.2 ⟨r, hr, hdec⟩
    rw [hany] at this
    exact absurd this (by decide)
  have hhead : ((db.shopifyRefund ++ [newRefund db.shopifyRefund order req]).filter
      fun r => decide (r.refund_id = req.id)).head?
        = some (newRefund db.shopifyRefund order req) := by
    rw [List.filter_append, hnone]
    simp [newRefund]
  unfold handleRefundInit insertRefund
  simp only [ho, hany, Bool.false_eq_true, if_false, hhead]
  rfl

theorem findPaymentOrder_congr (db db' : Db) (h : db'.shopifyOrder = db.shopifyOrder)
    (payment_id : String) : findPaymentOrder db' payment_id = findPaymentOrder db payment_id := by
  unfold findPaymentOrder
  rw [h]

theorem refundCount_congr (db db' : Db)
    (h : db'.shopifyRefund.map (fun r => r.refund_id) = db.shopifyRefund.map fun r => r.refund_id)
    (refund_id : String) : refundCount db' refund_id = refundCount db refund_id := by
  unfold refundCount
  rw [h]

theorem handleRefundInit_count (db : Db) (req : RefundReq) (env : RefundEnv)
    (order : ShopifyOrder) (ho : findPaymentOrder db req.payment_id = some order)
    (huniq : refundCount db req.id ≤ 1) :
    refundCount (handleRefundInit db req env).db req.id = 1 ∧
    (handleRefundInit db req env).effects.count .gatewayRefundPost ≤ 1 := by
  by_cases h0 : refundCount db req.id = 0
  · rw [handleRefundInit_fresh db req env order ho h0]
    constructor
    · rw [refundCount_congr _ _ (refundInitFollowUp_ids _ _ _ _ _ _)]
      unfold refundCount at h0 ⊢
      simp only [List.map_append, List.count_append, h0, List.map_cons, List.map_nil]
      simp [newRefund]
    · exact count_post_refundInitFollowUp _ _ _ _ _ _
  · have hpos : 0 < refundCount db req.id := by omega
    rw [handleRefundInit_duplicate db req env order ho hpos]
    constructor
    · show refundCount db req.id = 1
      omega
    · show ([Effect.dbSelect "shopify_order", Effect.dbInsert "shopify_refund"]).count
        Effect.gatewayRefundPost ≤ 1
      decide

/-- C4 (the claim as stated fails): a refund has been created for the sample
order; a second request with the same refund identifier whose `payment_id`
matches no order is answered 400, not 201.  And when it is the first request
that matches no order, no row is created and the second request is treated
as new: it is answered "New refund request logged sucessfully" and sends the
refund POST. -/
theorem refund_init_repeat_depends_on_order_lookup :
    refundCount (handleRefundInit (sampleDb (some "completed")) sampleRefundReq
      sampleRefundEnv).db "RF-1" = 1 ∧
    (handleRefundInit
        (handleRefundInit (sampleDb (some "completed")) sampleRefundReq sampleRefundEnv).db
        { sampleRefundReq with payment_id := "ORD-404" } sampleRefundEnv).response
      = some (.json 400 "No corresponding shopify order found for refund request") ∧
    refundCount (handleRefundInit (sampleDb (some "completed"))
      { sampleRefundReq with payment_id := "ORD-404" } sampleRefundEnv).db "RF-1" = 0 ∧
    (handleRefundInit
        (handleRefundInit (sampleDb (some "completed"))
          { sampleRefundReq with payment_id := "ORD-404" } sampleRefundEnv).db
        sampleRefundReq sampleRefundEnv).response
      = some (.json 201 "New refund request logged sucessfully") ∧
    Effect.gatewayRefundPost ∈
      (handleRefundInit
        (handleRefundInit (sampleDb (some "completed"))
          { sampleRefundReq with payment_id := "ORD-404" } sampleRefundEnv).db
        sampleRefundReq sampleRefundEnv).effects := by
  refine ⟨by decide, by decide, by decide, by decide, by decide⟩

/-- C4 (amended): for two successive handleRefundInit requests that carry
the same refund identifier and whose `payment_id` each matches a stored
order, starting from a store that holds at most one row with that
identifier: afterwards exactly one refund row carries the identifier, the
refund POST was issued at most once in total, and the second request answers
201 "Refund request already logged!" after the order lookup and the refused
insert only, leaving the store as the first request left it. -/
theorem refund_init_duplicate_is_idempotent (db : Db) (first second : RefundReq)
    (env1 env2 : RefundEnv) (order1 order2 : ShopifyOrder)
    (hid : second.id = first.id)
    (h1 : findPaymentOrder db first.payment_id = some order1)
    (h2 : findPaymentOrder db second.payment_id = some order2)
    (huniq : refundCount db first.id ≤ 1) :
    refundCount (handleRefundInit (handleRefundInit db first env1).db second env2).db first.id
      = 1 ∧
    ((handleRefundInit db first env1).effects ++
        (handleRefundInit (handleRefundInit db first env1).db second env2).effects).count
      .gatewayRefundPost ≤ 1 ∧
    handleRefundInit (handleRefundInit db first env1).db second env2 =
      { db := (handleRefundInit db first env1).db,
        response := some (.json 201 "Refund request already logged!"),
        effects := [.dbSelect "shopify_order", .dbInsert "shopify_refund"], threw := false } := by
  obtain ⟨hc, hp⟩ := handleRefundInit_count db first env1 order1 h1 huniq
  have h2' : findPaymentOrder (handleRefundInit db first env1).db second.payment_id
      = some order2 := by
    rw [findPaymentOrder_congr _ _ (handleRefundInit_orders db first env1)]; exact h2
  have hdup := handleRefundInit_duplicate (handleRefundInit db first env1).db second env2
    order2 h2' (by rw [hid, hc]; decide)
  refine ⟨?_, ?_, hdup⟩
  · rw [hdup]; exact hc
  · rw [hdup, List.count_append]
    have : ([Effect.dbSelect "shopify_order", Effect.dbInsert "shopify_refund"]).count
        Effect.gatewayRefundPost = 0 := by decide
    simp only [this]
    omega

theorem falsy_secKey_of_stored (config : Option ShopifyConfig) (test : Bool)
    (h : StoredKeys config) :
    falsyStr (refundSecKey test (parsedKeysOf config)) = falsyStr (parsedKeysOf config).sk := by
  cases config with
  | none => cases test <;> rfl
  | some c =>
    cases hk : c.keys with
    | none =>
      have hp : parsedKeysOf (some c)
          = { sk := none, pk := none, test_sk := none, test_pk := none } := by
        unfold parsedKeysOf
        simp [hk]
      rw [hp]
      cases test <;> rfl
    | some keys =>
      obtain ⟨h1, h2⟩ := h c keys rfl hk
      have hp : parsedKeysOf (some c) = keys := by
        unfold parsedKeysOf
        simp [hk]
      rw [hp]
      unfold refundSecKey
      cases test
      · rfl
      · simp only [if_true, h1, h2]

theorem refundInitFollowUp_reject (db1 : Db) (order : ShopifyOrder) (refund : ShopifyRefund)
    (req : RefundReq) (env : RefundEnv) (effects : List Effect) (token message : String)
    (htoken : ((findConfig db1 order.shop).bind fun c => c.access_token) = some token)
    (hkeys : StoredKeys (findConfig db1 order.shop))
    (hfail : refundPreconditionFailure order req (refundGpTx env.verify)
      (parsedKeysOf (findConfig db1 order.shop)) = some message) :
    refundInitFollowUp db1 order refund req env effects =
      { db := { db1 with shopifyRefund := updateRefund db1.shopifyRefund refund.id fun r =>
          { r with status := some "rejected", meta := r.meta } },
        response := some (.json 201 "New refund request logged sucessfully"),
        effects := effects ++ [.dbSelect "shopify_config", .gatewayVerify] ++
          [.refundSessionReject req.gid message, .dbUpdate "shopify_refund"],
        threw := false } := by
  unfold refundPreconditionFailure at hfail
  rw [falsy_secKey_of_stored _ _ hkeys] at hfail
  unfold refundInitFollowUp rejectRefund
  simp only [htoken, Option.getD_none]
  by_cases c1 : order.status ≠ some "completed"
  · rw [if_pos c1] at hfail
    cases hfail
    rw [if_pos c1]
  · rw [if_neg c1] at hfail
    rw [if_neg c1]
    by_cases c2 : req.test ≠ order.is_test
    · rw [if_pos c2] at hfail
      cases hfail
      rw [if_pos c2]
    · rw [if_neg c2] at hfail
      rw [if_neg c2]
      by_cases c3 : req.amount.gt (refundGpTx env.verify).amount = true
      · rw [if_pos c3] at hfail
        cases hfail
        rw [if_pos c3]
      · rw [if_neg c3] at hfail
        rw [if_neg c3]
        by_cases c4 : falsyStr (parsedKeysOf (findConfig db1 order.shop)).sk = true
        · rw [if_pos c4] at hfail
          cases hfail
          rw [if_pos c4]
        · rw [if_neg c4] at hfail
          cases hfail

theorem rejected_after_update (rows : List ShopifyRefund) (fresh : ShopifyRefund)
    (hrows : ∀ r ∈ rows, r.refund_id ≠ fresh.refund_id) :
    ∀ r ∈ updateRefund (rows ++ [fresh]) fresh.id
        (fun r => { r with status := some "rejected", meta := r.meta }),
      r.refund_id = fresh.refund_id → r.status = some "rejected" := by
  intro r hr hid
  unfold updateRefund at hr
  obtain ⟨r0, hr0, hmap⟩ := List.mem_map.1 hr
  by_cases hk : r0.id = fresh.id
  · rw [if_pos hk] at hmap
    rw [← hmap]
  · rw [if_neg hk] at hmap
    subst hmap
    rcases List.mem_append.1 hr0 with h | h
    · exact absurd hid (hrows r0 h)
    · rw [List.mem_singleton] at h
      rw [h] at hk
      exact absurd rfl hk

/-- C5 (the claim as stated fails): after the merchant has uninstalled the
app no access token is stored; a refund-init for the non-completed sample
order is acknowledged with 201 and the row is created, but the handler then
throws while building the remote client: no reject is sent and the refund
stays `pending`. -/
theorem refund_init_without_access_token_rejects_nothing :
    (handleRefundInit (uninstalledDb (some "pending")) sampleRefundReq unverifiedRefundEnv)
      = { db := { uninstalledDb (some "pending") with shopifyRefund :=
                    [newRefund [] (sampleOrder (some "pending")) sampleRefundReq] },
          response := some (.json 201 "New refund request logged sucessfully"),
          effects := [.dbSelect "shopify_order", .dbInsert "shopify_refund",
            .dbSelect "shopify_refund", .dbSelect "shopify_config", .gatewayVerify],
          threw := true } ∧
    (newRefund [] (sampleOrder (some "pending")) sampleRefundReq).status = some "pending" := by
  refine ⟨by decide, by decide⟩

/-- C5 (amended): for a freshly created refund of a merchant whose access
token is stored, the preconditions are checked in the order of
`refundPreconditionFailure` (order not completed, test flags differ, amount
greater than the verified amount, secret key missing) and the first one that
fails decides: the handler acknowledges with 201, sends one
RefundSessionReject with that message and no refund POST, and the refund's
row ends with status `rejected`.  The merchant's key bundle is as the
application stores it (`StoredKeys`). -/
theorem refund_precondition_failure_rejects (db : Db) (req : RefundReq) (env : RefundEnv)
    (order : ShopifyOrder) (token message : String)
    (ho : findPaymentOrder db req.payment_id = some order)
    (hfresh : refundCount db req.id = 0)
    (htoken : ((findConfig db order.shop).bind fun c => c.access_token) = some token)
    (hkeys : StoredKeys (findConfig db order.shop))
    (hfail : refundPreconditionFailure order req (refundGpTx env.verify)
      (parsedKeysOf (findConfig db order.shop)) = some message) :
    (handleRefundInit db req env).response
      = some (.json 201 "New refund request logged sucessfully") ∧
    (handleRefundInit db req env).effects =
      [.dbSelect "shopify_order", .dbInsert "shopify_refund", .dbSelect "shopify_refund",
       .dbSelect "shopify_config", .gatewayVerify,
       .refundSessionReject req.gid message, .dbUpdate "shopify_refund"] ∧
    refundCount (handleRefundInit db req env).db req.id = 1 ∧
    (∀ r ∈ (handleRefundInit db req env).db.shopifyRefund,
      r.refund_id = req.id → r.status = some "rejected") ∧
    (handleRefundInit db req env).threw = false := by
  have hc := (handleRefundInit_count db req env order ho (by omega)).1
  refine ⟨?_, ?_, hc, ?_, ?_⟩
  all_goals rw [handleRefundInit_fresh db req env order ho hfresh,
    refundInitFollowUp_reject
      { db with shopifyRefund := db.shopifyRefund ++ [newRefund db.shopifyRefund order req] }
      order _ req env _ token message htoken hkeys hfail]
  · rfl
  · intro r hr
    refine rejected_after_update db.shopifyRefund (newRefund db.shopifyRefund order req) ?_ r hr
    intro r0 hr0 hid
    have hpos : 0 < refundCount db req.id := by
      unfold refundCount
      rw [List.count_pos_iff]
      exact List.mem_map.2 ⟨r0, hr0, hid⟩
    omega

/-- Witness for C4: the sample refund request sent twice. -/
theorem refund_init_duplicate_is_idempotent_witness :
    refundCount
      (handleRefundInit
        (handleRefundInit (sampleDb (some "completed")) sampleRefundReq sampleRefundEnv).db
        sampleRefundReq sampleRefundEnv).db "RF-1" = 1 ∧
    (handleRefundInit
        (handleRefundInit (sampleDb (some "completed")) sampleRefundReq sampleRefundEnv).db
        sampleRefundReq sampleRefundEnv).response
      = some (.json 201 "Refund request already logged!") := by
  have h := refund_init_duplicate_is_idempotent (sampleDb (some "completed")) sampleRefundReq
    sampleRefundReq sampleRefundEnv sampleRefundEnv (sampleOrder (some "completed"))
    (sampleOrder (some "completed")) rfl rfl rfl (by decide)
  exact ⟨h.1, by rw [h.2.2]⟩

/-- Witness for C5: a refund-init for the sample order while it is still
`pending` is rejected with "Payment not completed". -/
theorem refund_precondition_failure_rejects_witness :
    (handleRefundInit (sampleDb (some "pending")) sampleRefundReq sampleRefundEnv).effects =
      [.dbSelect "shopify_order", .dbInsert "shopify_refund", .dbSelect "shopify_refund",
       .dbSelect "shopify_config", .gatewayVerify,
       .refundSessionReject "gid://refund/1" "Payment not completed",
       .dbUpdate "shopify_refund"] ∧
    ((handleRefundInit (sampleDb (some "pending")) sampleRefundReq sampleRefundEnv).db.shopifyRefund.map
      fun r => r.status) = [some "rejected"] := by
  have h := refund_precondition_failure_rejects (sampleDb (some "pending")) sampleRefundReq
    sampleRefundEnv (sampleOrder (some "pending")) "shpat_token" "Payment not completed"
    rfl (by decide) rfl
    (by
      intro c keys hc hk
      cases hc
      cases hk
      exact ⟨rfl, rfl⟩)
    (by decide)
  exact ⟨h.2.1, by decide⟩

/-! ## Retry metadata -/

theorem forall_updateRefund (P : ShopifyRefund → Prop) (rows : List ShopifyRefund) (id : Nat)
    (f : ShopifyRefund → ShopifyRefund) (hrows : ∀ r ∈ rows, P r)
    (hf : ∀ r ∈ rows, P (f r)) : ∀ r ∈ updateRefund rows id f, P r := by
  intro r hr
  unfold updateRefund at hr
  obtain ⟨r0, hr0, hmap⟩ := List.mem_map.1 hr
  by_cases hk : r0.id = id
  · rw [if_pos hk] at hmap
    rw [← hmap]
    exact hf r0 hr0
  · rw [if_neg hk] at hmap
    rw [← hmap]
    exact hrows r0 hr0

theorem metaWithinCap_default : MetaWithinCap defaultMeta.stringify :=
  ⟨_, 0, 7, rfl, rfl, rfl, by decide⟩

theorem metaWithinCap_generate_default : MetaWithinCap (generateRefundMeta none defaultMeta) :=
  ⟨_, 0, 7, rfl, rfl, rfl, by decide⟩

theorem metaWithinCap_stringify (m : MetaObj) (c k : Int) (hc : m.retryCount = .val (.fin c))
    (hk : m.maxRetries = .val (.fin k)) (hck : c ≤ k) : MetaWithinCap m.stringify := by
  refine ⟨_, c, k, rfl, ?_, ?_, hck⟩
  · simp only [hc, stringifyNumber]
  · simp only [hk, stringifyNumber]

theorem metaWithinCap_generate_keep (saved : MetaText) (successful : Bool) (status : Nat)
    (data : Option ApiBody) (h : MetaWithinCap saved) :
    MetaWithinCap (generateRefundMeta (some saved) (attemptMeta emptyMeta successful status data)) := by
  obtain ⟨m, c, k, hm, hc, hk, hck⟩ := h
  subst hm
  unfold generateRefundMeta
  apply metaWithinCap_stringify _ c k _ _ hck
  · simp only [MetaObj.spread, attemptMeta, emptyMeta, JsField.spread, hc]
  · simp only [MetaObj.spread, attemptMeta, emptyMeta, JsField.spread, hk]

theorem metaWithinCap_generate_over (saved : Option MetaText) (meta : MetaObj)
    (successful : Bool) (status : Nat) (data : Option ApiBody) (c k : Int)
    (hc : meta.retryCount = .val (.fin c)) (hk : meta.maxRetries = .val (.fin k))
    (hck : c ≤ k) :
    MetaWithinCap (generateRefundMeta saved (attemptMeta meta successful status data)) := by
  unfold generateRefundMeta
  apply metaWithinCap_stringify _ c k _ _ hck
  · simp only [MetaObj.spread, attemptMeta, JsField.spread, hc]
  · simp only [MetaObj.spread, attemptMeta, JsField.spread, hk]

theorem refundInitSettle_inv (db : Db) (refund : ShopifyRefund) (gid : String)
    (env : RefundEnv) (answer : Response) (effects : List Effect)
    (hdb : ∀ r ∈ db.shopifyRefund, RetryWithinCap r) (hrow : MetaWithinCap refund.meta) :
    ∀ r ∈ (refundInitSettle db refund gid env answer effects).db.shopifyRefund,
      RetryWithinCap r := by
  unfold refundInitSettle
  split
  · exact hdb
  · exact forall_updateRefund _ _ _ _ hdb
      (fun _ _ => metaWithinCap_generate_keep _ _ _ _ hrow)
  · split
    · exact forall_updateRefund _ _ _ _ hdb
        (fun _ _ => metaWithinCap_generate_keep _ _ _ _ hrow)
    · exact hdb

theorem refundInitFollowUp_inv (db1 : Db) (order : ShopifyOrder) (refund : ShopifyRefund)
    (req : RefundReq) (env : RefundEnv) (effects : List Effect)
    (hdb : ∀ r ∈ db1.shopifyRefund, RetryWithinCap r) (hrow : MetaWithinCap refund.meta) :
    ∀ r ∈ (refundInitFollowUp db1 order refund req env effects).db.shopifyRefund,
      RetryWithinCap r := by
  unfold refundInitFollowUp
  simp only []
  split
  · exact hdb
  · split
    · exact forall_updateRefund _ _ _ _ hdb (fun r hr => hdb r hr)
    · split
      · exact forall_updateRefund _ _ _ _ hdb (fun r hr => hdb r hr)
      · split
        · exact forall_updateRefund _ _ _ _ hdb (fun r hr => hdb r hr)
        · split
          · exact forall_updateRefund _ _ _ _ hdb (fun r hr => hdb r hr)
          · exact refundInitSettle_inv db1 refund req.gid env _ _ hdb hrow

theorem handleRefundInit_inv (db : Db) (req : RefundReq) (env : RefundEnv)
    (hdb : ∀ r ∈ db.shopifyRefund, RetryWithinCap r) :
    ∀ r ∈ (handleRefundInit db req env).db.shopifyRefund, RetryWithinCap r := by
  unfold handleRefundInit
  simp only []
  split
  · exact hdb
  · rename_i order ho
    unfold insertRefund
    by_cases hany : (db.shopifyRefund.any fun r => r.refund_id = req.id) = true
    · rw [if_pos hany]
      exact hdb
    · rw [if_neg hany]
      have hdb1 : ∀ r ∈ db.shopifyRefund ++ [newRefund db.shopifyRefund order req],
          RetryWithinCap r := by
        intro r hr
        rcases List.mem_append.1 hr with h | h
        · exact hdb r h
        · rw [List.mem_singleton] at h
          rw [h]
          exact metaWithinCap_default
      simp only []
      split
      · exact hdb1
      · rename_i refund hhead
        have hmem : refund ∈ db.shopifyRefund ++ [newRefund db.shopifyRefund order req] :=
          List.mem_of_mem_filter (List.mem_of_mem_head? hhead)
        exact refundInitFollowUp_inv _ order refund req env _ hdb1 (hdb1 refund hmem)

theorem oldestFirst_mem : ∀ (rows : List ShopifyRefund) (r : ShopifyRefund),
    oldestFirst rows = some r → r ∈ rows := by
  intro rows
  induction rows with
  | nil => intro r h; simp [oldestFirst] at h
  | cons x rest ih =>
    intro r h
    unfold oldestFirst at h
    cases hb : oldestFirst rest with
    | none =>
      rw [hb] at h
      simp only [Option.some.injEq] at h
      rw [← h]
      exact List.mem_cons_self _ _
    | some best =>
      rw [hb] at h
      simp only [] at h
      split at h
      · simp only [Option.some.injEq] at h
        rw [← h]
        exact List.mem_cons_of_mem _ (ih best hb)
      · simp only [Option.some.injEq] at h
        rw [← h]
        exact List.mem_cons_self _ _

theorem selectOverdue_mem (rows : List ShopifyRefund) (now : Nat) (r : ShopifyRefund)
    (h : selectOverdue rows now = some r) : r ∈ rows ∧ overdue now r = true := by
  unfold selectOverdue at h
  have := oldestFirst_mem _ _ h
  exact ⟨List.mem_of_mem_filter this, (List.mem_filter.1 this).2⟩

theorem tickSettle_inv (db : Db) (refund : ShopifyRefund) (meta : MetaObj) (env : TickEnv)
    (effects : List Effect) (c k : Int)
    (hdb : ∀ r ∈ db.shopifyRefund, RetryWithinCap r)
    (hc : meta.retryCount = .val (.fin c)) (hk : meta.maxRetries = .val (.fin k))
    (hck : c ≤ k) :
    ∀ r ∈ (tickSettle db refund meta env effects).db.shopifyRefund, RetryWithinCap r := by
  unfold tickSettle
  split
  · exact hdb
  · exact forall_updateRefund _ _ _ _ hdb
      (fun _ _ => metaWithinCap_generate_over _ meta _ _ _ c k hc hk hck)
  · split
    · exact forall_updateRefund _ _ _ _ hdb
        (fun _ _ => metaWithinCap_generate_over _ meta _ _ _ c k hc hk hck)
    · exact hdb

theorem tickProcess_inv (db : Db) (refund : ShopifyRefund) (env : TickEnv)
    (effects : List Effect) (hdb : ∀ r ∈ db.shopifyRefund, RetryWithinCap r)
    (hrow : MetaWithinCap refund.meta) :
    ∀ r ∈ (tickProcess db refund env effects).db.shopifyRefund, RetryWithinCap r := by
  obtain ⟨m, c, k, hm, hc, hk, hck⟩ := hrow
  unfold tickProcess
  rw [hm]
  simp only [hc, hk, strictEqNumber]
  by_cases hcap : c = k
  · subst hcap
    have hdb1 : ∀ r ∈ (rejectRefund db refund.id refund.gid "Unable to process refund"
        (some m.stringify)).1.shopifyRefund, RetryWithinCap r :=
      forall_updateRefund _ _ _ _ hdb
        (fun _ _ => metaWithinCap_stringify m c c hc hk (le_refl _))
    simp only [decide_True, if_true]
    split
    · exact forall_updateRefund _ _ _ _ hdb1 (fun _ _ => metaWithinCap_generate_default)
    · exact tickSettle_inv _ refund m env _ c c hdb1 hc hk (le_refl _)
  · simp only [hcap, decide_False, Bool.false_eq_true, if_false, increment]
    split
    · exact forall_updateRefund _ _ _ _ hdb (fun _ _ => metaWithinCap_generate_default)
    · exact tickSettle_inv db refund _ env _ (c + 1) k hdb rfl rfl (by omega)

theorem clearshopifyRefundsWith_inv (shopifyOrder : Option ShopifyOrder) (db : Db)
    (env : TickEnv) (hdb : ∀ r ∈ db.shopifyRefund, RetryWithinCap r) :
    ∀ r ∈ (clearshopifyRefundsWith shopifyOrder db env).db.shopifyRefund, RetryWithinCap r := by
  unfold clearshopifyRefundsWith
  simp only []
  split
  · exact hdb
  · rename_i refund hsel
    split
    · exact hdb
    · split
      · exact hdb
      · split
        · exact hdb
        · exact tickProcess_inv _ refund env _ hdb (hdb refund (selectOverdue_mem _ _ _ hsel).1)

theorem handlePaymentRedirect_refunds (db : Db) (req : RedirectReq) (env : RedirectEnv) :
    (handlePaymentRedirect db req env).db.shopifyRefund = db.shopifyRefund := by
  unfold handlePaymentRedirect
  simp only []
  cases ho : findOrder db req.shop req.tx_ref with
  | none => rfl
  | some order =>
    simp only []
    repeat' split
    all_goals rfl

theorem handlePaymentCallback_refunds (hmacSha256Hex : String → String → String)
    (secret : String) (db : Db) (req : CallbackReq) :
    (handlePaymentCallback hmacSha256Hex secret db req).db.shopifyRefund = db.shopifyRefund := by
  unfold handlePaymentCallback
  cases hh : req.hmac with
  | none => rfl
  | some hmac =>
    simp only []
    by_cases h1 : hmac = ""
    · rw [if_pos h1]
    · rw [if_neg h1]
      by_cases h2 : hmac ≠ hmacSha256Hex secret (hmacData req)
      · rw [if_pos h2]
      · rw [if_neg h2]
        by_cases h3 : req.status = some "failed"
        · rw [if_pos h3]
        · rw [if_neg h3]
          cases ho : findOrder db req.shop req.tx_ref with
          | none => rfl
          | some order =>
            simp only []
            by_cases h4 : finalStatuses order.status = true
            · rw [if_pos h4]
            · rw [if_neg h4]
              cases ht : findTransaction db.getpaidTransaction req.tx_id with
              | none => rfl
              | some tx =>
                simp only []
                cases hst : callbackPaymentStatus tx order.raw with
                | none => rfl
                | some paymentStatus =>
                  simp only []
                  cases hs : (findConfig db req.shop).bind fun c => c.access_token with
                  | none => rfl
                  | some tok => rfl

theorem handlePaymentInit_refunds (defaultStatus : Option String) (db : Db) (req : InitReq)
    (post : LinkOutcome) :
    (handlePaymentInit defaultStatus db req post).db.shopifyRefund = db.shopifyRefund := by
  unfold handlePaymentInit throwUnanswered
  simp only []
  repeat' split
  all_goals rfl

theorem step_inv (hmacSha256Hex : String → String → String) (secret : String) (db : Db)
    (s : Step) (hdb : ∀ r ∈ db.shopifyRefund, RetryWithinCap r) :
    ∀ r ∈ (step hmacSha256Hex secret db s).shopifyRefund, RetryWithinCap r := by
  cases s with
  | checkoutInit defaultStatus req post =>
    show ∀ r ∈ (handlePaymentInit defaultStatus db req post).db.shopifyRefund,
      RetryWithinCap r
    rw [handlePaymentInit_refunds]
    exact hdb
  | refundInit req env => exact handleRefundInit_inv db req env hdb
  | tick shopifyOrder env => exact clearshopifyRefundsWith_inv shopifyOrder db env hdb
  | redirect req env =>
    show ∀ r ∈ (handlePaymentRedirect db req env).db.shopifyRefund, RetryWithinCap r
    rw [handlePaymentRedirect_refunds]
    exact hdb
  | callback req =>
    show ∀ r ∈ (handlePaymentCallback hmacSha256Hex secret db req).db.shopifyRefund,
      RetryWithinCap r
    rw [handlePaymentCallback_refunds]
    exact hdb

theorem run_inv (hmacSha256Hex : String → String → String)
    (secret : String) (steps : List Step) :
    ∀ db : Db, (∀ r ∈ db.shopifyRefund, RetryWithinCap r) →
      ∀ r ∈ (run hmacSha256Hex secret db steps).shopifyRefund, RetryWithinCap r := by
  induction steps with
  | nil => intro db h; exact h
  | cons s rest ih =>
    intro db h
    exact ih (step hmacSha256Hex secret db s) (step_inv hmacSha256Hex secret db s h)

/-- C6: starting from a store in which every refund's retry counter is
within its cap (in particular from an empty refund table), after any
sequence of refund-init requests, scheduler ticks, redirect-returns and
callbacks, with any gateway and remote-session outcomes, every refund row
has metadata whose `retryCount` does not exceed its `maxRetries`.  A refund
is created by handleRefundInit with `retryCount` 0 and `maxRetries` 7.  The
ticks range over the job as shipped and over the job with `shopifyOrder`
bound. -/
theorem retry_count_never_exceeds_cap (hmacSha256Hex : String → String → String)
    (secret : String) (db : Db) (steps : List Step)
    (h0 : ∀ r ∈ db.shopifyRefund, RetryWithinCap r) :
    ∀ r ∈ (run hmacSha256Hex secret db steps).shopifyRefund, RetryWithinCap r :=
  run_inv hmacSha256Hex secret steps db h0

/-- Witness for C6: the refund left by `sampleRetrySteps`, whose counter is 1
of 7. -/
theorem retry_count_never_exceeds_cap_witness :
    (run sampleDigest "f4b-secret" (sampleDb (some "completed")) sampleRetrySteps).shopifyRefund
      = [retriedRefund] ∧
    RetryWithinCap retriedRefund :=
  ⟨by decide,
   retry_count_never_exceeds_cap sampleDigest "f4b-secret" (sampleDb (some "completed"))
     sampleRetrySteps (by intro r hr; cases hr) retriedRefund (by decide)⟩

/-- C7 (the claim fails on the code): the capped refund is the oldest overdue
pending refund at time 2000.  The tick acquires the claim and then throws on
the unbound identifier `shopifyOrder` (line 234): no reject is sent and the
refund stays pending with its retry timestamp.  With the identifier bound,
the tick rejects with "Unable to process refund" and then, for lack of a
return, still sends the refund POST and, when the POST fails, writes a new
retry timestamp. -/
theorem capped_refund_tick_throws_before_reject :
    selectOverdue cappedDb.shopifyRefund 2000 = some cappedRefund ∧
    clearshopifyRefunds cappedDb sampleTickEnv =
      { db := { cappedDb with progressGuard := [{ entity := "RF-1-1000", entity_type := "SHRFD" }] },
        response := none,
        effects := [.dbSelect "shopify_refund", .dbInsert "progress_guard"],
        threw := true } ∧
    (clearshopifyRefundsWith (some (sampleOrder (some "completed"))) cappedDb
        sampleTickEnv).effects =
      [.dbSelect "shopify_refund", .dbInsert "progress_guard", .dbSelect "shopify_config",
       .gatewayVerify, .refundSessionReject "gid://refund/1" "Unable to process refund",
       .dbUpdate "shopify_refund", .gatewayRefundPost, .dbUpdate "shopify_refund"] ∧
    ((clearshopifyRefundsWith (some (sampleOrder (some "completed"))) cappedDb
        sampleTickEnv).db.shopifyRefund.map fun r => (r.status, r.retry_ts))
      = [(some "rejected", some 301000)] := by
  refine ⟨by decide, by decide, by decide, by decide⟩

/-! ## Redirect-return path: cancellation and pending transactions -/

theorem handlePaymentRedirect_cancellation (db : Db) (req : RedirectReq) (env : RedirectEnv)
    (order : ShopifyOrder) (ho : findOrder db req.shop req.tx_ref = some order)
    (hq : IsCancellation req.status) :
    handlePaymentRedirect db req env =
      { db := { db with shopifyOrder :=
                  updateOrder db.shopifyOrder req.shop req.tx_ref "cancelled" none none },
        response := some (.redirect order.raw.cancel_url),
        effects := [.dbSelect "shopify_order", .dbSelect "shopify_config",
                    .dbUpdate "shopify_order"],
        threw := false } := by
  have hq2 : req.status.bind statusMap = some "cancelled" :=
    (statusMap_cancelled_iff req.status).2 hq
  have hg : redirectGptx (some "cancelled") env.verify
      = some { GpTx.empty with status := some "cancelled" } := by
    unfold redirectGptx
    simp
  have hc : crossCheck (resolveChain (some { GpTx.empty with status := some "cancelled" }) none)
      (some { GpTx.empty with status := some "cancelled" }) order.raw = "cancelled" := by
    have h1 : resolveChain (some { GpTx.empty with status := some "cancelled" }) none
        = "cancelled" := by decide
    rw [h1]
    unfold crossCheck
    simp
  unfold handlePaymentRedirect
  simp only [ho, hq2, hg, Option.isNone_some, Bool.false_eq_true, if_false, hc, ne_eq,
    not_true_eq_false, if_true]
  rfl

/-- C12: for a redirect-return whose `status` query value is `canceled`,
`cancelled` or `invalid`, for a stored order: no gateway verification request
is made, every row of the order is stored as `cancelled`, no remote-session
operation is issued, and the response redirects to the `cancel_url` of the
order's captured payload. -/
theorem redirect_cancellation_skips_verification (db : Db) (req : RedirectReq)
    (env : RedirectEnv) (order : ShopifyOrder)
    (ho : findOrder db req.shop req.tx_ref = some order)
    (hq : IsCancellation req.status) :
    Effect.gatewayVerify ∉ (handlePaymentRedirect db req env).effects ∧
    storedStatuses db req.shop req.tx_ref ≠ [] ∧
    storedStatuses (handlePaymentRedirect db req env).db req.shop req.tx_ref
      = (storedStatuses db req.shop req.tx_ref).map (fun _ => some "cancelled") ∧
    issuesRemote (handlePaymentRedirect db req env).effects = false ∧
    (handlePaymentRedirect db req env).response = some (.redirect order.raw.cancel_url) ∧
    (handlePaymentRedirect db req env).threw = false := by
  rw [handlePaymentRedirect_cancellation db req env order ho hq]
  have he : Effect.gatewayVerify ∉ [Effect.dbSelect "shopify_order",
      Effect.dbSelect "shopify_config", Effect.dbUpdate "shopify_order"] := by decide
  refine ⟨he, storedStatuses_ne_nil db req.shop req.tx_ref order ho, ?_, rfl, rfl, rfl⟩
  exact storedStatuses_of_updateOrder db _ req.shop req.tx_ref "cancelled" none none rfl

/-- Witness for C12: the sample order returns with `status=invalid`. -/
theorem redirect_cancellation_skips_verification_witness :
    (handlePaymentRedirect (sampleDb (some "pending")) (sampleRedirect (some "invalid"))
        { verify := .resp (some (sampleTx "successful" "NGN" 100)), remote := .threw }).response
      = some (.redirect (some "https://shop.example/cancel")) ∧
    storedStatuses
        (handlePaymentRedirect (sampleDb (some "pending")) (sampleRedirect (some "invalid"))
          { verify := .resp (some (sampleTx "successful" "NGN" 100)), remote := .threw }).db
        "demo.myshopify.com" "ORD-1" = [some "cancelled"] := by
  have h := redirect_cancellation_skips_verification (sampleDb (some "pending"))
    (sampleRedirect (some "invalid"))
    { verify := .resp (some (sampleTx "successful" "NGN" 100)), remote := .threw }
    (sampleOrder (some "pending")) rfl (Or.inr (Or.inr rfl))
  exact ⟨h.2.2.2.2.1, h.2.2.1⟩

/-- C11 (the claim as stated fails): the gateway reports a pending
transaction of 50 NGN for the sample order, captured at 100 NGN, on a
redirect-return with `status=pending`; the status stored is `failed`.  And
when the gateway reports a pending transaction of 100 whose currency is
`null`, isValidCurrency throws and no status is written at all. -/
theorem pending_transaction_below_amount_is_failed :
    ¬ IsCancellation (some "pending") ∧
    storedStatuses
        (handlePaymentRedirect (sampleDb (some "pending")) (sampleRedirect (some "pending"))
          { verify := .resp (some (sampleTx "pending" "NGN" 50)),
            remote := .reply (some none) }).db
        "demo.myshopify.com" "ORD-1" = [some "failed"] ∧
    handlePaymentRedirect (sampleDb none) (sampleRedirect (some "pending"))
        { verify := .resp (some { sampleTx "pending" "NGN" 100 with currency := .other }),
          remote := .reply (some none) } =
      { db := sampleDb none, response := some internalError,
        effects := [.dbSelect "shopify_order", .dbSelect "shopify_config", .gatewayVerify],
        threw := true } := by
  refine ⟨?_, by decide, by decide⟩
  rw [← statusMap_cancelled_iff]
  decide

/-- C11 (amended): for a redirect-return that is not a cancellation and whose
verified gateway transaction has status `pending` or
`success-pending-validation`, the order has at least one row, and when both
currencies are strings or absent every row of the order is stored as
`pending` if the amount and currency cross-check passes (verified amount at
least the captured amount, currencies equal after trimming and ignoring
case), and as `failed` if it does not; when a currency is present but not a
string the handler throws and stores nothing. -/
theorem redirect_pending_status_follows_cross_check (db : Db) (req : RedirectReq)
    (env : RedirectEnv) (order : ShopifyOrder) (tx : GpTx)
    (ho : findOrder db req.shop req.tx_ref = some order)
    (hq : ¬ IsCancellation req.status)
    (hv : env.verify = .resp (some tx))
    (hs : tx.status = some "pending" ∨ tx.status = some "success-pending-validation") :
    storedStatuses db req.shop req.tx_ref ≠ [] ∧
    (CurrenciesComparable tx order.raw →
      (AmountCovers tx order.raw ∧ CurrencyMatches tx order.raw →
        storedStatuses (handlePaymentRedirect db req env).db req.shop req.tx_ref
          = (storedStatuses db req.shop req.tx_ref).map fun _ => some "pending") ∧
      (¬ (AmountCovers tx order.raw ∧ CurrencyMatches tx order.raw) →
        storedStatuses (handlePaymentRedirect db req env).db req.shop req.tx_ref
          = (storedStatuses db req.shop req.tx_ref).map fun _ => some "failed")) ∧
    (¬ CurrenciesComparable tx order.raw →
      (handlePaymentRedirect db req env).db = db ∧
      (handlePaymentRedirect db req env).threw = true ∧
      (handlePaymentRedirect db req env).response = some internalError) := by
  have hq2 : req.status.bind statusMap ≠ some "cancelled" := by
    rw [Ne, statusMap_cancelled_iff]; exact hq
  have hchain : resolveChain (some tx) none = "pending" := by
    unfold resolveChain
    simp only []
    rcases hs with h | h <;> rw [h] <;> rfl
  have hfound := redirectPaymentStatus_found req.status tx (findStub db req.tx_ref) order.raw hq2
  rw [← hv, hchain] at hfound
  refine ⟨storedStatuses_ne_nil db req.shop req.tx_ref order ho, fun hcmp => ⟨?_, ?_⟩, ?_⟩
  · intro hvalid
    exact storedStatuses_handlePaymentRedirect db req env order _ ho
      (hfound.trans ((crossCheck_comparable _ tx order.raw (by decide) hcmp).1 hvalid))
  · intro hinvalid
    exact storedStatuses_handlePaymentRedirect db req env order _ ho
      (hfound.trans ((crossCheck_comparable _ tx order.raw (by decide) hcmp).2 hinvalid))
  · intro hcmp
    exact handlePaymentRedirect_throws db req env order ho
      (hfound.trans (crossCheck_throws _ tx order.raw (by decide) hcmp))

/-- Witness for C11: a pending transaction of 100 NGN against the captured
100 NGN is stored as `pending`. -/
theorem redirect_pending_status_follows_cross_check_witness :
    storedStatuses
        (handlePaymentRedirect (sampleDb (some "pending")) (sampleRedirect (some "pending"))
          { verify := .resp (some (sampleTx "pending" "NGN" 100)), remote := .threw }).db
        "demo.myshopify.com" "ORD-1" = [some "pending"] := by
  have hq : ¬ IsCancellation (sampleRedirect (some "pending")).status := by
    rw [← statusMap_cancelled_iff]; decide
  exact ((redirect_pending_status_follows_cross_check (sampleDb (some "pending"))
    (sampleRedirect (some "pending"))
    { verify := .resp (some (sampleTx "pending" "NGN" 100)), remote := .threw }
    (sampleOrder (some "pending")) (sampleTx "pending" "NGN" 100) rfl hq rfl
    (Or.inl rfl)).2.1 ⟨by decide, by decide⟩).1
      ⟨⟨100, 100, rfl, rfl, le_refl _⟩, ⟨"NGN", rfl, rfl⟩⟩

/-! ## Callback path: replay and failure notifications -/

theorem handlePaymentCallback_failed (hmacSha256Hex : String → String → String)
    (secret : String) (db : Db) (req : CallbackReq)
    (hlen : (hmacSha256Hex secret (hmacData req)).length = 64)
    (hauth : req.hmac = some (hmacSha256Hex secret (hmacData req)))
    (hstatus : req.status = some "failed") :
    handlePaymentCallback hmacSha256Hex secret db req =
      { db := db, response := some .ended, effects := [], threw := false } := by
  have h1 : hmacSha256Hex secret (hmacData req) ≠ "" := by
    intro h0
    rw [h0] at hlen
    exact absurd hlen (by decide)
  unfold handlePaymentCallback
  rw [hauth]
  simp only [h1, if_false, ne_eq, not_true_eq_false, hstatus, if_true]

theorem handlePaymentCallback_no_order (hmacSha256Hex : String → String → String)
    (secret : String) (db : Db) (req : CallbackReq)
    (hlen : (hmacSha256Hex secret (hmacData req)).length = 64)
    (hauth : req.hmac = some (hmacSha256Hex secret (hmacData req)))
    (hstatus : req.status ≠ some "failed")
    (ho : findOrder db req.shop req.tx_ref = none) :
    handlePaymentCallback hmacSha256Hex secret db req =
      { db := db, response := some (.json 400 "shopify order not found"),
        effects := [.dbSelect "shopify_order", .dbSelect "shopify_config",
                    .dbSelect "getpaid_transaction"],
        threw := false } := by
  have h1 : hmacSha256Hex secret (hmacData req) ≠ "" := by
    intro h0
    rw [h0] at hlen
    exact absurd hlen (by decide)
  unfold handlePaymentCallback
  rw [hauth]
  simp only [h1, if_false, ne_eq, not_true_eq_false, hstatus, ho]

theorem handlePaymentCallback_finalized (hmacSha256Hex : String → String → String)
    (secret : String) (db : Db) (req : CallbackReq) (order : ShopifyOrder)
    (ho : findOrder db req.shop req.tx_ref = some order)
    (hfinal : finalStatuses order.status = true) :
    (handlePaymentCallback hmacSha256Hex secret db req).db = db ∧
    schedulesTask (handlePaymentCallback hmacSha256Hex secret db req).effects = false := by
  unfold handlePaymentCallback
  cases hh : req.hmac with
  | none => exact ⟨rfl, rfl⟩
  | some hmac =>
    simp only []
    by_cases h1 : hmac = ""
    · rw [if_pos h1]; exact ⟨rfl, rfl⟩
    · rw [if_neg h1]
      by_cases h2 : hmac ≠ hmacSha256Hex secret (hmacData req)
      · rw [if_pos h2]; exact ⟨rfl, rfl⟩
      · rw [if_neg h2]
        by_cases h3 : req.status = some "failed"
        · rw [if_pos h3]; exact ⟨rfl, rfl⟩
        · rw [if_neg h3]
          simp only [ho, hfinal, if_true]
          exact ⟨trivial, rfl⟩

/-- C13 (the claim as stated fails): the sample order is stored as
`cancelled`; an authenticated callback reporting the stored successful
transaction of 100 NGN rewrites it to `completed` and schedules the Resolve
forward.  And an authenticated callback with body status `failed` for an
order reference that matches no order just ends the response: it is not
answered 400. -/
theorem callback_rewrites_cancelled_order :
    (sampleCallback (some "successful")).hmac
      = some (sampleDigest "f4b-secret" (hmacData (sampleCallback (some "successful")))) ∧
    storedStatuses (sampleDbWithTx (some "cancelled") (sampleTx "successful" "NGN" 100))
      "demo.myshopify.com" "ORD-1" = [some "cancelled"] ∧
    storedStatuses
        (handlePaymentCallback sampleDigest "f4b-secret"
          (sampleDbWithTx (some "cancelled") (sampleTx "successful" "NGN" 100))
          (sampleCallback (some "successful"))).db
        "demo.myshopify.com" "ORD-1" = [some "completed"] ∧
    (handlePaymentCallback sampleDigest "f4b-secret"
        (sampleDbWithTx (some "cancelled") (sampleTx "successful" "NGN" 100))
        (sampleCallback (some "successful"))).effects
      = [.dbSelect "shopify_order", .dbSelect "shopify_config",
         .dbSelect "getpaid_transaction", .dbUpdate "shopify_order",
         .setTimeout 5000 (.paymentSessionResolve "gid://pay/1")] ∧
    findOrder (sampleDb (some "pending")) "demo.myshopify.com" "ORD-404" = none ∧
    (handlePaymentCallback sampleDigest "f4b-secret" (sampleDb (some "pending"))
        (sampleCallbackFor "ORD-404" (some "failed"))).response = some .ended := by
  refine ⟨by decide, by decide, by decide, by decide, by decide, by decide⟩

/-- C13 (amended): an authenticated callback whose body status is not
`failed` and whose `(shop, tx_ref)` matches no order is answered 400 after
the three lookups and changes nothing; and any callback for an order whose
stored status is `completed` or `failed` leaves the store as it was and
schedules no remote-session forward. -/
theorem callback_replay_changes_nothing (hmacSha256Hex : String → String → String)
    (secret : String) (db : Db) (req : CallbackReq) :
    ((hmacSha256Hex secret (hmacData req)).length = 64 →
      req.hmac = some (hmacSha256Hex secret (hmacData req)) →
      req.status ≠ some "failed" →
      findOrder db req.shop req.tx_ref = none →
      handlePaymentCallback hmacSha256Hex secret db req =
        { db := db, response := some (.json 400 "shopify order not found"),
          effects := [.dbSelect "shopify_order", .dbSelect "shopify_config",
                      .dbSelect "getpaid_transaction"],
          threw := false }) ∧
    (∀ order : ShopifyOrder, findOrder db req.shop req.tx_ref = some order →
      (order.status = some "completed" ∨ order.status = some "failed") →
      (handlePaymentCallback hmacSha256Hex secret db req).db = db ∧
      schedulesTask (handlePaymentCallback hmacSha256Hex secret db req).effects = false) := by
  constructor
  · intro hlen hauth hstatus ho
    exact handlePaymentCallback_no_order hmacSha256Hex secret db req hlen hauth hstatus ho
  · intro order ho hs
    apply handlePaymentCallback_finalized hmacSha256Hex secret db req order ho
    rcases hs with h | h <;> rw [h] <;> decide

/-- Witness for C13: an authenticated callback for an unknown order
reference is answered 400, and one for the completed sample order changes
nothing. -/
theorem callback_replay_changes_nothing_witness :
    (handlePaymentCallback sampleDigest "f4b-secret" (sampleDb (some "pending"))
        (sampleCallbackFor "ORD-404" (some "successful"))).response
      = some (.json 400 "shopify order not found") ∧
    (handlePaymentCallback sampleDigest "f4b-secret"
        (sampleDbWithTx (some "completed") (sampleTx "successful" "NGN" 100))
        (sampleCallback (some "successful"))).db
      = sampleDbWithTx (some "completed") (sampleTx "successful" "NGN" 100) := by
  constructor
  · rw [(callback_replay_changes_nothing sampleDigest "f4b-secret" (sampleDb (some "pending"))
      (sampleCallbackFor "ORD-404" (some "successful"))).1 (by decide) (by decide) (by decide)
      (by decide)]
  · exact ((callback_replay_changes_nothing sampleDigest "f4b-secret"
      (sampleDbWithTx (some "completed") (sampleTx "successful" "NGN" 100))
      (sampleCallback (some "successful"))).2 (sampleOrder (some "completed")) (by decide)
      (Or.inl rfl)).1

/-- C14: an authenticated callback whose body status is `failed` ends the
response without any database statement, without scheduling any
remote-session operation and without changing the store, so the order's
stored status is unchanged. -/
theorem callback_ignores_failed_notification (hmacSha256Hex : String → String → String)
    (secret : String) (db : Db) (req : CallbackReq)
    (hlen : (hmacSha256Hex secret (hmacData req)).length = 64)
    (hauth : req.hmac = some (hmacSha256Hex secret (hmacData req)))
    (hstatus : req.status = some "failed") :
    handlePaymentCallback hmacSha256Hex secret db req =
        { db := db, response := some .ended, effects := [], threw := false } ∧
    storedStatuses (handlePaymentCallback hmacSha256Hex secret db req).db req.shop req.tx_ref
      = storedStatuses db req.shop req.tx_ref := by
  have h := handlePaymentCallback_failed hmacSha256Hex secret db req hlen hauth hstatus
  exact ⟨h, by rw [h]⟩

/-- Witness for C14: the authenticated sample callback with status `failed`
against the pending sample order. -/
theorem callback_ignores_failed_notification_witness :
    handlePaymentCallback sampleDigest "f4b-secret"
        (sampleDbWithTx (some "pending") (sampleTx "failed" "NGN" 100))
        (sampleCallback (some "failed")) =
      { db := sampleDbWithTx (some "pending") (sampleTx "failed" "NGN" 100),
        response := some .ended, effects := [], threw := false } :=
  (callback_ignores_failed_notification sampleDigest "f4b-secret"
    (sampleDbWithTx (some "pending") (sampleTx "failed" "NGN" 100))
    (sampleCallback (some "failed")) (by decide) (by decide) rfl).1

/-! ## Refund submission failures, retry progress and guard contention -/

/-- C15 (the claim fails on the code): a refund-init for the completed sample
order passes all preconditions.  When the refund POST fails with a response
(status 500) the metadata records the failure and the retry timestamp is
`now + 300000`.  When the POST fails without a response (a network error),
reading `response.status` throws inside the catch block: the handler throws,
the metadata stays the default one and no retry timestamp is written. -/
theorem refund_post_network_error_records_nothing :
    ((handleRefundInit (sampleDb (some "completed")) sampleRefundReq
        sampleRefundEnv).db.shopifyRefund.map fun r => (r.status, r.meta, r.retry_ts))
      = [(some "pending",
          .object { refundApiReqSuccessful := .val false, retryCount := .val (.fin 0),
                    maxRetries := .val (.fin 7), lastApiResponseStatus := .val 500,
                    lastApiResponseObj := .absent },
          some (1000 + 300000))] ∧
    networkErrorEnv.post = .failed none ∧
    (handleRefundInit (sampleDb (some "completed")) sampleRefundReq networkErrorEnv).threw
      = true ∧
    (handleRefundInit (sampleDb (some "completed")) sampleRefundReq networkErrorEnv).effects
      = [.dbSelect "shopify_order", .dbInsert "shopify_refund", .dbSelect "shopify_refund",
         .dbSelect "shopify_config", .gatewayVerify, .gatewayRefundPost] ∧
    ((handleRefundInit (sampleDb (some "completed")) sampleRefundReq
        networkErrorEnv).db.shopifyRefund.map fun r => (r.status, r.meta, r.retry_ts))
      = [(some "pending", defaultMeta.stringify, none)] := by
  refine ⟨by decide, rfl, by decide, by decide, by decide⟩

/-- C16 (the claim fails on the code): `pendingRetryRefund` is overdue at
time 400000.  The tick as shipped acquires the claim and throws on the
unbound identifier `shopifyOrder`: the refund keeps its status `pending`, its
retry timestamp and its metadata.  With the identifier bound, a refund POST
answered 200 with a status other than `success` also leaves the row as it
was. -/
theorem claimed_tick_leaves_refund_untouched :
    selectOverdue pendingRetryDb.shopifyRefund 400000 = some pendingRetryRefund ∧
    clearshopifyRefunds pendingRetryDb { sampleTickEnv with now := 400000 } =
      { db := { pendingRetryDb with
                  progressGuard := [{ entity := "RF-1-301000", entity_type := "SHRFD" }] },
        response := none,
        effects := [.dbSelect "shopify_refund", .dbInsert "progress_guard"],
        threw := true } ∧
    (clearshopifyRefundsWith (some (sampleOrder (some "completed"))) pendingRetryDb
        undecidedTickEnv).db.shopifyRefund = [pendingRetryRefund] ∧
    (clearshopifyRefundsWith (some (sampleOrder (some "completed"))) pendingRetryDb
        undecidedTickEnv).effects
      = [.dbSelect "shopify_refund", .dbInsert "progress_guard", .dbSelect "shopify_config",
         .gatewayVerify, .gatewayRefundPost] := by
  refine ⟨by decide, by decide, by decide, by decide⟩

/-- C19: when the progress-guard insert for the selected refund fails, the
tick returns after the select and the refused insert: the store is left as
it was, and neither the gateway nor the remote refund session is called.
This holds whatever the identifier `shopifyOrder` resolves to. -/
theorem guard_contention_aborts_tick (shopifyOrder : Option ShopifyOrder) (db : Db)
    (env : TickEnv) (refund : ShopifyRefund)
    (hsel : selectOverdue db.shopifyRefund env.now = some refund)
    (hguard : insertGuard db.progressGuard
      (claimToken refund.refund_id (refund.retry_ts.getD 0)) "SHRFD" = none) :
    clearshopifyRefundsWith shopifyOrder db env =
      { db := db, response := none,
        effects := [.dbSelect "shopify_refund", .dbInsert "progress_guard"],
        threw := false } := by
  unfold clearshopifyRefundsWith
  simp only [hsel, hguard]
  rfl

/-- Witness for C19: the claim for the current epoch of the sample refund is
already stored; the tick as shipped changes nothing. -/
theorem guard_contention_aborts_tick_witness :
    clearshopifyRefunds contendedDb { sampleTickEnv with now := 400000 } =
      { db := contendedDb, response := none,
        effects := [.dbSelect "shopify_refund", .dbInsert "progress_guard"],
        threw := false } :=
  guard_contention_aborts_tick none contendedDb { sampleTickEnv with now := 400000 }
    pendingRetryRefund (by decide) (by decide)

/-! ## Scheduler selection -/

theorem oldestFirst_le : ∀ (rows : List ShopifyRefund) (r : ShopifyRefund),
    oldestFirst rows = some r → ∀ r' ∈ rows, r.retry_ts.getD 0 ≤ r'.retry_ts.getD 0 := by
  intro rows
  induction rows with
  | nil => intro r h; simp [oldestFirst] at h
  | cons x rest ih =>
    intro r h r' hr'
    unfold oldestFirst at h
    cases hb : oldestFirst rest with
    | none =>
      rw [hb] at h
      simp only [Option.some.injEq] at h
      have hrest : rest = [] := by
        cases rest with
        | nil => rfl
        | cons y ys =>
          unfold oldestFirst at hb
          cases hy : oldestFirst ys <;> rw [hy] at hb <;> simp only [] at hb
          · cases hb
          · split at hb <;> cases hb
      subst hrest
      rw [List.mem_singleton] at hr'
      rw [hr', h]
    | some best =>
      rw [hb] at h
      simp only [] at h
      have hbest := ih best hb
      split at h
      · rename_i hlt
        simp only [Option.some.injEq] at h
        subst h
        rcases List.mem_cons.1 hr' with h1 | h1
        · rw [h1]; omega
        · exact hbest r' h1
      · rename_i hge
        simp only [Option.some.injEq] at h
        subst h
        rcases List.mem_cons.1 hr' with h1 | h1
        · rw [h1]
        · have := hbest r' h1
          omega

theorem oldestFirst_eq_none : ∀ (rows : List ShopifyRefund), oldestFirst rows = none → rows = []
  | [], _ => rfl
  | x :: rest, h => by
    unfold oldestFirst at h
    cases hy : oldestFirst rest <;> rw [hy] at h <;> simp only [] at h
    · cases h
    · split at h <;> cases h

theorem overdue_iff (now : Nat) (r : ShopifyRefund) :
    overdue now r = true ↔ r.status = some "pending" ∧ ∃ t, r.retry_ts = some t ∧ t ≤ now := by
  unfold overdue
  cases hr : r.retry_ts with
  | none => simp
  | some t => simp

theorem otherRefunds_updateRefund (rows : List ShopifyRefund) (id : Nat)
    (f : ShopifyRefund → ShopifyRefund) (hf : ∀ r, (f r).id = r.id) :
    otherRefunds (updateRefund rows id f) id = otherRefunds rows id := by
  unfold otherRefunds updateRefund
  induction rows with
  | nil => rfl
  | cons x rest ih =>
    simp only [List.map_cons, List.filter_cons]
    by_cases hx : x.id = id
    · rw [if_pos hx]
      have h1 : (f x).id = id := by rw [hf x, hx]
      simp only [h1, hx, ne_eq, not_true_eq_false, decide_False, Bool.false_eq_true, if_false]
      exact ih
    · rw [if_neg hx]
      simp only [hx, ne_eq, not_false_eq_true, decide_True, if_true]
      rw [ih]

theorem resolveRefund_others (db : Db) (rowId : Nat) (gid : String) (meta : Option MetaText) :
    otherRefunds (resolveRefund db rowId gid meta).1.shopifyRefund rowId
      = otherRefunds db.shopifyRefund rowId :=
  otherRefunds_updateRefund _ _ _ (fun _ => rfl)

theorem rejectRefund_others (db : Db) (rowId : Nat) (gid message : String)
    (meta : Option MetaText) :
    otherRefunds (rejectRefund db rowId gid message meta).1.shopifyRefund rowId
      = otherRefunds db.shopifyRefund rowId :=
  otherRefunds_updateRefund _ _ _ (fun _ => rfl)

theorem tickSettle_others (db : Db) (refund : ShopifyRefund) (meta : MetaObj) (env : TickEnv)
    (effects : List Effect) :
    otherRefunds (tickSettle db refund meta env effects).db.shopifyRefund refund.id
      = otherRefunds db.shopifyRefund refund.id := by
  unfold tickSettle
  split
  · rfl
  · exact otherRefunds_updateRefund _ _ _ (fun _ => rfl)
  · split
    · exact otherRefunds_updateRefund _ _ _ (fun _ => rfl)
    · rfl

theorem tickProcess_others (db : Db) (refund : ShopifyRefund) (env : TickEnv)
    (effects : List Effect) :
    otherRefunds (tickProcess db refund env effects).db.shopifyRefund refund.id
      = otherRefunds db.shopifyRefund refund.id := by
  unfold tickProcess
  split
  · rfl
  · exact otherRefunds_updateRefund _ _ _ (fun _ => rfl)
  · rename_i meta0 hm
    have hrej := rejectRefund_others db refund.id refund.gid "Unable to process refund"
      (some meta0.stringify)
    by_cases hcap : strictEqNumber meta0.retryCount meta0.maxRetries = true
    · simp only [hcap, if_true]
      split
      · exact (resolveRefund_others _ refund.id refund.gid _).trans hrej
      · exact (tickSettle_others _ refund _ env _).trans hrej
    · simp only [hcap, Bool.false_eq_true, if_false]
      split
      · exact resolveRefund_others db refund.id refund.gid _
      · exact tickSettle_others db refund _ env _

theorem clearshopifyRefundsWith_others (shopifyOrder : Option ShopifyOrder) (db : Db)
    (env : TickEnv) (refund : ShopifyRefund)
    (hsel : selectOverdue db.shopifyRefund env.now = some refund) :
    otherRefunds (clearshopifyRefundsWith shopifyOrder db env).db.shopifyRefund refund.id
      = otherRefunds db.shopifyRefund refund.id := by
  unfold clearshopifyRefundsWith
  simp only [hsel]
  split
  · rfl
  · split
    · rfl
    · split
      · rfl
      · exact tickProcess_others _ refund env _

/-- C20: in every tick clearshopifyRefunds selects at most one refund; the
selected refund is a stored row with status `pending` (so never `resolved`
or `rejected`) and a retry timestamp that is set, not later than the current
time, and the smallest among all refunds with these properties; the tick
leaves every refund row with another key as it was; and when no refund
qualifies the tick does nothing beyond the select.  This holds whatever the
identifier `shopifyOrder` resolves to. -/
theorem scheduler_selects_oldest_overdue (shopifyOrder : Option ShopifyOrder) (db : Db)
    (env : TickEnv) :
    (∀ refund : ShopifyRefund, selectOverdue db.shopifyRefund env.now = some refund →
      refund ∈ db.shopifyRefund ∧
      refund.status = some "pending" ∧
      (∃ t, refund.retry_ts = some t ∧ t ≤ env.now ∧
        ∀ r ∈ db.shopifyRefund, r.status = some "pending" →
          ∀ u, r.retry_ts = some u → u ≤ env.now → t ≤ u) ∧
      otherRefunds (clearshopifyRefundsWith shopifyOrder db env).db.shopifyRefund refund.id
        = otherRefunds db.shopifyRefund refund.id) ∧
    ((∀ r ∈ db.shopifyRefund,
        ¬ (r.status = some "pending" ∧ ∃ u, r.retry_ts = some u ∧ u ≤ env.now)) →
      clearshopifyRefundsWith shopifyOrder db env =
        { db := db, response := none, effects := [.dbSelect "shopify_refund"],
          threw := false }) := by
  constructor
  · intro refund hsel
    obtain ⟨hmem, hover⟩ := selectOverdue_mem _ _ _ hsel
    obtain ⟨hst, t, ht, hle⟩ := (overdue_iff env.now refund).1 hover
    refine ⟨hmem, hst, ⟨t, ht, hle, ?_⟩, clearshopifyRefundsWith_others shopifyOrder db env
      refund hsel⟩
    intro r hr hrs u hu hule
    have hro : overdue env.now r = true := (overdue_iff env.now r).2 ⟨hrs, u, hu, hule⟩
    have hmin := oldestFirst_le _ refund hsel r (List.mem_filter.2 ⟨hr, hro⟩)
    rw [ht, hu] at hmin
    exact hmin
  · intro hnone
    have hfilter : db.shopifyRefund.filter (overdue env.now) = [] := by
      rw [List.filter_eq_nil_iff]
      intro r hr hro
      exact hnone r hr ((overdue_iff env.now r).1 hro)
    have hsel : selectOverdue db.shopifyRefund env.now = none := by
      unfold selectOverdue
      rw [hfilter]
      rfl
    unfold clearshopifyRefundsWith
    simp only [hsel]

/-- Witness for C20: of a resolved refund (timestamp 100) and two pending
refunds (timestamps 900 and 500), the tick at time 1000 selects the pending
refund with timestamp 500; at time 400 none qualifies and the tick does
nothing. -/
theorem scheduler_selects_oldest_overdue_witness :
    (selectOverdue queueDb.shopifyRefund 1000).map (fun r => (r.refund_id, r.retry_ts))
      = some ("RF-3", some 500) ∧
    ((selectOverdue queueDb.shopifyRefund 1000).map fun r => r.status)
      = some (some "pending") ∧
    clearshopifyRefunds queueDb { sampleTickEnv with now := 400 } =
      { db := queueDb, response := none, effects := [.dbSelect "shopify_refund"],
        threw := false } := by
  have h := scheduler_selects_oldest_overdue none queueDb { sampleTickEnv with now := 1000 }
  have h2 := scheduler_selects_oldest_overdue none queueDb { sampleTickEnv with now := 400 }
  refine ⟨by decide, ?_, h2.2 (by decide)⟩
  have hsel : selectOverdue queueDb.shopifyRefund 1000
      = some { pendingRetryRefund with id := 3, refund_id := "RF-3", retry_ts := some 500 } := by
    decide
  rw [hsel]
  exact congrArg some (h.1 _ hsel).2.1

/-! ## MergeRefundMeta -/

theorem isJson_fields (m : MetaObj) (h : m.IsJson) :
    m.refundApiReqSuccessful.stringify = m.refundApiReqSuccessful ∧
    stringifyNumber m.retryCount = m.retryCount ∧
    stringifyNumber m.maxRetries = m.maxRetries ∧
    m.lastApiResponseStatus.stringify = m.lastApiResponseStatus ∧
    m.lastApiResponseObj.stringify = m.lastApiResponseObj := by
  unfold MetaObj.IsJson MetaObj.stringify at h
  have h2 := MetaText.object.inj h
  exact ⟨congrArg MetaObj.refundApiReqSuccessful h2, congrArg MetaObj.retryCount h2,
    congrArg MetaObj.maxRetries h2, congrArg MetaObj.lastApiResponseStatus h2,
    congrArg MetaObj.lastApiResponseObj h2⟩

theorem stringify_spread {α : Type} (a b : JsField α) (ha : a.stringify = a) :
    (b = .absent → (a.spread b).stringify = a) ∧
    (b ≠ .absent → (a.spread b).stringify = b.stringify) := by
  cases b <;> simp [JsField.spread, ha]

theorem stringifyNumber_spread (a b : JsField JsNumber) (ha : stringifyNumber a = a) :
    (b = .absent → stringifyNumber (a.spread b) = a) ∧
    (b ≠ .absent → stringifyNumber (a.spread b) = stringifyNumber b) := by
  cases b <;> simp [JsField.spread, ha]

/-- C17 (the claim as stated fails): the stored metadata holds a response
body with status `error` and the field `code`; the metadata of a later
successful attempt gives a body with status `success` only.  The result of
generateRefundMeta has lost the stored field `code`, which the deep merge of
the specification keeps. -/
theorem generateRefundMeta_replaces_nested_object :
    failedAttemptMeta.IsJson ∧
    generateRefundMeta (some (.object failedAttemptMeta)) successPatch
      = .object { refundApiReqSuccessful := .val true, retryCount := .val (.fin 1),
                  maxRetries := .val (.fin 7), lastApiResponseStatus := .val 200,
                  lastApiResponseObj := .val { status := some "success", extra := [] } } ∧
    deepMergeRefundMeta failedAttemptMeta successPatch
      = .object { refundApiReqSuccessful := .val true, retryCount := .val (.fin 1),
                  maxRetries := .val (.fin 7), lastApiResponseStatus := .val 200,
                  lastApiResponseObj :=
                    .val { status := some "success", extra := [("code", "E42")] } } ∧
    generateRefundMeta (some (.object failedAttemptMeta)) successPatch
      ≠ deepMergeRefundMeta failedAttemptMeta successPatch := by
  refine ⟨rfl, by decide, by decide, by decide⟩

/-- C17 (amended): for stored metadata that is a JSON object and any given
metadata object, generateRefundMeta returns the JSON of the one-level merge
`{ ...stored, ...given }`: each of the five top-level keys that the given
object lacks keeps its stored value, and each key it has takes the given
value as a whole, as `JSON.stringify` writes it (a key whose value is
`undefined` is dropped, `NaN` is written `null`); in particular an object
given for `lastApiResponseObj` replaces the stored one. -/
theorem generateRefundMeta_is_one_level_merge (stored given : MetaObj)
    (hjson : stored.IsJson) :
    ∃ merged : MetaObj,
      generateRefundMeta (some (.object stored)) given = .object merged ∧
      (given.refundApiReqSuccessful = .absent →
        merged.refundApiReqSuccessful = stored.refundApiReqSuccessful) ∧
      (given.refundApiReqSuccessful ≠ .absent →
        merged.refundApiReqSuccessful = given.refundApiReqSuccessful.stringify) ∧
      (given.retryCount = .absent → merged.retryCount = stored.retryCount) ∧
      (given.retryCount ≠ .absent → merged.retryCount = stringifyNumber given.retryCount) ∧
      (given.maxRetries = .absent → merged.maxRetries = stored.maxRetries) ∧
      (given.maxRetries ≠ .absent → merged.maxRetries = stringifyNumber given.maxRetries) ∧
      (given.lastApiResponseStatus = .absent →
        merged.lastApiResponseStatus = stored.lastApiResponseStatus) ∧
      (given.lastApiResponseStatus ≠ .absent →
        merged.lastApiResponseStatus = given.lastApiResponseStatus.stringify) ∧
      (given.lastApiResponseObj = .absent →
        merged.lastApiResponseObj = stored.lastApiResponseObj) ∧
      (∀ body, given.lastApiResponseObj = .val body →
        merged.lastApiResponseObj = .val body) ∧
      (given.lastApiResponseObj ≠ .absent →
        merged.lastApiResponseObj = given.lastApiResponseObj.stringify) := by
  obtain ⟨h1, h2, h3, h4, h5⟩ := isJson_fields stored hjson
  refine ⟨_, rfl, ?_⟩
  simp only [MetaObj.spread]
  refine ⟨(stringify_spread _ _ h1).1, (stringify_spread _ _ h1).2,
    (stringifyNumber_spread _ _ h2).1, (stringifyNumber_spread _ _ h2).2,
    (stringifyNumber_spread _ _ h3).1, (stringifyNumber_spread _ _ h3).2,
    (stringify_spread _ _ h4).1, (stringify_spread _ _ h4).2,
    (stringify_spread _ _ h5).1, ?_, (stringify_spread _ _ h5).2⟩
  intro body hb
  rw [(stringify_spread _ given.lastApiResponseObj h5).2 (by rw [hb]; simp), hb]
  rfl

/-- Witness for C17: the successful attempt merged over the stored failed
attempt keeps `retryCount` and `maxRetries` and takes the three given keys. -/
theorem generateRefundMeta_is_one_level_merge_witness :
    generateRefundMeta (some (.object failedAttemptMeta)) successPatch
      = .object { refundApiReqSuccessful := .val true, retryCount := .val (.fin 1),
                  maxRetries := .val (.fin 7), lastApiResponseStatus := .val 200,
                  lastApiResponseObj := .val { status := some "success", extra := [] } } := by
  obtain ⟨merged, hm, h1, h2, h3, h4, h5, h6, h7, h8, h9, h10, h11⟩ :=
    generateRefundMeta_is_one_level_merge failedAttemptMeta successPatch rfl
  rw [hm]
  have e1 := h2 (by decide)
  have e2 := h3 rfl
  have e3 := h5 rfl
  have e4 := h8 (by decide)
  have e5 := h10 { status := some "success", extra := [] } rfl
  cases merged
  simp only at e1 e2 e3 e4 e5
  subst e1 e2 e3 e4 e5
  rfl

/-! ## Redirect status independence, checkout links and refund acknowledgement -/

theorem redirectGptx_not_cancelled (p : Option String) (verify : VerifyOutcome)
    (hp : p ≠ some "cancelled") : redirectGptx p verify = redirectGptx none verify := by
  unfold redirectGptx
  rw [if_pos hp, if_pos (by simp)]

theorem handlePaymentRedirect_status (db : Db) (req : RedirectReq) (env : RedirectEnv)
    (h : ¬ IsCancellation req.status) :
    handlePaymentRedirect db req env = handlePaymentRedirect db { req with status := none } env := by
  have hp : req.status.bind statusMap ≠ some "cancelled" :=
    fun hc => h ((statusMap_cancelled_iff _).1 hc)
  have hn : (none : Option String) ≠ some "cancelled" := by simp
  unfold handlePaymentRedirect
  simp only [Option.none_bind, redirectGptx_not_cancelled _ env.verify hp, if_pos hp, if_pos hn]

/-- C28: two redirect-return requests that differ only in the `status`
query value, neither value being `canceled`, `cancelled` or `invalid`
(absent and unknown values included), against the same store and with the
same gateway and remote-session answers, have the same outcome: the same
order status is written, the same remote-session operation is issued and the
same response is sent. -/
theorem redirect_ignores_raw_status (db : Db) (req : RedirectReq) (env : RedirectEnv)
    (s1 s2 : Option String) (h1 : ¬ IsCancellation s1) (h2 : ¬ IsCancellation s2) :
    handlePaymentRedirect db { req with status := s1 } env =
      handlePaymentRedirect db { req with status := s2 } env := by
  rw [handlePaymentRedirect_status db { req with status := s1 } env h1,
    handlePaymentRedirect_status db { req with status := s2 } env h2]

theorem redirect_ignores_raw_status_witness :
    handlePaymentRedirect (sampleDb (some "pending")) (sampleRedirect (some "successful"))
        failingRemoteEnv =
      handlePaymentRedirect (sampleDb (some "pending")) (sampleRedirect none) failingRemoteEnv :=
  redirect_ignores_raw_status (sampleDb (some "pending")) (sampleRedirect none) failingRemoteEnv
    (some "successful") none (by unfold IsCancellation; decide) (by unfold IsCancellation; decide)

/-- C23: when the order row that the lookup for (shop, order id) returns is
`pending` and stores a non-empty `hosted_link`, handlePaymentInit answers
with that link as `redirect_url`, leaves the store as it is and issues the
two lookups only: no request goes to the gateway and no order row is
inserted. -/
theorem payment_init_returns_stored_link (defaultStatus : Option String) (db : Db)
    (req : InitReq) (post : LinkOutcome) (order : ShopifyOrder) (link : String)
    (ho : findOrder db req.shop req.id = some order) (hs : order.status = some "pending")
    (hl : order.hosted_link = some link) (hne : link ≠ "") :
    handlePaymentInit defaultStatus db req post =
      { db := db, response := some (.jsonRedirectUrl link),
        effects := [.dbSelect "shopify_config", .dbSelect "shopify_order"], threw := false } := by
  unfold handlePaymentInit
  simp only [ho, reusableLink, hs, hl, if_true, if_neg hne]

theorem payment_init_returns_stored_link_witness :
    handlePaymentInit none (sampleDb (some "pending")) sampleInitReq
        (.resp (some "https://pay.example/l/2")) =
      { db := sampleDb (some "pending"),
        response := some (.jsonRedirectUrl "https://pay.example/l/1"),
        effects := [.dbSelect "shopify_config", .dbSelect "shopify_order"], threw := false } :=
  payment_init_returns_stored_link none (sampleDb (some "pending")) sampleInitReq
    (.resp (some "https://pay.example/l/2")) (sampleOrder (some "pending"))
    "https://pay.example/l/1" (by decide) rfl rfl (by decide)

/-- C24 (counterexample): a refund-init request whose `payment_id` matches no
order row is answered with HTTP status 400, not 201, and nothing is stored. -/
theorem refund_init_unknown_order_is_400 :
    handleRefundInit (sampleDb (some "completed"))
        { sampleRefundReq with payment_id := "ORD-404" } sampleRefundEnv =
      { db := sampleDb (some "completed"),
        response := some (.json 400 "No corresponding shopify order found for refund request"),
        effects := [.dbSelect "shopify_order"], threw := false } := by
  decide

theorem refundInitFollowUp_response (db1 : Db) (order : ShopifyOrder) (refund : ShopifyRefund)
    (req : RefundReq) (env : RefundEnv) (effects : List Effect) :
    (refundInitFollowUp db1 order refund req env effects).response =
      some (.json 201 "New refund request logged sucessfully") := by
  unfold refundInitFollowUp refundInitSettle
  simp only []
  repeat' split
  all_goals rfl

/-- C24 (amended): a refund-init request for which an order row with
`order_id = payment_id` exists is answered with HTTP status 201, whatever
its refund id, amount, currency and test flag are and whether or not the
refund id was seen before; a request for which no such order row exists is
answered with HTTP status 400. -/
theorem refund_init_acknowledges_known_order (db : Db) (req : RefundReq) (env : RefundEnv) :
    (findPaymentOrder db req.payment_id ≠ none →
      ∃ message, (handleRefundInit db req env).response = some (.json 201 message)) ∧
    (findPaymentOrder db req.payment_id = none →
      (handleRefundInit db req env).response =
        some (.json 400 "No corresponding shopify order found for refund request")) := by
  unfold handleRefundInit
  simp only []
  cases ho : findPaymentOrder db req.payment_id with
  | none => exact ⟨fun h => absurd rfl h, fun _ => rfl⟩
  | some order =>
    refine ⟨fun _ => ?_, fun h => by simp at h⟩
    simp only []
    cases hi : insertRefund db.shopifyRefund order req with
    | none => exact ⟨_, rfl⟩
    | some rows =>
      simp only []
      cases hr : (rows.filter fun r => r.refund_id = req.id).head? with
      | none => exact ⟨_, rfl⟩
      | some refund => exact ⟨_, refundInitFollowUp_response _ _ _ _ _ _⟩

theorem refund_init_acknowledges_known_order_witness :
    (∃ message, (handleRefundInit (sampleDb (some "completed")) sampleRefundReq
        sampleRefundEnv).response = some (.json 201 message)) ∧
    (handleRefundInit (sampleDb (some "completed"))
        { sampleRefundReq with payment_id := "ORD-404" } sampleRefundEnv).response =
      some (.json 400 "No corresponding shopify order found for refund request") :=
  ⟨(refund_init_acknowledges_known_order (sampleDb (some "completed")) sampleRefundReq
      sampleRefundEnv).1 (by decide),
   (refund_init_acknowledges_known_order (sampleDb (some "completed"))
      { sampleRefundReq with payment_id := "ORD-404" } sampleRefundEnv).2 (by decide)⟩

/-! ## Unparseable metadata and the secret-key check -/

/-- C21 (the claim fails on the code): when a tick claims a refund whose
`meta` column is not valid JSON, `JSON.parse` throws: the tick's promise
rejects, no refund row is changed (the refund keeps the status `pending`
and its retry timestamp) and only the claim token is stored.  This holds
for the job as shipped and for the job with `shopifyOrder` bound. -/
theorem malformed_meta_tick_marks_nothing (shopifyOrder : Option ShopifyOrder) (db : Db)
    (env : TickEnv) (refund : ShopifyRefund) (guards : List ProgressGuard)
    (hsel : selectOverdue db.shopifyRefund env.now = some refund)
    (hguard : insertGuard db.progressGuard
      (claimToken refund.refund_id (refund.retry_ts.getD 0)) "SHRFD" = some guards)
    (hmeta : refund.meta = .malformed) :
    (clearshopifyRefundsWith shopifyOrder db env).threw = true ∧
    (clearshopifyRefundsWith shopifyOrder db env).db = { db with progressGuard := guards } ∧
    Effect.dbUpdate "shopify_refund" ∉ (clearshopifyRefundsWith shopifyOrder db env).effects := by
  unfold clearshopifyRefundsWith
  simp only [hsel, hguard]
  cases shopifyOrder with
  | none => exact ⟨rfl, rfl, by simp⟩
  | some bound =>
    simp only []
    cases ht : (findConfig db bound.shop).bind fun c => c.access_token with
    | none => exact ⟨rfl, rfl, by simp⟩
    | some token =>
      simp only []
      unfold tickProcess
      rw [hmeta]
      exact ⟨rfl, rfl, by simp⟩

theorem malformed_meta_tick_marks_nothing_witness :
    (clearshopifyRefundsWith (some (sampleOrder (some "completed"))) malformedDb
        undecidedTickEnv).threw = true ∧
    (clearshopifyRefundsWith (some (sampleOrder (some "completed"))) malformedDb
        undecidedTickEnv).db =
      { malformedDb with progressGuard := [{ entity := "RF-1-301000", entity_type := "SHRFD" }] } ∧
    Effect.dbUpdate "shopify_refund" ∉
      (clearshopifyRefundsWith (some (sampleOrder (some "completed"))) malformedDb
        undecidedTickEnv).effects :=
  malformed_meta_tick_marks_nothing (some (sampleOrder (some "completed"))) malformedDb
    undecidedTickEnv malformedRefund [{ entity := "RF-1-301000", entity_type := "SHRFD" }]
    (by decide) (by decide) rfl

theorem refundInitSettle_effects (db : Db) (refund : ShopifyRefund) (gid : String)
    (env : RefundEnv) (answer : Response) (effects : List Effect) :
    ∃ ops, (refundInitSettle db refund gid env answer effects).effects
        = effects ++ Effect.gatewayRefundPost :: ops ∧
      ∀ message, Effect.refundSessionReject gid message ∉ ops := by
  unfold refundInitSettle resolveRefund
  cases hp : env.post with
  | failed response =>
    cases response with
    | none => exact ⟨[], by simp, by simp⟩
    | some answered => exact ⟨[.dbUpdate "shopify_refund"], by simp, by simp⟩
  | ok status data =>
    simp only []
    split
    · exact ⟨[.refundSessionResolve gid, .dbUpdate "shopify_refund"], by simp, by simp⟩
    · exact ⟨[], by simp, by simp⟩

theorem refundInitFollowUp_settles (db1 : Db) (order : ShopifyOrder) (refund : ShopifyRefund)
    (req : RefundReq) (env : RefundEnv) (effects : List Effect) (token : String)
    (htoken : ((findConfig db1 order.shop).bind fun c => c.access_token) = some token)
    (hpass : refundPreconditionFailure order req (refundGpTx env.verify)
      (parsedKeysOf (findConfig db1 order.shop)) = none)
    (hkeys : StoredKeys (findConfig db1 order.shop)) :
    refundInitFollowUp db1 order refund req env effects =
      refundInitSettle db1 refund req.gid env
        (.json 201 "New refund request logged sucessfully")
        (effects ++ [.dbSelect "shopify_config", .gatewayVerify]) := by
  unfold refundPreconditionFailure at hpass
  rw [falsy_secKey_of_stored _ _ hkeys] at hpass
  unfold refundInitFollowUp
  simp only [htoken]
  by_cases c1 : order.status ≠ some "completed"
  · rw [if_pos c1] at hpass
    cases hpass
  · rw [if_neg c1] at hpass
    rw [if_neg c1]
    by_cases c2 : req.test ≠ order.is_test
    · rw [if_pos c2] at hpass
      cases hpass
    · rw [if_neg c2] at hpass
      rw [if_neg c2]
      by_cases c3 : req.amount.gt (refundGpTx env.verify).amount = true
      · rw [if_pos c3] at hpass
        cases hpass
      · rw [if_neg c3] at hpass
        rw [if_neg c3]
        by_cases c4 : falsyStr (parsedKeysOf (findConfig db1 order.shop)).sk = true
        · rw [if_pos c4] at hpass
          cases hpass
        · rw [if_neg c4]

/-- C25 (the claim as stated fails): after the merchant has uninstalled the
app neither a key bundle nor an access token is stored.  A refund-init for
the completed sample order passes the first three preconditions and the
secret key for its environment is absent, yet the handler throws while
building the remote client: no RefundSessionReject is sent and the refund
stays `pending`. -/
theorem uninstalled_merchant_refund_is_not_rejected :
    refundSecKey sampleRefundReq.test
        (parsedKeysOf (findConfig (uninstalledDb (some "completed")) "demo.myshopify.com"))
      = none ∧
    refundPreconditionFailure (sampleOrder (some "completed")) sampleRefundReq
        (refundGpTx sampleRefundEnv.verify)
        (parsedKeysOf (findConfig (uninstalledDb (some "completed")) "demo.myshopify.com"))
      = some "Unable to process refund" ∧
    (handleRefundInit (uninstalledDb (some "completed")) sampleRefundReq sampleRefundEnv).threw
      = true ∧
    (handleRefundInit (uninstalledDb (some "completed")) sampleRefundReq sampleRefundEnv).effects
      = [.dbSelect "shopify_order", .dbInsert "shopify_refund", .dbSelect "shopify_refund",
         .dbSelect "shopify_config", .gatewayVerify] ∧
    (handleRefundInit (uninstalledDb (some "completed")) sampleRefundReq
        sampleRefundEnv).db.shopifyRefund.map (fun r => r.status) = [some "pending"] := by
  refine ⟨by decide, by decide, by decide, by decide, by decide⟩

/-- C25 (amended): for a freshly created refund of a merchant whose access
token is stored and that passes the first three preconditions (order
completed, same environment, amount not greater than the verified amount):
if the secret key for the refund's environment is absent, one
RefundSessionReject with `Unable to process refund` is sent, no refund POST
is sent and the refund's row ends with status `rejected`; if that key is
configured, no RefundSessionReject is sent and the refund POST is sent.  The
merchant's key bundle is as the application stores it (`StoredKeys`). -/
theorem missing_environment_key_rejects_refund (db : Db) (req : RefundReq) (env : RefundEnv)
    (order : ShopifyOrder) (token : String)
    (ho : findPaymentOrder db req.payment_id = some order)
    (hfresh : refundCount db req.id = 0)
    (htoken : ((findConfig db order.shop).bind fun c => c.access_token) = some token)
    (hkeys : StoredKeys (findConfig db order.shop))
    (hcompleted : order.status = some "completed")
    (hsame : req.test = order.is_test)
    (hamount : req.amount.gt (refundGpTx env.verify).amount = false) :
    (falsyStr (refundSecKey req.test (parsedKeysOf (findConfig db order.shop))) = true →
      (handleRefundInit db req env).effects =
        [.dbSelect "shopify_order", .dbInsert "shopify_refund", .dbSelect "shopify_refund",
         .dbSelect "shopify_config", .gatewayVerify,
         .refundSessionReject req.gid "Unable to process refund",
         .dbUpdate "shopify_refund"] ∧
      Effect.gatewayRefundPost ∉ (handleRefundInit db req env).effects ∧
      (∀ r ∈ (handleRefundInit db req env).db.shopifyRefund,
        r.refund_id = req.id → r.status = some "rejected")) ∧
    (falsyStr (refundSecKey req.test (parsedKeysOf (findConfig db order.shop))) = false →
      (∀ message,
        Effect.refundSessionReject req.gid message ∉ (handleRefundInit db req env).effects) ∧
      Effect.gatewayRefundPost ∈ (handleRefundInit db req env).effects) := by
  constructor
  · intro hkey
    have hfail : refundPreconditionFailure order req (refundGpTx env.verify)
        (parsedKeysOf (findConfig db order.shop)) = some "Unable to process refund" := by
      unfold refundPreconditionFailure
      rw [if_neg (by simp [hcompleted]), if_neg (by simp [hsame]),
        if_neg (by simp [hamount]), hkey]
      simp
    have hout := refundInitFollowUp_reject
      { db with shopifyRefund := db.shopifyRefund ++ [newRefund db.shopifyRefund order req] }
      order (newRefund db.shopifyRefund order req) req env
      [.dbSelect "shopify_order", .dbInsert "shopify_refund", .dbSelect "shopify_refund"]
      token "Unable to process refund" htoken hkeys hfail
    rw [handleRefundInit_fresh db req env order ho hfresh, hout]
    refine ⟨rfl, by simp, ?_⟩
    intro r hr
    refine rejected_after_update db.shopifyRefund (newRefund db.shopifyRefund order req) ?_ r hr
    intro r0 hr0 hid
    have hpos : 0 < refundCount db req.id := by
      unfold refundCount
      rw [List.count_pos_iff]
      exact List.mem_map.2 ⟨r0, hr0, hid⟩
    omega
  · intro hkey
    have hpass : refundPreconditionFailure order req (refundGpTx env.verify)
        (parsedKeysOf (findConfig db order.shop)) = none := by
      unfold refundPreconditionFailure
      rw [if_neg (by simp [hcompleted]), if_neg (by simp [hsame]),
        if_neg (by simp [hamount]), hkey]
      simp
    have hout := refundInitFollowUp_settles
      { db with shopifyRefund := db.shopifyRefund ++ [newRefund db.shopifyRefund order req] }
      order (newRefund db.shopifyRefund order req) req env
      [.dbSelect "shopify_order", .dbInsert "shopify_refund", .dbSelect "shopify_refund"]
      token htoken hpass hkeys
    obtain ⟨ops, heff, hops⟩ := refundInitSettle_effects
      { db with shopifyRefund := db.shopifyRefund ++ [newRefund db.shopifyRefund order req] }
      (newRefund db.shopifyRefund order req) req.gid env
      (.json 201 "New refund request logged sucessfully")
      ([.dbSelect "shopify_order", .dbInsert "shopify_refund", .dbSelect "shopify_refund"] ++
        [.dbSelect "shopify_config", .gatewayVerify])
    rw [handleRefundInit_fresh db req env order ho hfresh, hout, heff]
    refine ⟨?_, by simp⟩
    intro message hmem
    simp only [List.mem_append, List.mem_cons, List.mem_singleton, reduceCtorEq, false_or,
      List.not_mem_nil, or_false] at hmem
    exact hops message hmem

/-- Witness for C25: the completed sample order of a merchant whose token is
stored.  Without a key bundle the refund is rejected with `Unable to process
refund`; with the sample key bundle the refund POST is sent. -/
theorem missing_environment_key_rejects_refund_witness :
    (handleRefundInit (unconfiguredDb (some "completed")) sampleRefundReq
        sampleRefundEnv).effects =
      [.dbSelect "shopify_order", .dbInsert "shopify_refund", .dbSelect "shopify_refund",
       .dbSelect "shopify_config", .gatewayVerify,
       .refundSessionReject "gid://refund/1" "Unable to process refund",
       .dbUpdate "shopify_refund"] ∧
    Effect.gatewayRefundPost ∈
      (handleRefundInit (sampleDb (some "completed")) sampleRefundReq sampleRefundEnv).effects :=
  ⟨((missing_environment_key_rejects_refund (unconfiguredDb (some "completed")) sampleRefundReq
      sampleRefundEnv (sampleOrder (some "completed")) "shpat_token" rfl (by decide) rfl
      (by intro c keys hc hk; cases hc; cases hk) rfl rfl (by decide)).1 (by decide)).1,
   ((missing_environment_key_rejects_refund (sampleDb (some "completed")) sampleRefundReq
      sampleRefundEnv (sampleOrder (some "completed")) "shpat_token" rfl (by decide) rfl
      (by intro c keys hc hk; cases hc; cases hk; exact ⟨rfl, rfl⟩) rfl rfl (by decide)).2
      (by decide)).2⟩

/-! ## Remote-session failures on the redirect-return path -/

theorem redirectRemote_threw (paymentStatus gid : String) (gptx : Option GpTx) :
    (redirectRemote paymentStatus gid gptx .threw).2 = none ∨
      redirectRemote paymentStatus gid gptx .threw = ([], some none) := by
  unfold redirectRemote
  split
  · exact Or.inl rfl
  · split
    · exact Or.inl rfl
    · split
      · exact Or.inl rfl
      · exact Or.inr rfl

theorem issuesRemote_append (a b : List Effect) :
    issuesRemote (a ++ b) = (issuesRemote a || issuesRemote b) := by
  unfold issuesRemote
  rw [List.any_append]

theorem redirect_tail_threw (db1 : Db) (e3 : List Effect) (paymentStatus gid : String)
    (gptx : Option GpTx) (cancel_url : Option String) (token : Option String)
    (he : issuesRemote e3 = false) (hu : Effect.dbUpdate "shopify_order" ∈ e3)
    (out : Outcome)
    (hout : out =
      if paymentStatus = "cancelled" then
        { db := db1, response := some (.redirect cancel_url), effects := e3, threw := false }
      else
        match token with
        | none => throwUnanswered db1 e3
        | some _ =>
          match redirectRemote paymentStatus gid gptx .threw with
          | (ops, none) => throwUnanswered db1 (e3 ++ ops)
          | (ops, some nextUrl) =>
            let answer : Response :=
              match nextUrl with
              | some url => if url = "" then .ended else .redirect (some url)
              | none => .ended
            { db := db1, response := some answer, effects := e3 ++ ops, threw := false })
    (hiss : issuesRemote out.effects = true) :
    out.threw = true ∧ out.response = some internalError ∧
      Effect.dbUpdate "shopify_order" ∈ out.effects := by
  subst hout
  revert hiss
  split
  · intro h
    rw [he] at h
    exact absurd h (by decide)
  · split
    · intro _
      exact ⟨rfl, rfl, hu⟩
    · split
      · intro _
        exact ⟨rfl, rfl, List.mem_append_left _ hu⟩
      · rename_i ops nextUrl heq
        intro h
        exfalso
        rcases redirectRemote_threw paymentStatus gid gptx with h1 | h1
        · rw [heq] at h1
          simp at h1
        · rw [heq] at h1
          simp only [Prod.mk.injEq] at h1
          simp only [h1.1, List.append_nil] at h
          rw [he] at h
          exact absurd h (by decide)

/-- C22 (the claim fails on the code): in handlePaymentRedirect the
Resolve, Pend and Reject requests are awaited outside any try/catch.
Whenever the handler issues one of them and the remote request rejects, the
rejection leaves the handler: its promise rejects after the order row has
been updated, and the caller gets the 500 answer of the error middleware
instead of a redirect. -/
theorem redirect_remote_failure_escapes (db : Db) (req : RedirectReq) (env : RedirectEnv)
    (hremote : env.remote = .threw)
    (hiss : issuesRemote (handlePaymentRedirect db req env).effects = true) :
    (handlePaymentRedirect db req env).threw = true ∧
    (handlePaymentRedirect db req env).response = some internalError ∧
    Effect.dbUpdate "shopify_order" ∈ (handlePaymentRedirect db req env).effects := by
  cases ho : findOrder db req.shop req.tx_ref with
  | none =>
    exfalso
    revert hiss
    unfold handlePaymentRedirect
    simp [ho, throwUnanswered, issuesRemote]
  | some order =>
    let gptx := redirectGptx (req.status.bind statusMap) env.verify
    let e0 : List Effect := [.dbSelect "shopify_order", .dbSelect "shopify_config"]
    let e1 := if req.status.bind statusMap ≠ some "cancelled" then e0 ++ [.gatewayVerify] else e0
    let gpOrder : Option GetpaidOrder := if gptx.isNone then findStub db req.tx_ref else none
    let e2 := if gptx.isNone then e1 ++ [.dbSelect "getpaid_order"] else e1
    have he2 : issuesRemote e2 = false := by
      simp only [e2, e1, e0]
      repeat' split
      all_goals rfl
    cases hst : crossCheck (resolveChain gptx gpOrder) gptx order.raw with
    | none =>
      exfalso
      have hout : handlePaymentRedirect db req env = throwUnanswered db e2 := by
        unfold handlePaymentRedirect
        simp only [ho, hst, gptx, gpOrder, e2, e1, e0]
      rw [hout] at hiss
      have : issuesRemote e2 = true := hiss
      rw [he2] at this
      exact absurd this (by decide)
    | some paymentStatus =>
      let orders1 := updateOrder db.shopifyOrder req.shop req.tx_ref paymentStatus
        ((orNullNat (gptx.bind fun tx => tx.id)).map TxRef.id)
        (orNullNat (gptx.bind fun tx => tx.account_id))
      let db1 : Db := { db with shopifyOrder := orders1 }
      refine redirect_tail_threw db1 (e2 ++ [.dbUpdate "shopify_order"]) paymentStatus
        order.gid gptx order.raw.cancel_url
        ((findConfig db req.shop).bind fun c => c.access_token) ?_ ?_ _ ?_ hiss
      · rw [issuesRemote_append, he2]
        rfl
      · simp
      · unfold handlePaymentRedirect
        simp only [ho, hremote, hst, gptx, gpOrder]

theorem redirect_remote_failure_escapes_witness :
    (handlePaymentRedirect (sampleDb (some "pending")) (sampleRedirect (some "successful"))
        failingRemoteEnv).threw = true ∧
    (handlePaymentRedirect (sampleDb (some "pending")) (sampleRedirect (some "successful"))
        failingRemoteEnv).response = some internalError ∧
    Effect.dbUpdate "shopify_order" ∈
      (handlePaymentRedirect (sampleDb (some "pending")) (sampleRedirect (some "successful"))
        failingRemoteEnv).effects :=
  redirect_remote_failure_escapes (sampleDb (some "pending"))
    (sampleRedirect (some "successful")) failingRemoteEnv rfl (by decide)

/-! ## Callback classification -/

theorem callbackPaymentStatus_comparable (tx : GpTx) (raw : OrderRaw)
    (hcmp : CurrenciesComparable tx raw) :
    (tx.status = some "successful" ∧ AmountCovers tx raw ∧ CurrencyMatches tx raw →
      callbackPaymentStatus tx raw = some "completed") ∧
    (¬ (tx.status = some "successful" ∧ AmountCovers tx raw ∧ CurrencyMatches tx raw) →
      callbackPaymentStatus tx raw = some "failed") := by
  obtain ⟨valid, hv, hiff⟩ := isValidCurrency_of_comparable tx raw hcmp
  unfold callbackPaymentStatus
  simp only [hv]
  constructor
  · intro h
    have h1 := (isValidAmount_eq_true_iff tx raw).2 h.2.1
    have h2 := hiff.2 h.2.2
    simp only [h1, h2, h.1, Bool.and_self, if_true]
  · intro h
    by_cases hs : tx.status = some "successful"
    · have h3 : (valid && isValidAmount tx.amount raw.amount) = false := by
        rw [Bool.and_eq_false_iff]
        by_cases hc : CurrencyMatches tx raw
        · right
          rw [← Bool.not_eq_true, isValidAmount_eq_true_iff]
          exact fun ha => h ⟨hs, ha, hc⟩
        · left
          rw [← Bool.not_eq_true]
          exact fun hv2 => hc (hiff.1 hv2)
      simp only [h3, Bool.false_eq_true, if_false]
    · simp only [hs, if_false, ite_self]

theorem callbackPaymentStatus_throws (tx : GpTx) (raw : OrderRaw)
    (hcmp : ¬ CurrenciesComparable tx raw) :
    callbackPaymentStatus tx raw = none := by
  unfold callbackPaymentStatus
  simp only [(isValidCurrency_eq_none_iff tx raw).2 hcmp]

theorem finalStatuses_of_open (status : Option String)
    (hc : status ≠ some "completed") (hf : status ≠ some "failed")
    (hk : ∀ s, status = some s → s ∉ objectPrototypeKeys) :
    finalStatuses status = false := by
  unfold finalStatuses truthyLookup
  cases status with
  | none => decide
  | some s =>
    have h1 : s ≠ "completed" := fun h => hc (by rw [h])
    have h2 : s ≠ "failed" := fun h => hf (by rw [h])
    have h3 := hk s rfl
    simp [h1, h2, h3]

theorem handlePaymentCallback_settles (hmacSha256Hex : String → String → String)
    (secret : String) (db : Db) (req : CallbackReq) (order : ShopifyOrder) (tx : GpTx)
    (token status : String)
    (h1 : hmacSha256Hex secret (hmacData req) ≠ "")
    (hauth : req.hmac = some (hmacSha256Hex secret (hmacData req)))
    (hstatus : req.status ≠ some "failed")
    (ho : findOrder db req.shop req.tx_ref = some order)
    (hfin : finalStatuses order.status = false)
    (ht : findTransaction db.getpaidTransaction req.tx_id = some tx)
    (htok : ((findConfig db req.shop).bind fun c => c.access_token) = some token)
    (hst : callbackPaymentStatus tx order.raw = some status) :
    (∃ gptxid account_id,
      (handlePaymentCallback hmacSha256Hex secret db req).db.shopifyOrder =
        updateOrder db.shopifyOrder req.shop req.tx_ref status gptxid account_id) ∧
    Effect.setTimeout 5000
        (if status = "completed" then .paymentSessionResolve order.gid
          else .paymentSessionReject order.gid
            (orDefaultStr tx.chargeResponseMessage "Payment failed")) ∈
      (handlePaymentCallback hmacSha256Hex secret db req).effects := by
  refine ⟨⟨(match req.tx_id with
      | .undefined => order.gptxid
      | .null => none
      | .value template number => some (.body template number)),
    orNullNat tx.account_id, ?_⟩, ?_⟩
  · unfold handlePaymentCallback
    rw [hauth]
    simp only [h1, if_false, ne_eq, not_true_eq_false, hstatus, ho, hfin, ht, htok, hst,
      Bool.false_eq_true]
  · unfold handlePaymentCallback
    rw [hauth]
    simp only [h1, if_false, ne_eq, not_true_eq_false, hstatus, ho, hfin, ht, htok, hst,
      Bool.false_eq_true]
    simp

theorem handlePaymentCallback_currency_throws (hmacSha256Hex : String → String → String)
    (secret : String) (db : Db) (req : CallbackReq) (order : ShopifyOrder) (tx : GpTx)
    (h1 : hmacSha256Hex secret (hmacData req) ≠ "")
    (hauth : req.hmac = some (hmacSha256Hex secret (hmacData req)))
    (hstatus : req.status ≠ some "failed")
    (ho : findOrder db req.shop req.tx_ref = some order)
    (hfin : finalStatuses order.status = false)
    (ht : findTransaction db.getpaidTransaction req.tx_id = some tx)
    (hst : callbackPaymentStatus tx order.raw = none) :
    (handlePaymentCallback hmacSha256Hex secret db req).db = db ∧
    (handlePaymentCallback hmacSha256Hex secret db req).threw = true ∧
    schedulesTask (handlePaymentCallback hmacSha256Hex secret db req).effects = false := by
  unfold handlePaymentCallback
  rw [hauth]
  simp only [h1, if_false, ne_eq, not_true_eq_false, hstatus, ho, hfin, ht, hst,
    Bool.false_eq_true]
  exact ⟨rfl, rfl, rfl⟩

/-- C29 (counterexample): a transaction whose currency is the order's
currency followed by a blank does not match it case-insensitively, yet the
callback writes `completed`; for a merchant whose access token has been
cleared the callback writes `failed` for a pending transaction, then throws
before any Reject is scheduled; and for a stored transaction whose currency
is `null` isValidCurrency throws, so that no status is written and no Reject
is scheduled. -/
theorem callback_classification_exceptions :
    (storedStatuses
        (handlePaymentCallback sampleDigest "f4b-secret"
          (sampleDbWithTx (some "pending") (sampleTx "successful" "NGN " 100))
          (sampleCallback (some "successful"))).db
        "demo.myshopify.com" "ORD-1" = [some "completed"] ∧
      asciiUpperCase "NGN " ≠ asciiUpperCase "NGN") ∧
    (storedStatuses
        (handlePaymentCallback sampleDigest "f4b-secret"
          { uninstalledDb (some "pending") with
            getpaidTransaction := [sampleTx "pending" "NGN" 100] }
          (sampleCallback (some "successful"))).db
        "demo.myshopify.com" "ORD-1" = [some "failed"] ∧
      (handlePaymentCallback sampleDigest "f4b-secret"
          { uninstalledDb (some "pending") with
            getpaidTransaction := [sampleTx "pending" "NGN" 100] }
          (sampleCallback (some "successful"))).threw = true ∧
      schedulesTask (handlePaymentCallback sampleDigest "f4b-secret"
          { uninstalledDb (some "pending") with
            getpaidTransaction := [sampleTx "pending" "NGN" 100] }
          (sampleCallback (some "successful"))).effects = false) ∧
    (storedStatuses
        (handlePaymentCallback sampleDigest "f4b-secret"
          (sampleDbWithTx (some "pending")
            { sampleTx "pending" "NGN" 100 with currency := .other })
          (sampleCallback (some "successful"))).db
        "demo.myshopify.com" "ORD-1" = [some "pending"] ∧
      (handlePaymentCallback sampleDigest "f4b-secret"
          (sampleDbWithTx (some "pending")
            { sampleTx "pending" "NGN" 100 with currency := .other })
          (sampleCallback (some "successful"))).threw = true ∧
      schedulesTask (handlePaymentCallback sampleDigest "f4b-secret"
          (sampleDbWithTx (some "pending")
            { sampleTx "pending" "NGN" 100 with currency := .other })
          (sampleCallback (some "successful"))).effects = false) := by
  refine ⟨⟨by decide, by decide⟩, ⟨by decide, by decide, by decide⟩,
    by decide, by decide, by decide⟩

/-- C29 (amended): for an authenticated callback whose body status is not
`failed`, an order whose stored status is neither `completed` nor `failed`,
a stored gateway transaction found for `tx_id` and a merchant whose access
token is stored, the order has at least one row, and when both currencies
are strings or absent every row of the order is stored as `completed` and a
Resolve is scheduled if the transaction's status is `successful`, its amount
is at least the captured amount and its currency equals the order's after
surrounding white space is trimmed and case is ignored; in every other such
case every row is stored as `failed` and a Reject is scheduled.  When a
currency is present but not a string the handler throws, stores nothing and
schedules nothing. -/
theorem callback_classification_is_two_valued (hmacSha256Hex : String → String → String)
    (secret : String) (db : Db) (req : CallbackReq) (order : ShopifyOrder) (tx : GpTx)
    (token : String)
    (hlen : (hmacSha256Hex secret (hmacData req)).length = 64)
    (hauth : req.hmac = some (hmacSha256Hex secret (hmacData req)))
    (hstatus : req.status ≠ some "failed")
    (ho : findOrder db req.shop req.tx_ref = some order)
    (hc : order.status ≠ some "completed") (hf : order.status ≠ some "failed")
    (hk : ∀ s, order.status = some s → s ∉ objectPrototypeKeys)
    (ht : findTransaction db.getpaidTransaction req.tx_id = some tx)
    (htok : ((findConfig db req.shop).bind fun c => c.access_token) = some token) :
    storedStatuses db req.shop req.tx_ref ≠ [] ∧
    (CurrenciesComparable tx order.raw →
      (tx.status = some "successful" ∧ AmountCovers tx order.raw ∧
          CurrencyMatches tx order.raw →
        storedStatuses (handlePaymentCallback hmacSha256Hex secret db req).db
            req.shop req.tx_ref
          = ((storedStatuses db req.shop req.tx_ref).map fun _ => some "completed") ∧
        Effect.setTimeout 5000 (.paymentSessionResolve order.gid) ∈
          (handlePaymentCallback hmacSha256Hex secret db req).effects) ∧
      (¬ (tx.status = some "successful" ∧ AmountCovers tx order.raw ∧
          CurrencyMatches tx order.raw) →
        storedStatuses (handlePaymentCallback hmacSha256Hex secret db req).db
            req.shop req.tx_ref
          = ((storedStatuses db req.shop req.tx_ref).map fun _ => some "failed") ∧
        Effect.setTimeout 5000 (.paymentSessionReject order.gid
            (orDefaultStr tx.chargeResponseMessage "Payment failed")) ∈
          (handlePaymentCallback hmacSha256Hex secret db req).effects)) ∧
    (¬ CurrenciesComparable tx order.raw →
      (handlePaymentCallback hmacSha256Hex secret db req).db = db ∧
      (handlePaymentCallback hmacSha256Hex secret db req).threw = true ∧
      schedulesTask (handlePaymentCallback hmacSha256Hex secret db req).effects = false) := by
  have h1 : hmacSha256Hex secret (hmacData req) ≠ "" := by
    intro h0
    rw [h0] at hlen
    exact absurd hlen (by decide)
  have hfin := finalStatuses_of_open order.status hc hf hk
  refine ⟨storedStatuses_ne_nil db req.shop req.tx_ref order ho, fun hcmp => ⟨?_, ?_⟩, ?_⟩
  · intro hvalid
    obtain ⟨⟨g, a, hdb⟩, heff⟩ := handlePaymentCallback_settles hmacSha256Hex secret db req
      order tx token "completed" h1 hauth hstatus ho hfin ht htok
      ((callbackPaymentStatus_comparable tx order.raw hcmp).1 hvalid)
    exact ⟨storedStatuses_of_updateOrder db _ req.shop req.tx_ref _ g a hdb, heff⟩
  · intro hinvalid
    obtain ⟨⟨g, a, hdb⟩, heff⟩ := handlePaymentCallback_settles hmacSha256Hex secret db req
      order tx token "failed" h1 hauth hstatus ho hfin ht htok
      ((callbackPaymentStatus_comparable tx order.raw hcmp).2 hinvalid)
    exact ⟨storedStatuses_of_updateOrder db _ req.shop req.tx_ref _ g a hdb, heff⟩
  · intro hcmp
    exact handlePaymentCallback_currency_throws hmacSha256Hex secret db req order tx
      h1 hauth hstatus ho hfin ht (callbackPaymentStatus_throws tx order.raw hcmp)

/-- Witness for C29: a stored pending transaction of 100 NGN for the sample
order is written as `failed` and a Reject is scheduled. -/
theorem callback_classification_is_two_valued_witness :
    storedStatuses
        (handlePaymentCallback sampleDigest "f4b-secret"
          (sampleDbWithTx (some "pending") (sampleTx "pending" "NGN" 100))
          (sampleCallback (some "successful"))).db
        "demo.myshopify.com" "ORD-1" = [some "failed"] ∧
    Effect.setTimeout 5000 (.paymentSessionReject "gid://pay/1" "Payment failed") ∈
      (handlePaymentCallback sampleDigest "f4b-secret"
        (sampleDbWithTx (some "pending") (sampleTx "pending" "NGN" 100))
        (sampleCallback (some "successful"))).effects :=
  ((callback_classification_is_two_valued sampleDigest "f4b-secret"
    (sampleDbWithTx (some "pending") (sampleTx "pending" "NGN" 100))
    (sampleCallback (some "successful")) (sampleOrder (some "pending"))
    (sampleTx "pending" "NGN" 100) "shpat_token"
    (by decide) (by decide) (by decide) (by decide) (by decide) (by decide)
    (by intro s hs; cases hs; decide) (by decide) (by decide)).2.1
      ⟨by decide, by decide⟩).2 (fun h => absurd h.1 (by decide))

/-! ## Head-of-line blocking of the retry queue -/

theorem handlePaymentInit_guards (defaultStatus : Option String) (db : Db) (req : InitReq)
    (post : LinkOutcome) :
    (handlePaymentInit defaultStatus db req post).db.progressGuard = db.progressGuard := by
  unfold handlePaymentInit throwUnanswered
  simp only []
  repeat' split
  all_goals rfl

theorem handlePaymentRedirect_guards (db : Db) (req : RedirectReq) (env : RedirectEnv) :
    (handlePaymentRedirect db req env).db.progressGuard = db.progressGuard := by
  unfold handlePaymentRedirect
  simp only []
  cases ho : findOrder db req.shop req.tx_ref with
  | none => rfl
  | some order =>
    simp only []
    repeat' split
    all_goals rfl

theorem handlePaymentCallback_guards (hmacSha256Hex : String → String → String)
    (secret : String) (db : Db) (req : CallbackReq) :
    (handlePaymentCallback hmacSha256Hex secret db req).db.progressGuard = db.progressGuard := by
  unfold handlePaymentCallback
  cases hh : req.hmac with
  | none => rfl
  | some hmac =>
    simp only []
    by_cases h1 : hmac = ""
    · rw [if_pos h1]
    · rw [if_neg h1]
      by_cases h2 : hmac ≠ hmacSha256Hex secret (hmacData req)
      · rw [if_pos h2]
      · rw [if_neg h2]
        by_cases h3 : req.status = some "failed"
        · rw [if_pos h3]
        · rw [if_neg h3]
          cases ho : findOrder db req.shop req.tx_ref with
          | none => rfl
          | some order =>
            simp only []
            by_cases h4 : finalStatuses order.status = true
            · rw [if_pos h4]
            · rw [if_neg h4]
              cases ht : findTransaction db.getpaidTransaction req.tx_id with
              | none => rfl
              | some tx =>
                simp only []
                cases hst : callbackPaymentStatus tx order.raw with
                | none => rfl
                | some paymentStatus =>
                  simp only []
                  cases hs : (findConfig db req.shop).bind fun c => c.access_token with
                  | none => rfl
                  | some tok => rfl

theorem refundInitFollowUp_guards (db1 : Db) (order : ShopifyOrder) (refund : ShopifyRefund)
    (req : RefundReq) (env : RefundEnv) (effects : List Effect) :
    (refundInitFollowUp db1 order refund req env effects).db.progressGuard
      = db1.progressGuard := by
  unfold refundInitFollowUp refundInitSettle
  simp only []
  repeat' split
  all_goals rfl

theorem handleRefundInit_guards (db : Db) (req : RefundReq) (env : RefundEnv) :
    (handleRefundInit db req env).db.progressGuard = db.progressGuard := by
  unfold handleRefundInit
  simp only []
  split
  · rfl
  · split
    · rfl
    · split
      · rfl
      · exact refundInitFollowUp_guards _ _ _ _ _ _

theorem tickSettle_guards (db : Db) (refund : ShopifyRefund) (meta : MetaObj) (env : TickEnv)
    (effects : List Effect) :
    (tickSettle db refund meta env effects).db.progressGuard = db.progressGuard := by
  unfold tickSettle
  split
  · rfl
  · rfl
  · split
    · rfl
    · rfl

theorem tickProcess_guards (db : Db) (refund : ShopifyRefund) (env : TickEnv)
    (effects : List Effect) :
    (tickProcess db refund env effects).db.progressGuard = db.progressGuard := by
  unfold tickProcess
  split
  · rfl
  · rfl
  · rename_i meta0 hm
    by_cases hcap : strictEqNumber meta0.retryCount meta0.maxRetries = true
    · simp only [hcap, if_true]
      split
      · rfl
      · exact tickSettle_guards _ refund _ env _
    · simp only [hcap, Bool.false_eq_true, if_false]
      split
      · rfl
      · exact tickSettle_guards db refund _ env _

theorem insertGuard_none_iff (rows : List ProgressGuard) (entity entity_type : String) :
    insertGuard rows entity entity_type = none ↔ entity ∈ rows.map fun g => g.entity := by
  unfold insertGuard
  by_cases h : (rows.any fun g => g.entity = entity) = true
  · rw [if_pos h]
    simp only [List.any_eq_true, decide_eq_true_eq] at h
    simp only [List.mem_map, true_iff]
    exact h
  · rw [if_neg h]
    simp only [List.any_eq_true, decide_eq_true_eq] at h
    simp only [List.mem_map, false_iff, reduceCtorEq]
    exact h

theorem insertGuard_some (rows stored : List ProgressGuard) (entity entity_type : String)
    (h : insertGuard rows entity entity_type = some stored) :
    stored = rows ++ [{ entity := entity, entity_type := entity_type }] := by
  unfold insertGuard at h
  split at h
  · exact absurd h (by simp)
  · exact (Option.some.inj h).symm

theorem clearshopifyRefundsWith_tokens (shopifyOrder : Option ShopifyOrder) (db : Db)
    (env : TickEnv) :
    (∀ token ∈ storedTokens db,
      token ∈ storedTokens (clearshopifyRefundsWith shopifyOrder db env).db) ∧
    ∀ refund, selectOverdue db.shopifyRefund env.now = some refund →
      claimToken refund.refund_id (refund.retry_ts.getD 0)
        ∈ storedTokens (clearshopifyRefundsWith shopifyOrder db env).db := by
  unfold clearshopifyRefundsWith storedTokens
  simp only []
  cases hsel : selectOverdue db.shopifyRefund env.now with
  | none => exact ⟨fun _ h => h, fun _ h => absurd h (by simp)⟩
  | some refund =>
    simp only []
    cases hg : insertGuard db.progressGuard
        (claimToken refund.refund_id (refund.retry_ts.getD 0)) "SHRFD" with
    | none =>
      refine ⟨fun _ h => h, fun r hr => ?_⟩
      cases Option.some.inj hr
      exact (insertGuard_none_iff _ _ _).1 hg
    | some guards =>
      have hgs := insertGuard_some _ _ _ _ hg
      have key : ∀ out : Outcome, out.db.progressGuard = guards →
          (∀ token ∈ db.progressGuard.map (fun g => g.entity),
            token ∈ out.db.progressGuard.map fun g => g.entity) ∧
          ∀ r, some refund = some r →
            claimToken r.refund_id (r.retry_ts.getD 0)
              ∈ out.db.progressGuard.map fun g => g.entity := by
        intro out ho
        rw [ho, hgs]
        refine ⟨fun t ht => ?_, fun r hr => ?_⟩
        · rw [List.map_append]
          exact List.mem_append_left _ ht
        · cases Option.some.inj hr
          simp
      simp only []
      split
      · exact key _ rfl
      · split
        · exact key _ rfl
        · exact key _ (tickProcess_guards _ refund env _)

theorem step_tokens (hmacSha256Hex : String → String → String) (secret : String) (db : Db)
    (s : Step) :
    ∀ token ∈ storedTokens db, token ∈ storedTokens (step hmacSha256Hex secret db s) := by
  cases s with
  | checkoutInit defaultStatus req post =>
    intro t ht
    show t ∈ (handlePaymentInit defaultStatus db req post).db.progressGuard.map _
    rw [handlePaymentInit_guards]
    exact ht
  | refundInit req env =>
    intro t ht
    show t ∈ (handleRefundInit db req env).db.progressGuard.map _
    rw [handleRefundInit_guards]
    exact ht
  | tick shopifyOrder env => exact (clearshopifyRefundsWith_tokens shopifyOrder db env).1
  | redirect req env =>
    intro t ht
    show t ∈ (handlePaymentRedirect db req env).db.progressGuard.map _
    rw [handlePaymentRedirect_guards]
    exact ht
  | callback req =>
    intro t ht
    show t ∈ (handlePaymentCallback hmacSha256Hex secret db req).db.progressGuard.map _
    rw [handlePaymentCallback_guards]
    exact ht

theorem run_tokens (hmacSha256Hex : String → String → String) (secret : String)
    (steps : List Step) :
    ∀ db : Db, ∀ token ∈ storedTokens db,
      token ∈ storedTokens (run hmacSha256Hex secret db steps) := by
  induction steps with
  | nil => intro db t h; exact h
  | cons s rest ih =>
    intro db t h
    exact ih (step hmacSha256Hex secret db s) t (step_tokens hmacSha256Hex secret db s t h)

theorem clearshopifyRefundsWith_contended (shopifyOrder : Option ShopifyOrder) (db : Db)
    (env : TickEnv) (refund : ShopifyRefund)
    (hsel : selectOverdue db.shopifyRefund env.now = some refund)
    (hheld : claimToken refund.refund_id (refund.retry_ts.getD 0) ∈ storedTokens db) :
    clearshopifyRefundsWith shopifyOrder db env =
      { db := db, response := none,
        effects := [.dbSelect "shopify_refund", .dbInsert "progress_guard"], threw := false } := by
  have hg := (insertGuard_none_iff db.progressGuard
    (claimToken refund.refund_id (refund.retry_ts.getD 0)) "SHRFD").2 hheld
  unfold clearshopifyRefundsWith
  simp only [hsel, hg]
  rfl

/-- C30: let a tick select refund `r`, so that the claim token of `r`'s
epoch is stored when the tick ends (the tick acquired the claim, or found it
taken).  After any further steps (requests and ticks, with `shopifyOrder`
bound or not), every tick that selects a refund with the refund identifier
and the retry timestamp of `r` (that is, `r` is still pending, has not been
rescheduled and is again the oldest overdue refund) finds the claim token
taken: the guard insert of `r`'s token fails, the tick issues the select and
that insert only, changes nothing, and ends without processing that refund
or any other overdue refund. -/
theorem claimed_epoch_blocks_queue (hmacSha256Hex : String → String → String)
    (secret : String) (first later : Option ShopifyOrder) (db : Db) (env env2 : TickEnv)
    (steps : List Step) (refund refund2 : ShopifyRefund)
    (hsel : selectOverdue db.shopifyRefund env.now = some refund)
    (hsel2 : selectOverdue
      (run hmacSha256Hex secret (clearshopifyRefundsWith first db env).db steps).shopifyRefund
      env2.now = some refund2)
    (hid : refund2.refund_id = refund.refund_id) (hts : refund2.retry_ts = refund.retry_ts) :
    insertGuard
        (run hmacSha256Hex secret (clearshopifyRefundsWith first db env).db steps).progressGuard
        (claimToken refund.refund_id (refund.retry_ts.getD 0)) "SHRFD" = none ∧
    clearshopifyRefundsWith later
        (run hmacSha256Hex secret (clearshopifyRefundsWith first db env).db steps) env2 =
      { db := run hmacSha256Hex secret (clearshopifyRefundsWith first db env).db steps,
        response := none,
        effects := [.dbSelect "shopify_refund", .dbInsert "progress_guard"],
        threw := false } := by
  have hheld := run_tokens hmacSha256Hex secret steps _ _
    ((clearshopifyRefundsWith_tokens first db env).2 refund hsel)
  refine ⟨(insertGuard_none_iff _ _ _).2 hheld, ?_⟩
  apply clearshopifyRefundsWith_contended later _ env2 refund2 hsel2
  rw [hid, hts]
  exact hheld

theorem claimed_epoch_blocks_queue_witness :
    insertGuard
        (run sampleDigest "f4b-secret"
          (clearshopifyRefundsWith (some (sampleOrder (some "completed"))) pendingRetryDb
            undecidedTickEnv).db
          [.tick none { undecidedTickEnv with now := 460000 }]).progressGuard
        (claimToken pendingRetryRefund.refund_id (pendingRetryRefund.retry_ts.getD 0))
        "SHRFD" = none ∧
    clearshopifyRefundsWith none
        (run sampleDigest "f4b-secret"
          (clearshopifyRefundsWith (some (sampleOrder (some "completed"))) pendingRetryDb
            undecidedTickEnv).db
          [.tick none { undecidedTickEnv with now := 460000 }])
        { undecidedTickEnv with now := 520000 } =
      { db := run sampleDigest "f4b-secret"
          (clearshopifyRefundsWith (some (sampleOrder (some "completed"))) pendingRetryDb
            undecidedTickEnv).db
          [.tick none { undecidedTickEnv with now := 460000 }],
        response := none,
        effects := [.dbSelect "shopify_refund", .dbInsert "progress_guard"],
        threw := false } :=
  claimed_epoch_blocks_queue sampleDigest "f4b-secret" (some (sampleOrder (some "completed")))
    none pendingRetryDb undecidedTickEnv { undecidedTickEnv with now := 520000 }
    [.tick none { undecidedTickEnv with now := 460000 }] pendingRetryRefund pendingRetryRefund
    (by decide) (by decide) rfl rfl

/-! ## Claim tokens -/

theorem digitChar_spec (m : Nat) (hm : m < 10) :
    (Nat.digitChar m).toNat - 48 = m ∧ Nat.digitChar m ≠ '-' := by
  interval_cases m <;> exact ⟨rfl, by decide⟩

theorem decimalValue_append (ds : List Char) (c : Char) :
    decimalValue (ds ++ [c]) = 10 * decimalValue ds + (c.toNat - 48) := by
  unfold decimalValue
  rw [List.foldl_append]
  rfl

theorem toDigitsCore_decode : ∀ (budget value : Nat) (rest : List Char), value < budget →
    ∃ written : List Char, (∀ c ∈ written, c ≠ '-') ∧ decimalValue written = value ∧
      Nat.toDigitsCore 10 budget value rest = written ++ rest := by
  intro budget
  induction budget with
  | zero => intro value rest h; omega
  | succ budget ih =>
    intro value rest hlt
    have hd := digitChar_spec (value % 10) (Nat.mod_lt _ (by decide))
    unfold Nat.toDigitsCore
    by_cases hlast : value / 10 = 0
    · simp only [hlast, if_true]
      refine ⟨[Nat.digitChar (value % 10)], ?_, ?_, rfl⟩
      · intro c hc
        rw [List.mem_singleton] at hc
        rw [hc]
        exact hd.2
      · show 10 * 0 + ((Nat.digitChar (value % 10)).toNat - 48) = value
        rw [hd.1]
        omega
    · simp only [hlast, if_false]
      obtain ⟨front, h1, h2, h3⟩ :=
        ih (value / 10) (Nat.digitChar (value % 10) :: rest) (by omega)
      refine ⟨front ++ [Nat.digitChar (value % 10)], ?_, ?_, ?_⟩
      · intro c hc
        rcases List.mem_append.1 hc with h | h
        · exact h1 c h
        · rw [List.mem_singleton] at h
          rw [h]
          exact hd.2
      · rw [decimalValue_append, h2, hd.1]
        omega
      · rw [h3]
        simp

theorem repr_decode (n : Nat) :
    (∀ c ∈ (toString n).data, c ≠ '-') ∧ decimalValue (toString n).data = n := by
  obtain ⟨written, h1, h2, h3⟩ := toDigitsCore_decode (n + 1) n [] (Nat.lt_succ_self n)
  have : (toString n).data = written := by
    show (Nat.repr n).data = written
    unfold Nat.repr Nat.toDigits
    rw [h3]
    simp [List.asString]
  rw [this]
  exact ⟨h1, h2⟩

theorem append_dash_inj : ∀ (l1 l2 d1 d2 : List Char), (∀ c ∈ d1, c ≠ '-') →
    (∀ c ∈ d2, c ≠ '-') → l1 ++ '-' :: d1 = l2 ++ '-' :: d2 → l1 = l2 ∧ d1 = d2 := by
  intro l1
  induction l1 with
  | nil =>
    intro l2 d1 d2 h1 h2 h
    cases l2 with
    | nil => simpa using h
    | cons x rest =>
      simp only [List.nil_append, List.cons_append, List.cons.injEq] at h
      exact absurd rfl (h1 '-' (by rw [h.2]; simp))
  | cons y l1 ih =>
    intro l2 d1 d2 h1 h2 h
    cases l2 with
    | nil =>
      simp only [List.nil_append, List.cons_append, List.cons.injEq] at h
      exact absurd rfl (h2 '-' (by rw [← h.2]; simp))
    | cons x rest =>
      simp only [List.cons_append, List.cons.injEq] at h
      obtain ⟨e1, e2⟩ := ih rest d1 d2 h1 h2 h.2
      exact ⟨by rw [h.1, e1], e2⟩

theorem claimToken_data (refund_id : String) (retry_ts : Nat) :
    (claimToken refund_id retry_ts).data = refund_id.data ++ '-' :: (toString retry_ts).data := by
  unfold claimToken
  simp [String.data_append]

theorem claimToken_inj (a b : String) (s t : Nat) (h : claimToken a s = claimToken b t) :
    a = b ∧ s = t := by
  have hd : (claimToken a s).data = (claimToken b t).data := by rw [h]
  rw [claimToken_data, claimToken_data] at hd
  obtain ⟨e1, e2⟩ := append_dash_inj _ _ _ _ (repr_decode s).1 (repr_decode t).1 hd
  refine ⟨String.ext e1, ?_⟩
  rw [← (repr_decode s).2, ← (repr_decode t).2, e2]

/-- C26: the claim token `${refund_id}-${retry_ts}` determines the pair it
was built from: two pairs of a refund identifier and a non-negative integer
retry timestamp yield the same token exactly when the identifiers are equal
and the timestamps are equal. -/
theorem claimToken_injective (a b : String) (s t : Nat) :
    claimToken a s = claimToken b t ↔ a = b ∧ s = t := by
  constructor
  · exact claimToken_inj a b s t
  · rintro ⟨rfl, rfl⟩
    rfl

/-! ## Retry epochs -/

theorem clearshopifyRefunds_rows (db : Db) (env : TickEnv) :
    (clearshopifyRefunds db env).db.shopifyRefund = db.shopifyRefund := by
  unfold clearshopifyRefunds clearshopifyRefundsWith
  simp only []
  repeat' split
  all_goals rfl

/-- C27 (the claim fails on the code): a tick as shipped that claims the
overdue refund `r` stores the claim token of `r`'s retry timestamp and then
throws on the unbound identifier of line 234, before any settlement attempt:
no refund POST is sent and no refund row is changed, so `r` keeps the retry
timestamp it had.  A later tick therefore selects `r` with the same
timestamp, and the claim token of that next attempt is one that is already
stored: the guard insert is refused. -/
theorem shipped_tick_reuses_claimed_epoch (db : Db) (env later : TickEnv)
    (refund : ShopifyRefund) (guards : List ProgressGuard)
    (hsel : selectOverdue db.shopifyRefund env.now = some refund)
    (hguard : insertGuard db.progressGuard
      (claimToken refund.refund_id (refund.retry_ts.getD 0)) "SHRFD" = some guards)
    (hlater : selectOverdue db.shopifyRefund later.now = some refund) :
    (clearshopifyRefunds db env).threw = true ∧
    (clearshopifyRefunds db env).effects
      = [.dbSelect "shopify_refund", .dbInsert "progress_guard"] ∧
    (clearshopifyRefunds db env).db.shopifyRefund = db.shopifyRefund ∧
    storedTokens (clearshopifyRefunds db env).db
      = storedTokens db ++ [claimToken refund.refund_id (refund.retry_ts.getD 0)] ∧
    selectOverdue (clearshopifyRefunds db env).db.shopifyRefund later.now = some refund ∧
    insertGuard (clearshopifyRefunds db env).db.progressGuard
      (claimToken refund.refund_id (refund.retry_ts.getD 0)) "SHRFD" = none := by
  have hg := insertGuard_some _ _ _ _ hguard
  have hout : clearshopifyRefunds db env =
      { db := { db with progressGuard := guards }, response := none,
        effects := [.dbSelect "shopify_refund", .dbInsert "progress_guard"],
        threw := true } := by
    unfold clearshopifyRefunds clearshopifyRefundsWith
    simp only [hsel, hguard]
    rfl
  have htok : storedTokens (clearshopifyRefunds db env).db
      = storedTokens db ++ [claimToken refund.refund_id (refund.retry_ts.getD 0)] := by
    rw [hout]
    unfold storedTokens
    simp only [hg, List.map_append, List.map_cons, List.map_nil]
  refine ⟨by rw [hout], by rw [hout], clearshopifyRefunds_rows db env, htok, ?_, ?_⟩
  · rw [clearshopifyRefunds_rows db env]
    exact hlater
  · rw [insertGuard_none_iff]
    have hmem : claimToken refund.refund_id (refund.retry_ts.getD 0)
        ∈ storedTokens (clearshopifyRefunds db env).db := by
      rw [htok]
      simp
    exact hmem

/-- Witness for C27: the refund that handleRefundInit rescheduled to 301000
is claimed by the tick at 400000; it keeps the timestamp 301000 instead of
getting 601000, and the token `RF-1-301000` of its next attempt is stored. -/
theorem shipped_tick_reuses_claimed_epoch_witness :
    rescheduledDb.shopifyRefund = [rescheduledRefund] ∧
    ((clearshopifyRefunds rescheduledDb { sampleTickEnv with now := 400000 }).db.shopifyRefund.map
      fun r => r.retry_ts) = [some 301000] ∧
    storedTokens (clearshopifyRefunds rescheduledDb { sampleTickEnv with now := 400000 }).db
      = ["RF-1-301000"] ∧
    insertGuard
      (clearshopifyRefunds rescheduledDb { sampleTickEnv with now := 400000 }).db.progressGuard
      "RF-1-301000" "SHRFD" = none := by
  have h := shipped_tick_reuses_claimed_epoch rescheduledDb
    { sampleTickEnv with now := 400000 } { sampleTickEnv with now := 700000 }
    rescheduledRefund [{ entity := "RF-1-301000", entity_type := "SHRFD" }]
    (by decide) (by decide) (by decide)
  refine ⟨by decide, ?_, ?_, ?_⟩
  · rw [h.2.2.1]
    decide
  · rw [h.2.2.2.1]
    decide
  · exact h.2.2.2.2.2

end F4bShopify
